import Mathlib

/-! ADXL345 driver (adxl345.hpp / adxl345.cpp): register-level model.

Shallow embedding of the abstract base class `ADXL345`.

* `uint8_t` values are naturals; every narrowing conversion of the source is an
  explicit `% 256`.  `int` is the 32-bit two's-complement `int` of the target, so
  `~x` on a promoted operand is `compl32 x`.
* The four pure-virtual methods `_WriteTo` / `_ReadFrom` (single and block) are
  the fields of `RegisterAccess β`, where `β` is the state of whatever stands
  behind them (a transport and a device).
* `float` quantities are exact rationals: the model is the exact-arithmetic
  reading of the source's floating-point expressions.
-/

namespace ADXL345

/-! ## Constants of the class enum -/

def STATUS_INVALID_ID : Nat := 0x10

def REG_DEVID : Nat := 0x00
def REG_RESERVED_FIRST : Nat := 0x01
def REG_RESERVED_LAST : Nat := 0x1C
def REG_THRESH_TAP : Nat := 0x1D
def REG_OFSX : Nat := 0x1E
def REG_OFSY : Nat := 0x1F
def REG_OFSZ : Nat := 0x20
def REG_DUR : Nat := 0x21
def REG_LATENT : Nat := 0x22
def REG_WINDOW : Nat := 0x23
def REG_THRESH_ACT : Nat := 0x24
def REG_THRESH_INACT : Nat := 0x25
def REG_TIME_INACT : Nat := 0x26
def REG_ACT_INACT_CTL : Nat := 0x27
def REG_THRESH_FF : Nat := 0x28
def REG_TIME_FF : Nat := 0x29
def REG_TAP_AXES : Nat := 0x2A
def REG_ACT_TAP_STATUS : Nat := 0x2B
def REG_BW_RATE : Nat := 0x2C
def REG_POWER_CTL : Nat := 0x2D
def REG_INT_ENABLE : Nat := 0x2E
def REG_INT_MAP : Nat := 0x2F
def REG_INT_SOURCE : Nat := 0x30
def REG_DATA_FORMAT : Nat := 0x31
def REG_DATAX0 : Nat := 0x32
def REG_DATAX1 : Nat := 0x33
def REG_DATAY0 : Nat := 0x34
def REG_DATAY1 : Nat := 0x35
def REG_DATAZ0 : Nat := 0x36
def REG_DATAZ1 : Nat := 0x37
def REG_FIFO_CTL : Nat := 0x38
def REG_FIFO_STATUS : Nat := 0x39

def BIT_ACT_TAP_STATUS_ASLEEP : Nat := 0x3

def BIT_BW_RATE_LOW_POWER : Nat := 0x4

def BIT_POWER_CTL_LINK : Nat := 0x5
def BIT_POWER_CTL_AUTO_SLEEP : Nat := 0x4
def BIT_POWER_CTL_MEASURE : Nat := 0x3
def BIT_POWER_CTL_SLEEP : Nat := 0x2

def BIT_DATA_FORMAT_SELF_TEST : Nat := 0x7
def BIT_DATA_FORMAT_SPI_3WIRE : Nat := 0x6
def BIT_DATA_FORMAT_INT_INVERT : Nat := 0x5
def BIT_DATA_FORMAT_FULL_RES : Nat := 0x3
def BIT_DATA_FORMAT_JUSTIFY_LEFT : Nat := 0x2

def BIT_FIFO_CTL_MODE_LSB : Nat := 0x6
def BIT_FIFO_CTL_TRIGGER_INT2 : Nat := 0x5

def BIT_FIFO_STATUS_FIFO_TRIG : Nat := 0x7

def VAL_DEVICE_ID : Nat := 0o345

def BUFFER_MAX : Nat := 0x6

/-! ## C integer conversions -/

/-- C's `~x` on a 32-bit `int`, on the two's-complement bit pattern of `x`. -/
def compl32 (x : Nat) : Nat := 0xFFFFFFFF - x % 4294967296

/-- Conversion to `uint8_t`. -/
def toUint8 (x : Nat) : Nat := x % 256

/-- Conversion of a `bool` to `int`. -/
def boolToInt (v : Bool) : Nat := if v then 1 else 0

/-- Conversion of an integer to `bool`. -/
def intToBool (x : Nat) : Bool := decide (x ≠ 0)

/-- The value of a byte reinterpreted as `int8_t`. -/
def toInt8 (x : Nat) : Int := if x % 256 < 128 then (x % 256 : Nat) else ((x % 256 : Nat) : Int) - 256

/-- Conversion of an `int` to `int16_t`. -/
def toInt16 (x : Int) : Int := (x + 32768) % 65536 - 32768

/-- The byte that holds an `int8_t` value. -/
def int8Byte (x : Int) : Nat := (x % 256).toNat

/-! ## The register access layer -/

/-- The four pure-virtual methods of the class, over the state `β` of the
transport and device behind them.  Each returns the new state and the status
(zero is success).  An array or pointer argument is the memory it points to, as
a map from index to element.

* `_WriteTo b reg val`: the single-byte write.
* `_WriteToBlock b reg data n`: the block write of `data[0..n-1]`.
* `_ReadFrom b reg val`: the single-byte read; `val` is the byte behind the
  pointer before the call, the third component of the result is the byte behind
  it after the call.
* `_ReadFromBlock b reg data n`: the block read; `data` is the buffer before
  the call, the third component of the result is the buffer after the call. -/
structure RegisterAccess (β : Type) where
  _WriteTo : β → Nat → Nat → β × Nat
  _WriteToBlock : β → Nat → (Nat → Nat) → Nat → β × Nat
  _ReadFrom : β → Nat → Nat → β × Nat × Nat
  _ReadFromBlock : β → Nat → (Nat → Nat) → Nat → β × Nat × (Nat → Nat)

end ADXL345

/-- The data members of class `ADXL345`. -/
structure ADXL345 where
  _dataFormat : Nat
  _gain : Fin 3 → ℚ

namespace ADXL345

variable {β : Type}

/-- The constructor `ADXL345()`. -/
def new : ADXL345 := { _dataFormat := 0x00, _gain := fun _ => 1 }

def SetGain (self : ADXL345) (gain : Nat → ℚ) : ADXL345 :=
  { self with _gain := fun i => gain i.val }

def GetGain (self : ADXL345) (gain : Nat → ℚ) : Nat → ℚ :=
  fun i => if h : i < 3 then self._gain ⟨i, h⟩ else gain i

/-! ## DATA_FORMAT -/

def _SelfTest (self : ADXL345) : Bool :=
  intToBool (self._dataFormat >>> BIT_DATA_FORMAT_SELF_TEST)

def _SPI3Wire (self : ADXL345) : Bool :=
  intToBool ((self._dataFormat >>> BIT_DATA_FORMAT_SPI_3WIRE) &&& 1)

def _IntActiveLow (self : ADXL345) : Bool :=
  intToBool ((self._dataFormat >>> BIT_DATA_FORMAT_INT_INVERT) &&& 1)

def _FullRes (self : ADXL345) : Bool :=
  intToBool ((self._dataFormat >>> BIT_DATA_FORMAT_FULL_RES) &&& 1)

def _LeftJustify (self : ADXL345) : Bool :=
  intToBool ((self._dataFormat >>> BIT_DATA_FORMAT_JUSTIFY_LEFT) &&& 1)

def _Range (self : ADXL345) : Nat :=
  let rangeMask : Nat := 0x03
  toUint8 (self._dataFormat &&& rangeMask)

def SetDataFormat (ra : RegisterAccess β) (self : ADXL345) (b : β) (bitfield : Nat) :
    ADXL345 × β × Nat :=
  let (b1, status) := ra._WriteTo b REG_DATA_FORMAT bitfield
  if status = 0 then ({ self with _dataFormat := bitfield }, b1, status)
  else (self, b1, status)

def RefreshDataFormat (ra : RegisterAccess β) (self : ADXL345) (b : β) :
    ADXL345 × β × Nat :=
  let (b1, status, val) := ra._ReadFrom b REG_DATA_FORMAT self._dataFormat
  ({ self with _dataFormat := val }, b1, status)

def GetDataFormat (self : ADXL345) : Nat := self._dataFormat

def SetSelfTest (ra : RegisterAccess β) (self : ADXL345) (b : β) (selfTest : Bool) :
    ADXL345 × β × Nat :=
  let bitfield := toUint8 (
    (self._dataFormat &&& compl32 (1 <<< BIT_DATA_FORMAT_SELF_TEST))
    ||| (boolToInt selfTest <<< BIT_DATA_FORMAT_SELF_TEST))
  SetDataFormat ra self b bitfield

def GetSelfTest (self : ADXL345) : Bool := self._SelfTest

def SetSPI3Wire (ra : RegisterAccess β) (self : ADXL345) (b : β) (spi3wire : Bool) :
    ADXL345 × β × Nat :=
  let bitfield := toUint8 (
    (self._dataFormat &&& compl32 (1 <<< BIT_DATA_FORMAT_SPI_3WIRE))
    ||| (boolToInt spi3wire <<< BIT_DATA_FORMAT_SPI_3WIRE))
  SetDataFormat ra self b bitfield

def GetSPI3Wire (self : ADXL345) : Bool := self._SPI3Wire

def SetIntActiveLow (ra : RegisterAccess β) (self : ADXL345) (b : β) (intActiveLow : Bool) :
    ADXL345 × β × Nat :=
  let bitfield := toUint8 (
    (self._dataFormat &&& compl32 (1 <<< BIT_DATA_FORMAT_INT_INVERT))
    ||| (boolToInt intActiveLow <<< BIT_DATA_FORMAT_INT_INVERT))
  SetDataFormat ra self b bitfield

def GetIntActiveLow (self : ADXL345) : Bool := self._IntActiveLow

def SetFullRes (ra : RegisterAccess β) (self : ADXL345) (b : β) (fullRes : Bool) :
    ADXL345 × β × Nat :=
  let bitfield := toUint8 (
    (self._dataFormat &&& compl32 (1 <<< BIT_DATA_FORMAT_FULL_RES))
    ||| (boolToInt fullRes <<< BIT_DATA_FORMAT_FULL_RES))
  SetDataFormat ra self b bitfield

def GetFullRes (self : ADXL345) : Bool := self._FullRes

def SetLeftJustify (ra : RegisterAccess β) (self : ADXL345) (b : β) (leftJustify : Bool) :
    ADXL345 × β × Nat :=
  let bitfield := toUint8 (
    (self._dataFormat &&& compl32 (1 <<< BIT_DATA_FORMAT_JUSTIFY_LEFT))
    ||| (boolToInt leftJustify <<< BIT_DATA_FORMAT_JUSTIFY_LEFT))
  SetDataFormat ra self b bitfield

def GetLeftJustify (self : ADXL345) : Bool := self._LeftJustify

def SetRange (ra : RegisterAccess β) (self : ADXL345) (b : β) (range : Nat) :
    ADXL345 × β × Nat :=
  let rangeMask : Nat := 0x03
  let bitfield := toUint8 ((self._dataFormat &&& compl32 rangeMask) ||| range)
  SetDataFormat ra self b bitfield

def GetRange (self : ADXL345) : Nat := self._Range

/-! ## DATAxx -/

/-- The body of the loop of `GetDataRaw` for one axis: the value stored into
`data[i]`, from the bytes `lo = buffer[2*i]` and `hi = buffer[2*i+1]`. -/
def decodeAxis (fullRes leftJustify : Bool) (range : Nat) (lo hi : Nat) : Int :=
  let data : Int := toInt16 ((lo : Int) + toInt8 hi * 256)
  if leftJustify then
    let divisor : Nat := 64
    let divisor : Nat := if fullRes then toUint8 (divisor >>> range) else divisor
    toInt16 (Int.tdiv data (divisor : Int))
  else data

/-- `GetDataRaw`.  `data` is the caller's array before the call, `buffer` the
indeterminate content of the uninitialised local; the third component of the
result is the caller's array after the call. -/
def GetDataRaw (ra : RegisterAccess β) (self : ADXL345) (b : β)
    (data : Nat → Int) (buffer : Nat → Nat) : β × Nat × (Nat → Int) :=
  let fullRes := self._FullRes
  let leftJustify := self._LeftJustify
  let range := self._Range
  let (b1, status, buffer) := ra._ReadFromBlock b REG_DATAX0 buffer 6
  if status ≠ 0 then (b1, status, data)
  else
    (b1, 0, fun i =>
      if i < 3 then decodeAxis fullRes leftJustify range (buffer (2 * i)) (buffer (2 * i + 1))
      else data i)

/-- `GetData`, in exact arithmetic.  `data` is the caller's array before the
call, `raw` and `buffer` the indeterminate contents of the uninitialised locals
of `GetData` and `GetDataRaw`. -/
def GetData (ra : RegisterAccess β) (self : ADXL345) (b : β)
    (data : Nat → ℚ) (raw : Nat → Int) (buffer : Nat → Nat) : β × Nat × (Nat → ℚ) :=
  let fullRes := self._FullRes
  let range := self._Range
  let (b1, status, raw) := GetDataRaw ra self b raw buffer
  if status ≠ 0 then (b1, status, data)
  else
    (b1, 0, fun i =>
      if h : i < 3 then
        let d : ℚ := self._gain ⟨i, h⟩ * (raw i : ℚ) / 256
        if !fullRes then d * ((1 <<< range : Nat) : ℚ) else d
      else data i)

/-! ## Saturation and rounding helpers -/

def SquashLongIntoUint (l : Int) : Nat :=
  let l : Int := if l ≤ 0 then 0 else if l ≥ 255 then 255 else l
  (l % 256).toNat

def SquashLongIntoInt (l : Int) : Int :=
  let l : Int := if l ≤ -128 then -128 else if l ≥ 127 then 127 else l
  toInt8 (l % 256).toNat

/-- The C library's `lrintf` in the default rounding mode (to nearest, ties to
even), on an exact rational and without the range limit of `long`. -/
def lrintf (x : ℚ) : Int :=
  let f : Int := ⌊x⌋
  if x - f < 1 / 2 then f
  else if 1 / 2 < x - f then f + 1
  else if f % 2 = 0 then f else f + 1

/-! ## DEVID -/

def GetDeviceID (ra : RegisterAccess β) (b : β) (deviceID : Nat) : β × Nat × Nat :=
  ra._ReadFrom b REG_DEVID deviceID

/-- `CheckDeviceID`; `dID` is the indeterminate content of the uninitialised
local. -/
def CheckDeviceID (ra : RegisterAccess β) (b : β) (dID : Nat) : β × Nat :=
  let (b1, status, dID) := GetDeviceID ra b dID
  let status := if status = 0 ∧ dID ≠ VAL_DEVICE_ID then STATUS_INVALID_ID else status
  (b1, status)

/-! ## THRESH_TAP -/

def SetThreshTapRaw (ra : RegisterAccess β) (b : β) (thresh : Nat) : β × Nat :=
  ra._WriteTo b REG_THRESH_TAP thresh

def GetThreshTapRaw (ra : RegisterAccess β) (b : β) (thresh : Nat) : β × Nat × Nat :=
  ra._ReadFrom b REG_THRESH_TAP thresh

def SetThreshTap (ra : RegisterAccess β) (b : β) (thresh : ℚ) : β × Nat :=
  let rawThresh := SquashLongIntoUint (lrintf (thresh * 16))
  SetThreshTapRaw ra b rawThresh

/-- `GetThreshTap`; `rawThresh` is the indeterminate content of the uninitialised
local. -/
def GetThreshTap (ra : RegisterAccess β) (b : β) (rawThresh : Nat) : β × Nat × ℚ :=
  let (b1, status, rawThresh) := GetThreshTapRaw ra b rawThresh
  (b1, status, (rawThresh : ℚ) / 16)

/-! ## OFSX, OFSY, OFSZ -/

def SetOffsetRaw (ra : RegisterAccess β) (b : β) (offset : Nat → Int) : β × Nat :=
  ra._WriteToBlock b REG_OFSX (fun i => int8Byte (offset i)) 3

def GetOffsetRaw (ra : RegisterAccess β) (b : β) (offset : Nat → Int) :
    β × Nat × (Nat → Int) :=
  let (b1, status, data) := ra._ReadFromBlock b REG_OFSX (fun i => int8Byte (offset i)) 3
  (b1, status, fun i => toInt8 (data i))

/-- `SetOffset`; `raw` is the indeterminate content of the uninitialised local
array. -/
def SetOffset (ra : RegisterAccess β) (b : β) (offset : Nat → ℚ) (raw : Nat → Int) : β × Nat :=
  let raw : Nat → Int := fun i =>
    if i < 3 then SquashLongIntoInt (lrintf (64 * offset i)) else raw i
  SetOffsetRaw ra b raw

/-- `GetOffset`; `offset` is the caller's array before the call, `raw` the
indeterminate content of the uninitialised local array. -/
def GetOffset (ra : RegisterAccess β) (b : β) (offset : Nat → ℚ) (raw : Nat → Int) :
    β × Nat × (Nat → ℚ) :=
  let (b1, status, raw) := GetOffsetRaw ra b raw
  (b1, status, fun i => if i < 3 then (raw i : ℚ) / 64 else offset i)

/-! ## DUR -/

def SetTapDurRaw (ra : RegisterAccess β) (b : β) (dur : Nat) : β × Nat :=
  ra._WriteTo b REG_DUR dur

def GetTapDurRaw (ra : RegisterAccess β) (b : β) (dur : Nat) : β × Nat × Nat :=
  ra._ReadFrom b REG_DUR dur

def SetTapDur (ra : RegisterAccess β) (b : β) (dur : ℚ) : β × Nat :=
  let rawDur := SquashLongIntoUint (lrintf (dur * 8 / 5))
  SetTapDurRaw ra b rawDur

/-- `GetTapDur`; `rawDur` is the indeterminate content of the uninitialised
local. -/
def GetTapDur (ra : RegisterAccess β) (b : β) (rawDur : Nat) : β × Nat × ℚ :=
  let (b1, status, rawDur) := GetTapDurRaw ra b rawDur
  (b1, status, (rawDur : ℚ) * 5 / 8)

/-! ## Latent -/

def SetTapLatencyRaw (ra : RegisterAccess β) (b : β) (latency : Nat) : β × Nat :=
  ra._WriteTo b REG_LATENT latency

def GetTapLatencyRaw (ra : RegisterAccess β) (b : β) (latency : Nat) : β × Nat × Nat :=
  ra._ReadFrom b REG_LATENT latency

def SetTapLatency (ra : RegisterAccess β) (b : β) (latency : ℚ) : β × Nat :=
  let rawLatency := SquashLongIntoUint (lrintf (latency * 4 / 5))
  SetTapLatencyRaw ra b rawLatency

/-- `GetTapLatency`; `rawLatency` is the indeterminate content of the uninitialised
local. -/
def GetTapLatency (ra : RegisterAccess β) (b : β) (rawLatency : Nat) : β × Nat × ℚ :=
  let (b1, status, rawLatency) := GetTapLatencyRaw ra b rawLatency
  (b1, status, (rawLatency : ℚ) * 5 / 4)

/-! ## Window -/

def SetTapWindowRaw (ra : RegisterAccess β) (b : β) (window : Nat) : β × Nat :=
  ra._WriteTo b REG_WINDOW window

def GetTapWindowRaw (ra : RegisterAccess β) (b : β) (window : Nat) : β × Nat × Nat :=
  ra._ReadFrom b REG_WINDOW window

def SetTapWindow (ra : RegisterAccess β) (b : β) (window : ℚ) : β × Nat :=
  let rawWindow := SquashLongIntoUint (lrintf (window * 4 / 5))
  SetTapWindowRaw ra b rawWindow

/-- `GetTapWindow`; `rawWindow` is the indeterminate content of the uninitialised
local. -/
def GetTapWindow (ra : RegisterAccess β) (b : β) (rawWindow : Nat) : β × Nat × ℚ :=
  let (b1, status, rawWindow) := GetTapWindowRaw ra b rawWindow
  (b1, status, (rawWindow : ℚ) * 5 / 4)

/-! ## THRESH_ACT -/

def SetThreshActRaw (ra : RegisterAccess β) (b : β) (thresh : Nat) : β × Nat :=
  ra._WriteTo b REG_THRESH_ACT thresh

def GetThreshActRaw (ra : RegisterAccess β) (b : β) (thresh : Nat) : β × Nat × Nat :=
  ra._ReadFrom b REG_THRESH_ACT thresh

def SetThreshAct (ra : RegisterAccess β) (b : β) (thresh : ℚ) : β × Nat :=
  let rawThresh := SquashLongIntoUint (lrintf (thresh * 16))
  SetThreshActRaw ra b rawThresh

/-- `GetThreshAct`; `rawThresh` is the indeterminate content of the uninitialised
local. -/
def GetThreshAct (ra : RegisterAccess β) (b : β) (rawThresh : Nat) : β × Nat × ℚ :=
  let (b1, status, rawThresh) := GetThreshActRaw ra b rawThresh
  (b1, status, (rawThresh : ℚ) / 16)

/-! ## THRESH_INACT -/

def SetThreshInactRaw (ra : RegisterAccess β) (b : β) (thresh : Nat) : β × Nat :=
  ra._WriteTo b REG_THRESH_INACT thresh

def GetThreshInactRaw (ra : RegisterAccess β) (b : β) (thresh : Nat) : β × Nat × Nat :=
  ra._ReadFrom b REG_THRESH_INACT thresh

def SetThreshInact (ra : RegisterAccess β) (b : β) (thresh : ℚ) : β × Nat :=
  let rawThresh := SquashLongIntoUint (lrintf (thresh * 16))
  SetThreshInactRaw ra b rawThresh

/-- `GetThreshInact`; `rawThresh` is the indeterminate content of the uninitialised
local. -/
def GetThreshInact (ra : RegisterAccess β) (b : β) (rawThresh : Nat) : β × Nat × ℚ :=
  let (b1, status, rawThresh) := GetThreshInactRaw ra b rawThresh
  (b1, status, (rawThresh : ℚ) / 16)

/-! ## TIME_INACT -/

def SetTimeInact (ra : RegisterAccess β) (b : β) (time : Nat) : β × Nat :=
  ra._WriteTo b REG_TIME_INACT time

def GetTimeInact (ra : RegisterAccess β) (b : β) (time : Nat) : β × Nat × Nat :=
  ra._ReadFrom b REG_TIME_INACT time

/-! ## ACT_INACT_CTL -/

def SetActInactCtl (ra : RegisterAccess β) (b : β) (bitfield : Nat) : β × Nat :=
  ra._WriteTo b REG_ACT_INACT_CTL bitfield

def GetActInactCtl (ra : RegisterAccess β) (b : β) (bitfield : Nat) : β × Nat × Nat :=
  ra._ReadFrom b REG_ACT_INACT_CTL bitfield

/-! ## THRESH_FF -/

def SetThreshFFRaw (ra : RegisterAccess β) (b : β) (thresh : Nat) : β × Nat :=
  ra._WriteTo b REG_THRESH_FF thresh

def GetThreshFFRaw (ra : RegisterAccess β) (b : β) (thresh : Nat) : β × Nat × Nat :=
  ra._ReadFrom b REG_THRESH_FF thresh

def SetThreshFF (ra : RegisterAccess β) (b : β) (thresh : ℚ) : β × Nat :=
  let rawThresh := SquashLongIntoUint (lrintf (thresh * 16))
  SetThreshFFRaw ra b rawThresh

/-- `GetThreshFF`; `rawThresh` is the indeterminate content of the uninitialised
local. -/
def GetThreshFF (ra : RegisterAccess β) (b : β) (rawThresh : Nat) : β × Nat × ℚ :=
  let (b1, status, rawThresh) := GetThreshFFRaw ra b rawThresh
  (b1, status, (rawThresh : ℚ) / 16)

/-! ## TIME_FF -/

def SetTimeFFRaw (ra : RegisterAccess β) (b : β) (time : Nat) : β × Nat :=
  ra._WriteTo b REG_TIME_FF time

def GetTimeFFRaw (ra : RegisterAccess β) (b : β) (time : Nat) : β × Nat × Nat :=
  ra._ReadFrom b REG_TIME_FF time

def SetTimeFF (ra : RegisterAccess β) (b : β) (time_ms : Nat) : β × Nat :=
  let max_time_ms : Nat := 1275
  let rawTime : Nat :=
    if time_ms ≥ max_time_ms then 0xFF
    else
      let rawTime := toUint8 (time_ms / 5)
      if time_ms % 5 ≥ 3 then toUint8 (rawTime + 1) else rawTime
  SetTimeFFRaw ra b rawTime

/-- `GetTimeFF`; `rawTime` is the indeterminate content of the uninitialised
local. -/
def GetTimeFF (ra : RegisterAccess β) (b : β) (rawTime : Nat) : β × Nat × Nat :=
  let (b1, status, rawTime) := GetTimeFFRaw ra b rawTime
  (b1, status, rawTime * 5)

/-! ## TAP_AXES -/

def SetTapAxes (ra : RegisterAccess β) (b : β) (bitfield : Nat) : β × Nat :=
  ra._WriteTo b REG_TAP_AXES bitfield

def GetTapAxes (ra : RegisterAccess β) (b : β) (bitfield : Nat) : β × Nat × Nat :=
  ra._ReadFrom b REG_TAP_AXES bitfield

/-! ## ACT_TAP_STATUS -/

def GetActTapStatus (ra : RegisterAccess β) (b : β) (bitfield : Nat) : β × Nat × Nat :=
  ra._ReadFrom b REG_ACT_TAP_STATUS bitfield

/-- `GetAsleep`; `bitfield` is the indeterminate content of the uninitialised
local. -/
def GetAsleep (ra : RegisterAccess β) (b : β) (bitfield : Nat) : β × Nat × Bool :=
  let (b1, status, bitfield) := GetActTapStatus ra b bitfield
  (b1, status, intToBool ((bitfield >>> BIT_ACT_TAP_STATUS_ASLEEP) &&& 1))

/-! ## BW_RATE -/

def SetBwRate (ra : RegisterAccess β) (b : β) (bitfield : Nat) : β × Nat :=
  ra._WriteTo b REG_BW_RATE bitfield

def GetBwRate (ra : RegisterAccess β) (b : β) (bitfield : Nat) : β × Nat × Nat :=
  ra._ReadFrom b REG_BW_RATE bitfield

/-- `SetLowPower`; `bwRateVal` is the indeterminate content of the
uninitialised local. -/
def SetLowPower (ra : RegisterAccess β) (b : β) (lowPower : Bool) (bwRateVal : Nat) : β × Nat :=
  let (b1, status, bwRateVal) := ra._ReadFrom b REG_BW_RATE bwRateVal
  if status ≠ 0 then (b1, status)
  else
    let bwRateVal := toUint8 (
      (bwRateVal &&& compl32 (1 <<< BIT_BW_RATE_LOW_POWER))
      ||| (boolToInt lowPower <<< BIT_BW_RATE_LOW_POWER))
    ra._WriteTo b1 REG_BW_RATE bwRateVal

/-- `GetLowPower`; `bwRateVal` is the indeterminate content of the
uninitialised local. -/
def GetLowPower (ra : RegisterAccess β) (b : β) (bwRateVal : Nat) : β × Nat × Bool :=
  let (b1, status, bwRateVal) := ra._ReadFrom b REG_BW_RATE bwRateVal
  (b1, status, intToBool ((bwRateVal >>> BIT_BW_RATE_LOW_POWER) &&& 1))

/-- `SetRate`; `bwRateVal` is the indeterminate content of the uninitialised
local. -/
def SetRate (ra : RegisterAccess β) (b : β) (rate : Nat) (bwRateVal : Nat) : β × Nat :=
  let (b1, status, bwRateVal) := ra._ReadFrom b REG_BW_RATE bwRateVal
  if status ≠ 0 then (b1, status)
  else
    let bwRateVal := toUint8 ((bwRateVal &&& (1 <<< BIT_BW_RATE_LOW_POWER)) ||| rate)
    ra._WriteTo b1 REG_BW_RATE bwRateVal

/-- `GetRate`; `bwRateVal` is the indeterminate content of the uninitialised
local. -/
def GetRate (ra : RegisterAccess β) (b : β) (bwRateVal : Nat) : β × Nat × Nat :=
  let rateMask : Nat := 0x0F
  let (b1, status, bwRateVal) := ra._ReadFrom b REG_BW_RATE bwRateVal
  (b1, status, toUint8 (bwRateVal &&& rateMask))

/-! ## POWER_CTL -/

def SetPowerCtl (ra : RegisterAccess β) (b : β) (bitfield : Nat) : β × Nat :=
  ra._WriteTo b REG_POWER_CTL bitfield

def GetPowerCtl (ra : RegisterAccess β) (b : β) (bitfield : Nat) : β × Nat × Nat :=
  ra._ReadFrom b REG_POWER_CTL bitfield

/-- `SetLink`; `powerCtlVal` is the indeterminate content of the uninitialised
local. -/
def SetLink (ra : RegisterAccess β) (b : β) (link : Bool) (powerCtlVal : Nat) : β × Nat :=
  let (b1, status, powerCtlVal) := GetPowerCtl ra b powerCtlVal
  if status ≠ 0 then (b1, status)
  else
    let powerCtlVal := toUint8 (
      (powerCtlVal &&& compl32 (1 <<< BIT_POWER_CTL_LINK))
      ||| (boolToInt link <<< BIT_POWER_CTL_LINK))
    SetPowerCtl ra b1 powerCtlVal

/-- `GetLink`; `powerCtlVal` is the indeterminate content of the uninitialised
local. -/
def GetLink (ra : RegisterAccess β) (b : β) (powerCtlVal : Nat) : β × Nat × Bool :=
  let (b1, status, powerCtlVal) := GetPowerCtl ra b powerCtlVal
  (b1, status, intToBool ((powerCtlVal >>> BIT_POWER_CTL_LINK) &&& 1))

/-- `SetAutoSleep`; `powerCtlVal` is the indeterminate content of the uninitialised
local. -/
def SetAutoSleep (ra : RegisterAccess β) (b : β) (autoSleep : Bool) (powerCtlVal : Nat) : β × Nat :=
  let (b1, status, powerCtlVal) := GetPowerCtl ra b powerCtlVal
  if status ≠ 0 then (b1, status)
  else
    let powerCtlVal := toUint8 (
      (powerCtlVal &&& compl32 (1 <<< BIT_POWER_CTL_AUTO_SLEEP))
      ||| (boolToInt autoSleep <<< BIT_POWER_CTL_AUTO_SLEEP))
    SetPowerCtl ra b1 powerCtlVal

/-- `GetAutoSleep`; `powerCtlVal` is the indeterminate content of the uninitialised
local. -/
def GetAutoSleep (ra : RegisterAccess β) (b : β) (powerCtlVal : Nat) : β × Nat × Bool :=
  let (b1, status, powerCtlVal) := GetPowerCtl ra b powerCtlVal
  (b1, status, intToBool ((powerCtlVal >>> BIT_POWER_CTL_AUTO_SLEEP) &&& 1))

/-- `SetMeasure`; `powerCtlVal` is the indeterminate content of the uninitialised
local. -/
def SetMeasure (ra : RegisterAccess β) (b : β) (measure : Bool) (powerCtlVal : Nat) : β × Nat :=
  let (b1, status, powerCtlVal) := GetPowerCtl ra b powerCtlVal
  if status ≠ 0 then (b1, status)
  else
    let powerCtlVal := toUint8 (
      (powerCtlVal &&& compl32 (1 <<< BIT_POWER_CTL_MEASURE))
      ||| (boolToInt measure <<< BIT_POWER_CTL_MEASURE))
    SetPowerCtl ra b1 powerCtlVal

/-- `GetMeasure`; `powerCtlVal` is the indeterminate content of the uninitialised
local. -/
def GetMeasure (ra : RegisterAccess β) (b : β) (powerCtlVal : Nat) : β × Nat × Bool :=
  let (b1, status, powerCtlVal) := GetPowerCtl ra b powerCtlVal
  (b1, status, intToBool ((powerCtlVal >>> BIT_POWER_CTL_MEASURE) &&& 1))

/-- `SetSleep`; `powerCtlVal` is the indeterminate content of the uninitialised
local. -/
def SetSleep (ra : RegisterAccess β) (b : β) (sleep : Bool) (powerCtlVal : Nat) : β × Nat :=
  let (b1, status, powerCtlVal) := GetPowerCtl ra b powerCtlVal
  if status ≠ 0 then (b1, status)
  else
    let powerCtlVal := toUint8 (
      (powerCtlVal &&& compl32 (1 <<< BIT_POWER_CTL_SLEEP))
      ||| (boolToInt sleep <<< BIT_POWER_CTL_SLEEP))
    SetPowerCtl ra b1 powerCtlVal

/-- `GetSleep`; `powerCtlVal` is the indeterminate content of the uninitialised
local. -/
def GetSleep (ra : RegisterAccess β) (b : β) (powerCtlVal : Nat) : β × Nat × Bool :=
  let (b1, status, powerCtlVal) := GetPowerCtl ra b powerCtlVal
  (b1, status, intToBool ((powerCtlVal >>> BIT_POWER_CTL_SLEEP) &&& 1))

/-- `SetWakeup`; `powerCtlVal` is the indeterminate content of the
uninitialised local. -/
def SetWakeup (ra : RegisterAccess β) (b : β) (wakeup : Nat) (powerCtlVal : Nat) : β × Nat :=
  let wakeupMask : Nat := 0x03
  let (b1, status, powerCtlVal) := GetPowerCtl ra b powerCtlVal
  if status ≠ 0 then (b1, status)
  else
    let powerCtlVal := toUint8 ((powerCtlVal &&& compl32 wakeupMask) ||| wakeup)
    SetPowerCtl ra b1 powerCtlVal

/-- `GetWakeup`; `powerCtlVal` is the indeterminate content of the
uninitialised local. -/
def GetWakeup (ra : RegisterAccess β) (b : β) (powerCtlVal : Nat) : β × Nat × Nat :=
  let wakeupMask : Nat := 0x03
  let (b1, status, powerCtlVal) := GetPowerCtl ra b powerCtlVal
  (b1, status, toUint8 (powerCtlVal &&& wakeupMask))

/-! ## INT_ENABLE -/

def SetIntEnable (ra : RegisterAccess β) (b : β) (bitfield : Nat) : β × Nat :=
  ra._WriteTo b REG_INT_ENABLE bitfield

def GetIntEnable (ra : RegisterAccess β) (b : β) (bitfield : Nat) : β × Nat × Nat :=
  ra._ReadFrom b REG_INT_ENABLE bitfield

/-! ## INT_MAP -/

def SetIntMap (ra : RegisterAccess β) (b : β) (bitfield : Nat) : β × Nat :=
  ra._WriteTo b REG_INT_MAP bitfield

def GetIntMap (ra : RegisterAccess β) (b : β) (bitfield : Nat) : β × Nat × Nat :=
  ra._ReadFrom b REG_INT_MAP bitfield

/-! ## INT_SOURCE -/

def GetIntSource (ra : RegisterAccess β) (b : β) (bitfield : Nat) : β × Nat × Nat :=
  ra._ReadFrom b REG_INT_SOURCE bitfield

/-! ## FIFO_CTL -/

def SetFifoCtl (ra : RegisterAccess β) (b : β) (bitfield : Nat) : β × Nat :=
  ra._WriteTo b REG_FIFO_CTL bitfield

def GetFifoCtl (ra : RegisterAccess β) (b : β) (bitfield : Nat) : β × Nat × Nat :=
  ra._ReadFrom b REG_FIFO_CTL bitfield

/-- `SetFifoMode`; `bitfield` is the indeterminate content of the uninitialised
local. -/
def SetFifoMode (ra : RegisterAccess β) (b : β) (mode : Nat) (bitfield : Nat) : β × Nat :=
  let modeMask : Nat := 0xC0
  let (b1, status, bitfield) := GetFifoCtl ra b bitfield
  if status ≠ 0 then (b1, status)
  else
    let bitfield := toUint8 (
      (bitfield &&& compl32 modeMask) ||| (mode <<< BIT_FIFO_CTL_MODE_LSB))
    SetFifoCtl ra b1 bitfield

/-- `GetFifoMode`; `bitfield` is the indeterminate content of the uninitialised
local. -/
def GetFifoMode (ra : RegisterAccess β) (b : β) (bitfield : Nat) : β × Nat × Nat :=
  let (b1, status, bitfield) := GetFifoCtl ra b bitfield
  (b1, status, toUint8 (bitfield >>> BIT_FIFO_CTL_MODE_LSB))

/-- `SetFifoTriggerInt2`; `bitfield` is the indeterminate content of the
uninitialised local. -/
def SetFifoTriggerInt2 (ra : RegisterAccess β) (b : β) (triggerInt2 : Bool) (bitfield : Nat) :
    β × Nat :=
  let (b1, status, bitfield) := GetFifoCtl ra b bitfield
  if status ≠ 0 then (b1, status)
  else
    let bitfield := toUint8 (
      (bitfield &&& compl32 (1 <<< BIT_FIFO_CTL_TRIGGER_INT2))
      ||| (boolToInt triggerInt2 <<< BIT_FIFO_CTL_TRIGGER_INT2))
    SetFifoCtl ra b1 bitfield

/-- `GetFifoTriggerInt2`; `bitfield` is the indeterminate content of the
uninitialised local. -/
def GetFifoTriggerInt2 (ra : RegisterAccess β) (b : β) (bitfield : Nat) : β × Nat × Bool :=
  let (b1, status, bitfield) := GetFifoCtl ra b bitfield
  (b1, status, intToBool ((bitfield >>> BIT_FIFO_CTL_TRIGGER_INT2) &&& 1))

/-- `SetFifoSamples`; `bitfield` is the indeterminate content of the
uninitialised local. -/
def SetFifoSamples (ra : RegisterAccess β) (b : β) (samples : Nat) (bitfield : Nat) : β × Nat :=
  let samplesMask : Nat := 0x1F
  let (b1, status, bitfield) := GetFifoCtl ra b bitfield
  if status ≠ 0 then (b1, status)
  else
    let bitfield := toUint8 ((bitfield &&& compl32 samplesMask) ||| samples)
    SetFifoCtl ra b1 bitfield

/-- `GetFifoSamples`; `bitfield` is the indeterminate content of the
uninitialised local. -/
def GetFifoSamples (ra : RegisterAccess β) (b : β) (bitfield : Nat) : β × Nat × Nat :=
  let samplesMask : Nat := 0x1F
  let (b1, status, bitfield) := GetFifoCtl ra b bitfield
  (b1, status, toUint8 (bitfield &&& samplesMask))

/-! ## FIFO_STATUS -/

def GetFifoStatus (ra : RegisterAccess β) (b : β) (fifoStatus : Nat) : β × Nat × Nat :=
  ra._ReadFrom b REG_FIFO_STATUS fifoStatus

/-- `GetFifoTrig`; `bitfield` is the indeterminate content of the uninitialised
local. -/
def GetFifoTrig (ra : RegisterAccess β) (b : β) (bitfield : Nat) : β × Nat × Bool :=
  let (b1, status, bitfield) := GetFifoStatus ra b bitfield
  (b1, status, intToBool (bitfield >>> BIT_FIFO_STATUS_FIFO_TRIG))

/-- `GetFifoEntries`; `bitfield` is the indeterminate content of the
uninitialised local. -/
def GetFifoEntries (ra : RegisterAccess β) (b : β) (bitfield : Nat) : β × Nat × Nat :=
  let entriesMask : Nat := 0x3F
  let (b1, status, bitfield) := GetFifoStatus ra b bitfield
  (b1, status, toUint8 (bitfield &&& entriesMask))

/-! ## The public operations as data -/

/-- One call of a public method of the class, with its arguments.  An argument
named after a local variable of the method is the indeterminate content of that
uninitialised local; an array or pointer argument is the caller's memory before
the call. -/
inductive Op where
  | SetGain (gain : Nat → ℚ)
  | GetGain (gain : Nat → ℚ)
  | GetDeviceID (deviceID : Nat)
  | CheckDeviceID (dID : Nat)
  | SetThreshTapRaw (thresh : Nat)
  | GetThreshTapRaw (thresh : Nat)
  | SetThreshTap (thresh : ℚ)
  | GetThreshTap (rawThresh : Nat)
  | SetOffsetRaw (offset : Nat → Int)
  | GetOffsetRaw (offset : Nat → Int)
  | SetOffset (offset : Nat → ℚ) (raw : Nat → Int)
  | GetOffset (offset : Nat → ℚ) (raw : Nat → Int)
  | SetTapDurRaw (dur : Nat)
  | GetTapDurRaw (dur : Nat)
  | SetTapDur (dur : ℚ)
  | GetTapDur (rawDur : Nat)
  | SetTapLatencyRaw (latency : Nat)
  | GetTapLatencyRaw (latency : Nat)
  | SetTapLatency (latency : ℚ)
  | GetTapLatency (rawLatency : Nat)
  | SetTapWindowRaw (window : Nat)
  | GetTapWindowRaw (window : Nat)
  | SetTapWindow (window : ℚ)
  | GetTapWindow (rawWindow : Nat)
  | SetThreshActRaw (thresh : Nat)
  | GetThreshActRaw (thresh : Nat)
  | SetThreshAct (thresh : ℚ)
  | GetThreshAct (rawThresh : Nat)
  | SetThreshInactRaw (thresh : Nat)
  | GetThreshInactRaw (thresh : Nat)
  | SetThreshInact (thresh : ℚ)
  | GetThreshInact (rawThresh : Nat)
  | SetTimeInact (time : Nat)
  | GetTimeInact (time : Nat)
  | SetActInactCtl (bitfield : Nat)
  | GetActInactCtl (bitfield : Nat)
  | SetThreshFFRaw (thresh : Nat)
  | GetThreshFFRaw (thresh : Nat)
  | SetThreshFF (thresh : ℚ)
  | GetThreshFF (rawThresh : Nat)
  | SetTimeFFRaw (time : Nat)
  | GetTimeFFRaw (time : Nat)
  | SetTimeFF (time_ms : Nat)
  | GetTimeFF (rawTime : Nat)
  | SetTapAxes (bitfield : Nat)
  | GetTapAxes (bitfield : Nat)
  | GetActTapStatus (bitfield : Nat)
  | GetAsleep (bitfield : Nat)
  | SetBwRate (bitfield : Nat)
  | GetBwRate (bitfield : Nat)
  | SetLowPower (lowPower : Bool) (bwRateVal : Nat)
  | GetLowPower (bwRateVal : Nat)
  | SetRate (rate : Nat) (bwRateVal : Nat)
  | GetRate (bwRateVal : Nat)
  | SetPowerCtl (bitfield : Nat)
  | GetPowerCtl (bitfield : Nat)
  | SetLink (link : Bool) (powerCtlVal : Nat)
  | GetLink (powerCtlVal : Nat)
  | SetAutoSleep (autoSleep : Bool) (powerCtlVal : Nat)
  | GetAutoSleep (powerCtlVal : Nat)
  | SetMeasure (measure : Bool) (powerCtlVal : Nat)
  | GetMeasure (powerCtlVal : Nat)
  | SetSleep (sleep : Bool) (powerCtlVal : Nat)
  | GetSleep (powerCtlVal : Nat)
  | SetWakeup (wakeup : Nat) (powerCtlVal : Nat)
  | GetWakeup (powerCtlVal : Nat)
  | SetIntEnable (bitfield : Nat)
  | GetIntEnable (bitfield : Nat)
  | SetIntMap (bitfield : Nat)
  | GetIntMap (bitfield : Nat)
  | GetIntSource (bitfield : Nat)
  | SetDataFormat (bitfield : Nat)
  | RefreshDataFormat
  | GetDataFormat
  | SetSelfTest (selfTest : Bool)
  | GetSelfTest
  | SetSPI3Wire (spi3wire : Bool)
  | GetSPI3Wire
  | SetIntActiveLow (intActiveLow : Bool)
  | GetIntActiveLow
  | SetFullRes (fullRes : Bool)
  | GetFullRes
  | SetLeftJustify (leftJustify : Bool)
  | GetLeftJustify
  | SetRange (range : Nat)
  | GetRange
  | GetDataRaw (data : Nat → Int) (buffer : Nat → Nat)
  | GetData (data : Nat → ℚ) (raw : Nat → Int) (buffer : Nat → Nat)
  | SetFifoCtl (bitfield : Nat)
  | GetFifoCtl (bitfield : Nat)
  | SetFifoMode (mode : Nat) (bitfield : Nat)
  | GetFifoMode (bitfield : Nat)
  | SetFifoTriggerInt2 (triggerInt2 : Bool) (bitfield : Nat)
  | GetFifoTriggerInt2 (bitfield : Nat)
  | SetFifoSamples (samples : Nat) (bitfield : Nat)
  | GetFifoSamples (bitfield : Nat)
  | GetFifoStatus (fifoStatus : Nat)
  | GetFifoTrig (bitfield : Nat)
  | GetFifoEntries (bitfield : Nat)

/-- Runs one public operation: the driver and bus state after the call and the
returned status (`none` for a `void` method).  The values stored through output
arguments are dropped. -/
def Op.run (ra : RegisterAccess β) (self : ADXL345) (b : β) : Op → ADXL345 × β × Option Nat
  | .SetGain gain => (ADXL345.SetGain self gain, b, none)
  | .GetGain _ => (self, b, none)
  | .GetDeviceID deviceID =>
    let r := ADXL345.GetDeviceID ra b deviceID
    (self, r.1, some r.2.1)
  | .CheckDeviceID dID =>
    let r := ADXL345.CheckDeviceID ra b dID
    (self, r.1, some r.2)
  | .SetThreshTapRaw thresh =>
    let r := ADXL345.SetThreshTapRaw ra b thresh
    (self, r.1, some r.2)
  | .GetThreshTapRaw thresh =>
    let r := ADXL345.GetThreshTapRaw ra b thresh
    (self, r.1, some r.2.1)
  | .SetThreshTap thresh =>
    let r := ADXL345.SetThreshTap ra b thresh
    (self, r.1, some r.2)
  | .GetThreshTap rawThresh =>
    let r := ADXL345.GetThreshTap ra b rawThresh
    (self, r.1, some r.2.1)
  | .SetOffsetRaw offset =>
    let r := ADXL345.SetOffsetRaw ra b offset
    (self, r.1, some r.2)
  | .GetOffsetRaw offset =>
    let r := ADXL345.GetOffsetRaw ra b offset
    (self, r.1, some r.2.1)
  | .SetOffset offset raw =>
    let r := ADXL345.SetOffset ra b offset raw
    (self, r.1, some r.2)
  | .GetOffset offset raw =>
    let r := ADXL345.GetOffset ra b offset raw
    (self, r.1, some r.2.1)
  | .SetTapDurRaw dur =>
    let r := ADXL345.SetTapDurRaw ra b dur
    (self, r.1, some r.2)
  | .GetTapDurRaw dur =>
    let r := ADXL345.GetTapDurRaw ra b dur
    (self, r.1, some r.2.1)
  | .SetTapDur dur =>
    let r := ADXL345.SetTapDur ra b dur
    (self, r.1, some r.2)
  | .GetTapDur rawDur =>
    let r := ADXL345.GetTapDur ra b rawDur
    (self, r.1, some r.2.1)
  | .SetTapLatencyRaw latency =>
    let r := ADXL345.SetTapLatencyRaw ra b latency
    (self, r.1, some r.2)
  | .GetTapLatencyRaw latency =>
    let r := ADXL345.GetTapLatencyRaw ra b latency
    (self, r.1, some r.2.1)
  | .SetTapLatency latency =>
    let r := ADXL345.SetTapLatency ra b latency
    (self, r.1, some r.2)
  | .GetTapLatency rawLatency =>
    let r := ADXL345.GetTapLatency ra b rawLatency
    (self, r.1, some r.2.1)
  | .SetTapWindowRaw window =>
    let r := ADXL345.SetTapWindowRaw ra b window
    (self, r.1, some r.2)
  | .GetTapWindowRaw window =>
    let r := ADXL345.GetTapWindowRaw ra b window
    (self, r.1, some r.2.1)
  | .SetTapWindow window =>
    let r := ADXL345.SetTapWindow ra b window
    (self, r.1, some r.2)
  | .GetTapWindow rawWindow =>
    let r := ADXL345.GetTapWindow ra b rawWindow
    (self, r.1, some r.2.1)
  | .SetThreshActRaw thresh =>
    let r := ADXL345.SetThreshActRaw ra b thresh
    (self, r.1, some r.2)
  | .GetThreshActRaw thresh =>
    let r := ADXL345.GetThreshActRaw ra b thresh
    (self, r.1, some r.2.1)
  | .SetThreshAct thresh =>
    let r := ADXL345.SetThreshAct ra b thresh
    (self, r.1, some r.2)
  | .GetThreshAct rawThresh =>
    let r := ADXL345.GetThreshAct ra b rawThresh
    (self, r.1, some r.2.1)
  | .SetThreshInactRaw thresh =>
    let r := ADXL345.SetThreshInactRaw ra b thresh
    (self, r.1, some r.2)
  | .GetThreshInactRaw thresh =>
    let r := ADXL345.GetThreshInactRaw ra b thresh
    (self, r.1, some r.2.1)
  | .SetThreshInact thresh =>
    let r := ADXL345.SetThreshInact ra b thresh
    (self, r.1, some r.2)
  | .GetThreshInact rawThresh =>
    let r := ADXL345.GetThreshInact ra b rawThresh
    (self, r.1, some r.2.1)
  | .SetTimeInact time =>
    let r := ADXL345.SetTimeInact ra b time
    (self, r.1, some r.2)
  | .GetTimeInact time =>
    let r := ADXL345.GetTimeInact ra b time
    (self, r.1, some r.2.1)
  | .SetActInactCtl bitfield =>
    let r := ADXL345.SetActInactCtl ra b bitfield
    (self, r.1, some r.2)
  | .GetActInactCtl bitfield =>
    let r := ADXL345.GetActInactCtl ra b bitfield
    (self, r.1, some r.2.1)
  | .SetThreshFFRaw thresh =>
    let r := ADXL345.SetThreshFFRaw ra b thresh
    (self, r.1, some r.2)
  | .GetThreshFFRaw thresh =>
    let r := ADXL345.GetThreshFFRaw ra b thresh
    (self, r.1, some r.2.1)
  | .SetThreshFF thresh =>
    let r := ADXL345.SetThreshFF ra b thresh
    (self, r.1, some r.2)
  | .GetThreshFF rawThresh =>
    let r := ADXL345.GetThreshFF ra b rawThresh
    (self, r.1, some r.2.1)
  | .SetTimeFFRaw time =>
    let r := ADXL345.SetTimeFFRaw ra b time
    (self, r.1, some r.2)
  | .GetTimeFFRaw time =>
    let r := ADXL345.GetTimeFFRaw ra b time
    (self, r.1, some r.2.1)
  | .SetTimeFF time_ms =>
    let r := ADXL345.SetTimeFF ra b time_ms
    (self, r.1, some r.2)
  | .GetTimeFF rawTime =>
    let r := ADXL345.GetTimeFF ra b rawTime
    (self, r.1, some r.2.1)
  | .SetTapAxes bitfield =>
    let r := ADXL345.SetTapAxes ra b bitfield
    (self, r.1, some r.2)
  | .GetTapAxes bitfield =>
    let r := ADXL345.GetTapAxes ra b bitfield
    (self, r.1, some r.2.1)
  | .GetActTapStatus bitfield =>
    let r := ADXL345.GetActTapStatus ra b bitfield
    (self, r.1, some r.2.1)
  | .GetAsleep bitfield =>
    let r := ADXL345.GetAsleep ra b bitfield
    (self, r.1, some r.2.1)
  | .SetBwRate bitfield =>
    let r := ADXL345.SetBwRate ra b bitfield
    (self, r.1, some r.2)
  | .GetBwRate bitfield =>
    let r := ADXL345.GetBwRate ra b bitfield
    (self, r.1, some r.2.1)
  | .SetLowPower lowPower bwRateVal =>
    let r := ADXL345.SetLowPower ra b lowPower bwRateVal
    (self, r.1, some r.2)
  | .GetLowPower bwRateVal =>
    let r := ADXL345.GetLowPower ra b bwRateVal
    (self, r.1, some r.2.1)
  | .SetRate rate bwRateVal =>
    let r := ADXL345.SetRate ra b rate bwRateVal
    (self, r.1, some r.2)
  | .GetRate bwRateVal =>
    let r := ADXL345.GetRate ra b bwRateVal
    (self, r.1, some r.2.1)
  | .SetPowerCtl bitfield =>
    let r := ADXL345.SetPowerCtl ra b bitfield
    (self, r.1, some r.2)
  | .GetPowerCtl bitfield =>
    let r := ADXL345.GetPowerCtl ra b bitfield
    (self, r.1, some r.2.1)
  | .SetLink link powerCtlVal =>
    let r := ADXL345.SetLink ra b link powerCtlVal
    (self, r.1, some r.2)
  | .GetLink powerCtlVal =>
    let r := ADXL345.GetLink ra b powerCtlVal
    (self, r.1, some r.2.1)
  | .SetAutoSleep autoSleep powerCtlVal =>
    let r := ADXL345.SetAutoSleep ra b autoSleep powerCtlVal
    (self, r.1, some r.2)
  | .GetAutoSleep powerCtlVal =>
    let r := ADXL345.GetAutoSleep ra b powerCtlVal
    (self, r.1, some r.2.1)
  | .SetMeasure measure powerCtlVal =>
    let r := ADXL345.SetMeasure ra b measure powerCtlVal
    (self, r.1, some r.2)
  | .GetMeasure powerCtlVal =>
    let r := ADXL345.GetMeasure ra b powerCtlVal
    (self, r.1, some r.2.1)
  | .SetSleep sleep powerCtlVal =>
    let r := ADXL345.SetSleep ra b sleep powerCtlVal
    (self, r.1, some r.2)
  | .GetSleep powerCtlVal =>
    let r := ADXL345.GetSleep ra b powerCtlVal
    (self, r.1, some r.2.1)
  | .SetWakeup wakeup powerCtlVal =>
    let r := ADXL345.SetWakeup ra b wakeup powerCtlVal
    (self, r.1, some r.2)
  | .GetWakeup powerCtlVal =>
    let r := ADXL345.GetWakeup ra b powerCtlVal
    (self, r.1, some r.2.1)
  | .SetIntEnable bitfield =>
    let r := ADXL345.SetIntEnable ra b bitfield
    (self, r.1, some r.2)
  | .GetIntEnable bitfield =>
    let r := ADXL345.GetIntEnable ra b bitfield
    (self, r.1, some r.2.1)
  | .SetIntMap bitfield =>
    let r := ADXL345.SetIntMap ra b bitfield
    (self, r.1, some r.2)
  | .GetIntMap bitfield =>
    let r := ADXL345.GetIntMap ra b bitfield
    (self, r.1, some r.2.1)
  | .GetIntSource bitfield =>
    let r := ADXL345.GetIntSource ra b bitfield
    (self, r.1, some r.2.1)
  | .SetDataFormat bitfield =>
    let r := ADXL345.SetDataFormat ra self b bitfield
    (r.1, r.2.1, some r.2.2)
  | .RefreshDataFormat =>
    let r := ADXL345.RefreshDataFormat ra self b
    (r.1, r.2.1, some r.2.2)
  | .GetDataFormat => (self, b, none)
  | .SetSelfTest selfTest =>
    let r := ADXL345.SetSelfTest ra self b selfTest
    (r.1, r.2.1, some r.2.2)
  | .GetSelfTest => (self, b, none)
  | .SetSPI3Wire spi3wire =>
    let r := ADXL345.SetSPI3Wire ra self b spi3wire
    (r.1, r.2.1, some r.2.2)
  | .GetSPI3Wire => (self, b, none)
  | .SetIntActiveLow intActiveLow =>
    let r := ADXL345.SetIntActiveLow ra self b intActiveLow
    (r.1, r.2.1, some r.2.2)
  | .GetIntActiveLow => (self, b, none)
  | .SetFullRes fullRes =>
    let r := ADXL345.SetFullRes ra self b fullRes
    (r.1, r.2.1, some r.2.2)
  | .GetFullRes => (self, b, none)
  | .SetLeftJustify leftJustify =>
    let r := ADXL345.SetLeftJustify ra self b leftJustify
    (r.1, r.2.1, some r.2.2)
  | .GetLeftJustify => (self, b, none)
  | .SetRange range =>
    let r := ADXL345.SetRange ra self b range
    (r.1, r.2.1, some r.2.2)
  | .GetRange => (self, b, none)
  | .GetDataRaw data buffer =>
    let r := ADXL345.GetDataRaw ra self b data buffer
    (self, r.1, some r.2.1)
  | .GetData data raw buffer =>
    let r := ADXL345.GetData ra self b data raw buffer
    (self, r.1, some r.2.1)
  | .SetFifoCtl bitfield =>
    let r := ADXL345.SetFifoCtl ra b bitfield
    (self, r.1, some r.2)
  | .GetFifoCtl bitfield =>
    let r := ADXL345.GetFifoCtl ra b bitfield
    (self, r.1, some r.2.1)
  | .SetFifoMode mode bitfield =>
    let r := ADXL345.SetFifoMode ra b mode bitfield
    (self, r.1, some r.2)
  | .GetFifoMode bitfield =>
    let r := ADXL345.GetFifoMode ra b bitfield
    (self, r.1, some r.2.1)
  | .SetFifoTriggerInt2 triggerInt2 bitfield =>
    let r := ADXL345.SetFifoTriggerInt2 ra b triggerInt2 bitfield
    (self, r.1, some r.2)
  | .GetFifoTriggerInt2 bitfield =>
    let r := ADXL345.GetFifoTriggerInt2 ra b bitfield
    (self, r.1, some r.2.1)
  | .SetFifoSamples samples bitfield =>
    let r := ADXL345.SetFifoSamples ra b samples bitfield
    (self, r.1, some r.2)
  | .GetFifoSamples bitfield =>
    let r := ADXL345.GetFifoSamples ra b bitfield
    (self, r.1, some r.2.1)
  | .GetFifoStatus fifoStatus =>
    let r := ADXL345.GetFifoStatus ra b fifoStatus
    (self, r.1, some r.2.1)
  | .GetFifoTrig bitfield =>
    let r := ADXL345.GetFifoTrig ra b bitfield
    (self, r.1, some r.2.1)
  | .GetFifoEntries bitfield =>
    let r := ADXL345.GetFifoEntries ra b bitfield
    (self, r.1, some r.2.1)

/-- Runs a finite sequence of public operations, left to right. -/
def runAll (ra : RegisterAccess β) (self : ADXL345) (b : β) : List Op → ADXL345 × β
  | [] => (self, b)
  | op :: ops =>
    let r := op.run ra self b
    runAll ra r.1 r.2.1 ops

/-! ## Recording the transactions of the register access layer -/

/-- One call of a method of the register access layer, with its arguments (for
a block write, the bytes `data[0..n-1]`). -/
inductive Transaction where
  | write (reg val : Nat)
  | writeBlock (reg : Nat) (data : List Nat)
  | read (reg : Nat)
  | readBlock (reg n : Nat)
  deriving DecidableEq, Repr

/-- The register access layer `ra` with a log: every call behaves as in `ra`
and is appended to the list of transactions. -/
def RegisterAccess.traced (ra : RegisterAccess β) : RegisterAccess (β × List Transaction) where
  _WriteTo := fun s reg val =>
    let r := ra._WriteTo s.1 reg val
    ((r.1, s.2 ++ [Transaction.write reg val]), r.2)
  _WriteToBlock := fun s reg data n =>
    let r := ra._WriteToBlock s.1 reg data n
    ((r.1, s.2 ++ [Transaction.writeBlock reg ((List.range n).map data)]), r.2)
  _ReadFrom := fun s reg val =>
    let r := ra._ReadFrom s.1 reg val
    ((r.1, s.2 ++ [Transaction.read reg]), r.2)
  _ReadFromBlock := fun s reg data n =>
    let r := ra._ReadFromBlock s.1 reg data n
    ((r.1, s.2 ++ [Transaction.readBlock reg n]), r.2)

/-! ## The register-file stub -/

/-- Modelled from the spec: the faithful in-memory register-file stub of the
testable properties, which is not part of the sources.  `regs` is the content of
the device registers; `script` lists the statuses of the coming transactions
(zero, or an exhausted script, is success).  A successful write stores the
bytes, a successful read returns the stored bytes, and a failed transaction
changes neither a register nor the caller's buffer. -/
structure RegFile where
  regs : Nat → Nat
  script : List Nat

/-- The status of the next transaction of the stub. -/
def RegFile.status (rf : RegFile) : Nat := rf.script.headD 0

/-- The register access layer of the register-file stub. -/
def RegFile.access : RegisterAccess RegFile where
  _WriteTo := fun rf reg val =>
    if rf.status = 0 then
      ({ regs := fun r => if r = reg then val else rf.regs r, script := rf.script.tail }, 0)
    else ({ regs := rf.regs, script := rf.script.tail }, rf.status)
  _WriteToBlock := fun rf reg data n =>
    if rf.status = 0 then
      ({ regs := fun r => if reg ≤ r ∧ r < reg + n then data (r - reg) else rf.regs r,
         script := rf.script.tail }, 0)
    else ({ regs := rf.regs, script := rf.script.tail }, rf.status)
  _ReadFrom := fun rf reg val =>
    if rf.status = 0 then ({ regs := rf.regs, script := rf.script.tail }, 0, rf.regs reg)
    else ({ regs := rf.regs, script := rf.script.tail }, rf.status, val)
  _ReadFromBlock := fun rf reg data n =>
    if rf.status = 0 then
      ({ regs := rf.regs, script := rf.script.tail }, 0,
        fun i => if i < n then rf.regs (reg + i) else data i)
    else ({ regs := rf.regs, script := rf.script.tail }, rf.status, data)

/-! ## The one-bit fields of DATA_FORMAT -/

/-- The five one-bit fields of DATA_FORMAT that have a setter and a getter. -/
inductive Flag where
  | selfTest
  | spi3Wire
  | intActiveLow
  | fullRes
  | leftJustify
  deriving DecidableEq, Repr

/-- The bit position of a flag. -/
def Flag.bit : Flag → Nat
  | .selfTest => BIT_DATA_FORMAT_SELF_TEST
  | .spi3Wire => BIT_DATA_FORMAT_SPI_3WIRE
  | .intActiveLow => BIT_DATA_FORMAT_INT_INVERT
  | .fullRes => BIT_DATA_FORMAT_FULL_RES
  | .leftJustify => BIT_DATA_FORMAT_JUSTIFY_LEFT

/-- The setter of a flag. -/
def Flag.set (ra : RegisterAccess β) (self : ADXL345) (b : β) (v : Bool) :
    Flag → ADXL345 × β × Nat
  | .selfTest => SetSelfTest ra self b v
  | .spi3Wire => SetSPI3Wire ra self b v
  | .intActiveLow => SetIntActiveLow ra self b v
  | .fullRes => SetFullRes ra self b v
  | .leftJustify => SetLeftJustify ra self b v

/-- The getter of a flag. -/
def Flag.get (self : ADXL345) : Flag → Bool
  | .selfTest => GetSelfTest self
  | .spi3Wire => GetSPI3Wire self
  | .intActiveLow => GetIntActiveLow self
  | .fullRes => GetFullRes self
  | .leftJustify => GetLeftJustify self

end ADXL345

/-! ## The HAL primitives -/

/-- The pin state `GPIO_PIN_RESET` of the vendor HAL. -/
def GPIO_PIN_RESET : Nat := 0

/-- The pin state `GPIO_PIN_SET` of the vendor HAL. -/
def GPIO_PIN_SET : Nat := 1

/-- The bus and pin primitives of the vendor HAL, which the sources call and do
not define, over the state `σ` of the hardware.  Handles, ports and pins are
identities; a status is the returned `HAL_StatusTypeDef` as a `StatusType`
(zero is `HAL_OK`).

* `HAL_I2C_Master_Transmit s hi2c DevAddress pData Timeout` and
  `HAL_SPI_Transmit s hspi pData Timeout`: `pData` lists the `Size` bytes
  `pData[0..Size-1]` handed to the primitive.
* `HAL_I2C_Master_Receive s hi2c DevAddress pData Size Timeout` and
  `HAL_SPI_Receive s hspi pData Size Timeout`: `pData` is the buffer before the
  call, the third component of the result is the buffer after the call.
* `HAL_GPIO_WritePin s GPIOx GPIO_Pin PinState`. -/
structure HAL (σ : Type) where
  HAL_I2C_Master_Transmit : σ → Nat → Nat → List Nat → Nat → σ × Nat
  HAL_I2C_Master_Receive : σ → Nat → Nat → (Nat → Nat) → Nat → Nat → σ × Nat × (Nat → Nat)
  HAL_SPI_Transmit : σ → Nat → List Nat → Nat → σ × Nat
  HAL_SPI_Receive : σ → Nat → (Nat → Nat) → Nat → Nat → σ × Nat × (Nat → Nat)
  HAL_GPIO_WritePin : σ → Nat → Nat → Nat → σ

namespace ADXL345

def PIN_STATE_HIGH : Nat := 0x1
def PIN_STATE_LOW : Nat := 0x0

def COM_TIMEOUT : Nat := 128

end ADXL345

/-! ## The I2C transport -/

/-- The data members that class `ADXL345_I2C` adds to its base. -/
structure ADXL345_I2C where
  _hi2c : Nat
  _devAddr : Nat

namespace ADXL345_I2C

open ADXL345

variable {σ : Type}

def DEVICE_I2C_ADDR_SDO_LOW : Nat := 0xA6
def DEVICE_I2C_ADDR_SDO_HIGH : Nat := 0x3A

/-- The constructor `ADXL345_I2C(hi2c, sdoState)`. -/
def new (hi2c : Nat) (sdoState : Nat) : ADXL345_I2C :=
  { _hi2c := hi2c,
    _devAddr := toUint8 (if sdoState = PIN_STATE_LOW then DEVICE_I2C_ADDR_SDO_LOW
      else DEVICE_I2C_ADDR_SDO_HIGH) }

def _WriteTo (hal : HAL σ) (self : ADXL345_I2C) (s : σ) (reg val : Nat) : σ × Nat :=
  let data : List Nat := [reg, val]
  hal.HAL_I2C_Master_Transmit s self._hi2c self._devAddr data COM_TIMEOUT

/-- The block write.  The staging array `dataWithReg` has `BUFFER_MAX + 1`
elements; the list is its content `dataWithReg[0..n]` after the copy loop. -/
def _WriteToBlock (hal : HAL σ) (self : ADXL345_I2C) (s : σ) (reg : Nat) (data : Nat → Nat)
    (n : Nat) : σ × Nat :=
  let dataWithReg : List Nat := reg :: (List.range n).map (fun i => data i)
  hal.HAL_I2C_Master_Transmit s self._hi2c self._devAddr dataWithReg COM_TIMEOUT

def _ReadFrom (hal : HAL σ) (self : ADXL345_I2C) (s : σ) (reg val : Nat) : σ × Nat × Nat :=
  let (s1, status) := hal.HAL_I2C_Master_Transmit s self._hi2c self._devAddr [reg] COM_TIMEOUT
  if status = 0 then
    let (s2, status, buf) :=
      hal.HAL_I2C_Master_Receive s1 self._hi2c self._devAddr (fun _ => val) 1 COM_TIMEOUT
    (s2, status, buf 0)
  else (s1, status, val)

def _ReadFromBlock (hal : HAL σ) (self : ADXL345_I2C) (s : σ) (reg : Nat) (data : Nat → Nat)
    (n : Nat) : σ × Nat × (Nat → Nat) :=
  let (s1, status) := hal.HAL_I2C_Master_Transmit s self._hi2c self._devAddr [reg] COM_TIMEOUT
  if status = 0 then
    hal.HAL_I2C_Master_Receive s1 self._hi2c self._devAddr data n COM_TIMEOUT
  else (s1, status, data)

/-- The register access layer of an `ADXL345_I2C` instance. -/
def access (hal : HAL σ) (self : ADXL345_I2C) : RegisterAccess σ where
  _WriteTo := _WriteTo hal self
  _WriteToBlock := _WriteToBlock hal self
  _ReadFrom := _ReadFrom hal self
  _ReadFromBlock := _ReadFromBlock hal self

end ADXL345_I2C

/-! ## The SPI transport -/

/-- The data members that class `ADXL345_SPI` adds to its base. -/
structure ADXL345_SPI where
  _hspi : Nat
  _ssPort : Nat
  _ssPin : Nat

namespace ADXL345_SPI

open ADXL345

variable {σ : Type}

/-- The constructor `ADXL345_SPI(hspi, ssPort, ssPin)`. -/
def new (hspi ssPort ssPin : Nat) : ADXL345_SPI :=
  { _hspi := hspi, _ssPort := ssPort, _ssPin := ssPin }

def _WriteTo (hal : HAL σ) (self : ADXL345_SPI) (s : σ) (reg val : Nat) : σ × Nat :=
  let data0 := reg
  let data1 := val
  let read := false
  let mb := false
  let data0 := toUint8 (data0 ||| ((boolToInt read <<< 7) ||| (boolToInt mb <<< 6)))
  let s1 := hal.HAL_GPIO_WritePin s self._ssPort self._ssPin GPIO_PIN_RESET
  let (s2, status) := hal.HAL_SPI_Transmit s1 self._hspi [data0, data1] COM_TIMEOUT
  let s3 := hal.HAL_GPIO_WritePin s2 self._ssPort self._ssPin GPIO_PIN_SET
  (s3, status)

/-- The block write.  The staging array `dataWithReg` has `BUFFER_MAX + 1`
elements; the list is its content `dataWithReg[0..n]` after the copy loop and
the update of `dataWithReg[0]`. -/
def _WriteToBlock (hal : HAL σ) (self : ADXL345_SPI) (s : σ) (reg : Nat) (data : Nat → Nat)
    (n : Nat) : σ × Nat :=
  let dataWithReg0 := reg
  let dataWithRegTail : List Nat := (List.range n).map (fun i => data i)
  let read := false
  let mb := true
  let dataWithReg0 :=
    toUint8 (dataWithReg0 ||| ((boolToInt read <<< 7) ||| (boolToInt mb <<< 6)))
  let s1 := hal.HAL_GPIO_WritePin s self._ssPort self._ssPin GPIO_PIN_RESET
  let (s2, status) :=
    hal.HAL_SPI_Transmit s1 self._hspi (dataWithReg0 :: dataWithRegTail) COM_TIMEOUT
  let s3 := hal.HAL_GPIO_WritePin s2 self._ssPort self._ssPin GPIO_PIN_SET
  (s3, status)

def _ReadFrom (hal : HAL σ) (self : ADXL345_SPI) (s : σ) (reg val : Nat) : σ × Nat × Nat :=
  let read := true
  let mb := false
  let reg := toUint8 (reg ||| ((boolToInt read <<< 7) ||| (boolToInt mb <<< 6)))
  let s1 := hal.HAL_GPIO_WritePin s self._ssPort self._ssPin GPIO_PIN_RESET
  let (s2, status) := hal.HAL_SPI_Transmit s1 self._hspi [reg] COM_TIMEOUT
  if status = 0 then
    let (s3, status, buf) := hal.HAL_SPI_Receive s2 self._hspi (fun _ => val) 1 COM_TIMEOUT
    let s4 := hal.HAL_GPIO_WritePin s3 self._ssPort self._ssPin GPIO_PIN_SET
    (s4, status, buf 0)
  else
    let s3 := hal.HAL_GPIO_WritePin s2 self._ssPort self._ssPin GPIO_PIN_SET
    (s3, status, val)

def _ReadFromBlock (hal : HAL σ) (self : ADXL345_SPI) (s : σ) (reg : Nat) (data : Nat → Nat)
    (n : Nat) : σ × Nat × (Nat → Nat) :=
  let read := true
  let mb := true
  let reg := toUint8 (reg ||| ((boolToInt read <<< 7) ||| (boolToInt mb <<< 6)))
  let s1 := hal.HAL_GPIO_WritePin s self._ssPort self._ssPin GPIO_PIN_RESET
  let (s2, status) := hal.HAL_SPI_Transmit s1 self._hspi [reg] COM_TIMEOUT
  if status = 0 then
    let (s3, status, data) := hal.HAL_SPI_Receive s2 self._hspi data n COM_TIMEOUT
    let s4 := hal.HAL_GPIO_WritePin s3 self._ssPort self._ssPin GPIO_PIN_SET
    (s4, status, data)
  else
    let s3 := hal.HAL_GPIO_WritePin s2 self._ssPort self._ssPin GPIO_PIN_SET
    (s3, status, data)

/-- The register access layer of an `ADXL345_SPI` instance. -/
def access (hal : HAL σ) (self : ADXL345_SPI) : RegisterAccess σ where
  _WriteTo := _WriteTo hal self
  _WriteToBlock := _WriteToBlock hal self
  _ReadFrom := _ReadFrom hal self
  _ReadFromBlock := _ReadFromBlock hal self

end ADXL345_SPI

/-! ## Recording the calls of the HAL primitives -/

/-- One call of a HAL primitive, with its arguments (for a transmit, the bytes
handed over; for a receive, the requested size). -/
inductive HalEvent where
  | i2cTransmit (hi2c devAddress : Nat) (pData : List Nat) (timeout : Nat)
  | i2cReceive (hi2c devAddress size timeout : Nat)
  | spiTransmit (hspi : Nat) (pData : List Nat) (timeout : Nat)
  | spiReceive (hspi size timeout : Nat)
  | gpioWritePin (port pin pinState : Nat)
  deriving DecidableEq, Repr

/-- The HAL `hal` with a log: every call behaves as in `hal` and is appended to
the list of events. -/
def HAL.traced {σ : Type} (hal : HAL σ) : HAL (σ × List HalEvent) where
  HAL_I2C_Master_Transmit := fun s hi2c addr pData timeout =>
    let r := hal.HAL_I2C_Master_Transmit s.1 hi2c addr pData timeout
    ((r.1, s.2 ++ [HalEvent.i2cTransmit hi2c addr pData timeout]), r.2)
  HAL_I2C_Master_Receive := fun s hi2c addr pData size timeout =>
    let r := hal.HAL_I2C_Master_Receive s.1 hi2c addr pData size timeout
    ((r.1, s.2 ++ [HalEvent.i2cReceive hi2c addr size timeout]), r.2)
  HAL_SPI_Transmit := fun s hspi pData timeout =>
    let r := hal.HAL_SPI_Transmit s.1 hspi pData timeout
    ((r.1, s.2 ++ [HalEvent.spiTransmit hspi pData timeout]), r.2)
  HAL_SPI_Receive := fun s hspi pData size timeout =>
    let r := hal.HAL_SPI_Receive s.1 hspi pData size timeout
    ((r.1, s.2 ++ [HalEvent.spiReceive hspi size timeout]), r.2)
  HAL_GPIO_WritePin := fun s port pin pinState =>
    (hal.HAL_GPIO_WritePin s.1 port pin pinState,
      s.2 ++ [HalEvent.gpioWritePin port pin pinState])

/-! ## The device stub behind the HAL primitives -/

/-- Modelled from the spec: the faithful in-memory register-file stub of the
round-trip law, at the level of the bus primitives, which is not part of the
sources.  `regs` is the content of the device registers, `pointer` the
register a receive starts at, `multi` whether a receive walks over consecutive
registers, `selected` whether the SPI select line is low. -/
structure DeviceStub where
  regs : Nat → Nat
  pointer : Nat
  multi : Bool
  selected : Bool

/-- The registers of the stub after storing `payload` at `addr`, `addr + 1`,
and so on. -/
def DeviceStub.store (regs : Nat → Nat) (addr : Nat) (payload : List Nat) : Nat → Nat :=
  fun r => if addr ≤ r ∧ r < addr + payload.length then payload.getD (r - addr) 0 else regs r

/-- The HAL primitives of the device stub; every call succeeds.

* An I2C transmit `addr :: payload` sets the register pointer to `addr` and
  stores the payload from there on; an I2C receive returns the registers from
  the pointer on.
* While the select line is low, an SPI transmit `header :: payload` decodes the
  address `header AND 0x3F`, the read bit 7 and the multi-byte bit 6: a read
  header sets the pointer, a write header stores the payload (its first byte
  only when the multi-byte bit is clear); an SPI receive returns the register
  at the pointer, or the registers from the pointer on when the multi-byte bit
  was set.  While the select line is high the SPI primitives have no effect. -/
def DeviceStub.hal : HAL DeviceStub where
  HAL_I2C_Master_Transmit := fun s _ _ pData _ =>
    match pData with
    | [] => (s, 0)
    | addr :: payload =>
      ({ s with regs := DeviceStub.store s.regs addr payload, pointer := addr, multi := true }, 0)
  HAL_I2C_Master_Receive := fun s _ _ pData size _ =>
    (s, 0, fun k => if k < size then s.regs (s.pointer + k) else pData k)
  HAL_SPI_Transmit := fun s _ pData _ =>
    match s.selected, pData with
    | true, header :: payload =>
      let addr := header &&& 0x3F
      let read := header.testBit 7
      let mb := header.testBit 6
      if read then ({ s with pointer := addr, multi := mb }, 0)
      else
        ({ s with
            regs := DeviceStub.store s.regs addr (if mb then payload else payload.take 1),
            pointer := addr, multi := mb }, 0)
    | _, _ => (s, 0)
  HAL_SPI_Receive := fun s _ pData size _ =>
    if s.selected then
      (s, 0, fun k =>
        if k < size then s.regs (s.pointer + (if s.multi then k else 0)) else pData k)
    else (s, 0, pData)
  HAL_GPIO_WritePin := fun s _ _ pinState =>
    { s with selected := decide (pinState = GPIO_PIN_RESET) }

/-! ## The fields behind the read-modify-write setters -/

namespace ADXL345

variable {β : Type}

/-- The register fields that have a read-modify-write setter and a getter. -/
inductive Field where
  | lowPower
  | rate
  | link
  | autoSleep
  | measure
  | sleep
  | wakeup
  | fifoMode
  | fifoTriggerInt2
  | fifoSamples
  deriving DecidableEq, Repr

/-- The register of a field. -/
def Field.reg : Field → Nat
  | .lowPower => REG_BW_RATE
  | .rate => REG_BW_RATE
  | .link => REG_POWER_CTL
  | .autoSleep => REG_POWER_CTL
  | .measure => REG_POWER_CTL
  | .sleep => REG_POWER_CTL
  | .wakeup => REG_POWER_CTL
  | .fifoMode => REG_FIFO_CTL
  | .fifoTriggerInt2 => REG_FIFO_CTL
  | .fifoSamples => REG_FIFO_CTL

/-- The bit positions of a field, as a mask (from the bit-position constants
and the masks of the getters). -/
def Field.mask : Field → Nat
  | .lowPower => 1 <<< BIT_BW_RATE_LOW_POWER
  | .rate => 0x0F
  | .link => 1 <<< BIT_POWER_CTL_LINK
  | .autoSleep => 1 <<< BIT_POWER_CTL_AUTO_SLEEP
  | .measure => 1 <<< BIT_POWER_CTL_MEASURE
  | .sleep => 1 <<< BIT_POWER_CTL_SLEEP
  | .wakeup => 0x03
  | .fifoMode => 0xC0
  | .fifoTriggerInt2 => 1 <<< BIT_FIFO_CTL_TRIGGER_INT2
  | .fifoSamples => 0x1F

/-- The position of the lowest bit of a field. -/
def Field.shift : Field → Nat
  | .lowPower => BIT_BW_RATE_LOW_POWER
  | .rate => 0
  | .link => BIT_POWER_CTL_LINK
  | .autoSleep => BIT_POWER_CTL_AUTO_SLEEP
  | .measure => BIT_POWER_CTL_MEASURE
  | .sleep => BIT_POWER_CTL_SLEEP
  | .wakeup => 0
  | .fifoMode => BIT_FIFO_CTL_MODE_LSB
  | .fifoTriggerInt2 => BIT_FIFO_CTL_TRIGGER_INT2
  | .fifoSamples => 0

/-- The setter of a field, called with the argument `arg` (converted to `bool`
for a one-bit field); `val` is the indeterminate content of the setter's
uninitialised local. -/
def Field.set (ra : RegisterAccess β) (b : β) (arg : Nat) (val : Nat) : Field → β × Nat
  | .lowPower => SetLowPower ra b (intToBool arg) val
  | .rate => SetRate ra b arg val
  | .link => SetLink ra b (intToBool arg) val
  | .autoSleep => SetAutoSleep ra b (intToBool arg) val
  | .measure => SetMeasure ra b (intToBool arg) val
  | .sleep => SetSleep ra b (intToBool arg) val
  | .wakeup => SetWakeup ra b arg val
  | .fifoMode => SetFifoMode ra b arg val
  | .fifoTriggerInt2 => SetFifoTriggerInt2 ra b (intToBool arg) val
  | .fifoSamples => SetFifoSamples ra b arg val

/-- The getter of a field, with a `bool` result as 0 or 1; `val` is the
indeterminate content of the getter's uninitialised local. -/
def Field.get (ra : RegisterAccess β) (b : β) (val : Nat) : Field → β × Nat × Nat
  | .lowPower => let r := GetLowPower ra b val; (r.1, r.2.1, boolToInt r.2.2)
  | .rate => GetRate ra b val
  | .link => let r := GetLink ra b val; (r.1, r.2.1, boolToInt r.2.2)
  | .autoSleep => let r := GetAutoSleep ra b val; (r.1, r.2.1, boolToInt r.2.2)
  | .measure => let r := GetMeasure ra b val; (r.1, r.2.1, boolToInt r.2.2)
  | .sleep => let r := GetSleep ra b val; (r.1, r.2.1, boolToInt r.2.2)
  | .wakeup => GetWakeup ra b val
  | .fifoMode => GetFifoMode ra b val
  | .fifoTriggerInt2 => let r := GetFifoTriggerInt2 ra b val; (r.1, r.2.1, boolToInt r.2.2)
  | .fifoSamples => GetFifoSamples ra b val

/-- The byte that the setter of a field computes from the register content
`x` it has read and its argument `arg`: the right-hand side of the assignment
before the write, setter by setter. -/
def Field.newByte (x arg : Nat) : Field → Nat
  | .lowPower =>
    toUint8 ((x &&& compl32 (1 <<< BIT_BW_RATE_LOW_POWER))
      ||| (boolToInt (intToBool arg) <<< BIT_BW_RATE_LOW_POWER))
  | .rate => toUint8 ((x &&& (1 <<< BIT_BW_RATE_LOW_POWER)) ||| arg)
  | .link =>
    toUint8 ((x &&& compl32 (1 <<< BIT_POWER_CTL_LINK))
      ||| (boolToInt (intToBool arg) <<< BIT_POWER_CTL_LINK))
  | .autoSleep =>
    toUint8 ((x &&& compl32 (1 <<< BIT_POWER_CTL_AUTO_SLEEP))
      ||| (boolToInt (intToBool arg) <<< BIT_POWER_CTL_AUTO_SLEEP))
  | .measure =>
    toUint8 ((x &&& compl32 (1 <<< BIT_POWER_CTL_MEASURE))
      ||| (boolToInt (intToBool arg) <<< BIT_POWER_CTL_MEASURE))
  | .sleep =>
    toUint8 ((x &&& compl32 (1 <<< BIT_POWER_CTL_SLEEP))
      ||| (boolToInt (intToBool arg) <<< BIT_POWER_CTL_SLEEP))
  | .wakeup => toUint8 ((x &&& compl32 0x03) ||| arg)
  | .fifoMode => toUint8 ((x &&& compl32 0xC0) ||| (arg <<< BIT_FIFO_CTL_MODE_LSB))
  | .fifoTriggerInt2 =>
    toUint8 ((x &&& compl32 (1 <<< BIT_FIFO_CTL_TRIGGER_INT2))
      ||| (boolToInt (intToBool arg) <<< BIT_FIFO_CTL_TRIGGER_INT2))
  | .fifoSamples => toUint8 ((x &&& compl32 0x1F) ||| arg)

/-- The value that the getter of a field derives from the register content `x`
it has read, getter by getter (a `bool` as 0 or 1). -/
def Field.extract (x : Nat) : Field → Nat
  | .lowPower => boolToInt (intToBool ((x >>> BIT_BW_RATE_LOW_POWER) &&& 1))
  | .rate => toUint8 (x &&& 0x0F)
  | .link => boolToInt (intToBool ((x >>> BIT_POWER_CTL_LINK) &&& 1))
  | .autoSleep => boolToInt (intToBool ((x >>> BIT_POWER_CTL_AUTO_SLEEP) &&& 1))
  | .measure => boolToInt (intToBool ((x >>> BIT_POWER_CTL_MEASURE) &&& 1))
  | .sleep => boolToInt (intToBool ((x >>> BIT_POWER_CTL_SLEEP) &&& 1))
  | .wakeup => toUint8 (x &&& 0x03)
  | .fifoMode => toUint8 (x >>> BIT_FIFO_CTL_MODE_LSB)
  | .fifoTriggerInt2 => boolToInt (intToBool ((x >>> BIT_FIFO_CTL_TRIGGER_INT2) &&& 1))
  | .fifoSamples => toUint8 (x &&& 0x1F)

end ADXL345

/-! ## Recording the statuses of the HAL primitives -/

/-- The HAL `hal` with a log of calls and results: every call behaves as in
`hal` and is appended to the list together with the status it returned (`none`
for the pin write, which returns nothing). -/
def HAL.logged {σ : Type} (hal : HAL σ) : HAL (σ × List (HalEvent × Option Nat)) where
  HAL_I2C_Master_Transmit := fun s hi2c addr pData timeout =>
    (((hal.HAL_I2C_Master_Transmit s.1 hi2c addr pData timeout).1,
      s.2 ++ [(HalEvent.i2cTransmit hi2c addr pData timeout,
        some (hal.HAL_I2C_Master_Transmit s.1 hi2c addr pData timeout).2)]),
     (hal.HAL_I2C_Master_Transmit s.1 hi2c addr pData timeout).2)
  HAL_I2C_Master_Receive := fun s hi2c addr pData size timeout =>
    (((hal.HAL_I2C_Master_Receive s.1 hi2c addr pData size timeout).1,
      s.2 ++ [(HalEvent.i2cReceive hi2c addr size timeout,
        some (hal.HAL_I2C_Master_Receive s.1 hi2c addr pData size timeout).2.1)]),
     (hal.HAL_I2C_Master_Receive s.1 hi2c addr pData size timeout).2.1,
     (hal.HAL_I2C_Master_Receive s.1 hi2c addr pData size timeout).2.2)
  HAL_SPI_Transmit := fun s hspi pData timeout =>
    (((hal.HAL_SPI_Transmit s.1 hspi pData timeout).1,
      s.2 ++ [(HalEvent.spiTransmit hspi pData timeout,
        some (hal.HAL_SPI_Transmit s.1 hspi pData timeout).2)]),
     (hal.HAL_SPI_Transmit s.1 hspi pData timeout).2)
  HAL_SPI_Receive := fun s hspi pData size timeout =>
    (((hal.HAL_SPI_Receive s.1 hspi pData size timeout).1,
      s.2 ++ [(HalEvent.spiReceive hspi size timeout,
        some (hal.HAL_SPI_Receive s.1 hspi pData size timeout).2.1)]),
     (hal.HAL_SPI_Receive s.1 hspi pData size timeout).2.1,
     (hal.HAL_SPI_Receive s.1 hspi pData size timeout).2.2)
  HAL_GPIO_WritePin := fun s port pin pinState =>
    (hal.HAL_GPIO_WritePin s.1 port pin pinState,
      s.2 ++ [(HalEvent.gpioWritePin port pin pinState, none)])

/-- Whether a log of primitive calls is fail-stop for an operation that
returned `result`: at the first call that returned a non-zero status `s`, the
operation returned `s` and the calls after it are exactly `tail`. -/
def failStop (tail : List (HalEvent × Option Nat)) (result : Option Nat) :
    List (HalEvent × Option Nat) → Bool
  | [] => true
  | (_, none) :: rest => failStop tail result rest
  | (_, some s) :: rest =>
    if s = 0 then failStop tail result rest
    else decide (result = some s) && decide (rest = tail)

/-- A HAL whose bus primitives return the statuses of a script, one per call
(zero, or an exhausted script, is success), and touch nothing else. -/
def ScriptedHal : HAL (List Nat) where
  HAL_I2C_Master_Transmit := fun s _ _ _ _ => (s.tail, s.headD 0)
  HAL_I2C_Master_Receive := fun s _ _ pData _ _ => (s.tail, s.headD 0, pData)
  HAL_SPI_Transmit := fun s _ _ _ => (s.tail, s.headD 0)
  HAL_SPI_Receive := fun s _ pData _ _ => (s.tail, s.headD 0, pData)
  HAL_GPIO_WritePin := fun s _ _ _ => s

/-! ## The registers and counts of a transaction -/

namespace ADXL345

/-- Whether a register address is outside the reserved range: `REG_DEVID`, or
above `REG_RESERVED_LAST` up to `REG_FIFO_STATUS`. -/
def validRegister (reg : Nat) : Bool :=
  decide (reg = REG_DEVID) || (decide (REG_RESERVED_LAST < reg) && decide (reg ≤ REG_FIFO_STATUS))

/-- The number of bytes that a transaction moves. -/
def Transaction.count : Transaction → Nat
  | .write _ _ => 1
  | .writeBlock _ data => data.length
  | .read _ => 1
  | .readBlock _ n => n

/-- The register addresses that a transaction covers: `reg`, ...,
`reg + count - 1`. -/
def Transaction.addresses (tr : Transaction) : List Nat :=
  match tr with
  | .write reg _ => (List.range tr.count).map (fun i => reg + i)
  | .writeBlock reg _ => (List.range tr.count).map (fun i => reg + i)
  | .read reg => (List.range tr.count).map (fun i => reg + i)
  | .readBlock reg _ => (List.range tr.count).map (fun i => reg + i)

/-- Whether a transaction is a single-byte access or one of the two block
accesses: the three offset bytes at `REG_OFSX` or the six data bytes at
`REG_DATAX0`. -/
def Transaction.blockOK : Transaction → Bool
  | .write _ _ => true
  | .writeBlock reg data => decide (reg = REG_OFSX) && decide (data.length = 3)
  | .read _ => true
  | .readBlock reg n =>
    (decide (reg = REG_OFSX) && decide (n = 3)) || (decide (reg = REG_DATAX0) && decide (n = 6))

/-! ## The staging array of the block-write framers -/

/-- The copy loop `for (i = 0; i < n; i++) dataWithReg[i+1] = data[i]` of the
block-write framers, from the iteration `i` on with `count` iterations left,
on the staging array `dataWithReg`; `none` when a store falls outside the
array. -/
def copyLoop (data : Nat → Nat) : Nat → Nat → List Nat → Option (List Nat)
  | 0, _, dataWithReg => some dataWithReg
  | count + 1, i, dataWithReg =>
    if i + 1 < dataWithReg.length then
      copyLoop data count (i + 1) (dataWithReg.set (i + 1) (data i))
    else none

/-- The staging array of a block-write framer before the header bits are set:
the store of `reg` into `dataWithReg[0]` followed by the copy loop;
`dataWithReg` is the indeterminate content of the uninitialised array of
`BUFFER_MAX + 1` elements. -/
def stage (reg : Nat) (data : Nat → Nat) (n : Nat) (dataWithReg : List Nat) :
    Option (List Nat) :=
  copyLoop data n 0 (dataWithReg.set 0 reg)

end ADXL345

/-! ## Faithful register files -/

namespace ADXL345

variable {β : Type}

/-- Modelled from the spec: what makes a register access layer `ra` a faithful
in-memory register file, `regs b` being the content of the device registers in
the bus state `b`.  A successful write stores the bytes, a successful read
returns the stored bytes, no read changes a register and a failed transaction
changes no register. -/
structure FaithfulRegisterFile (ra : RegisterAccess β) (regs : β → Nat → Nat) : Prop where
  write_ok : ∀ b reg val, (ra._WriteTo b reg val).2 = 0 →
    regs (ra._WriteTo b reg val).1 = fun r => if r = reg then val else regs b r
  write_failed : ∀ b reg val, (ra._WriteTo b reg val).2 ≠ 0 →
    regs (ra._WriteTo b reg val).1 = regs b
  writeBlock_ok : ∀ b reg data n, (ra._WriteToBlock b reg data n).2 = 0 →
    regs (ra._WriteToBlock b reg data n).1 =
      fun r => if reg ≤ r ∧ r < reg + n then data (r - reg) else regs b r
  writeBlock_failed : ∀ b reg data n, (ra._WriteToBlock b reg data n).2 ≠ 0 →
    regs (ra._WriteToBlock b reg data n).1 = regs b
  read_regs : ∀ b reg val, regs (ra._ReadFrom b reg val).1 = regs b
  read_ok : ∀ b reg val, (ra._ReadFrom b reg val).2.1 = 0 →
    (ra._ReadFrom b reg val).2.2 = regs b reg
  readBlock_regs : ∀ b reg data n, regs (ra._ReadFromBlock b reg data n).1 = regs b
  readBlock_ok : ∀ b reg data n, (ra._ReadFromBlock b reg data n).2.1 = 0 →
    ∀ i < n, (ra._ReadFromBlock b reg data n).2.2 i = regs b (reg + i)

/-- A failed single-byte read leaves the caller's byte as it was before the
call. -/
def KeepsByteOnFailure (ra : RegisterAccess β) : Prop :=
  ∀ b reg val, (ra._ReadFrom b reg val).2.1 ≠ 0 → (ra._ReadFrom b reg val).2.2 = val

/-- Modelled from the spec: the register-file stub `RegFile.access`, except
that a failed single-byte read leaves 0xFF in the caller's byte; a failed
transaction still changes no register. -/
def RegFile.clobbering : RegisterAccess RegFile where
  _WriteTo := RegFile.access._WriteTo
  _WriteToBlock := RegFile.access._WriteToBlock
  _ReadFrom := fun rf reg _ =>
    if rf.status = 0 then ({ regs := rf.regs, script := rf.script.tail }, 0, rf.regs reg)
    else ({ regs := rf.regs, script := rf.script.tail }, rf.status, 0xFF)
  _ReadFromBlock := RegFile.access._ReadFromBlock

end ADXL345

/-! # Theorems -/

namespace ADXL345

variable {β : Type}

/-! ## Byte-level facts -/

theorem lor_mod_256 (x r : Nat) : (x ||| r) % 256 = (x % 256) ||| (r % 256) := by
  have h : (256 : Nat) = 2 ^ 8 := by norm_num
  rw [h]
  apply Nat.eq_of_testBit_eq
  intro i
  simp only [Nat.testBit_mod_two_pow, Nat.testBit_lor, Bool.and_or_distrib_left]

set_option maxRecDepth 1000000 in
theorem range_mask_byte : ∀ c < 256, (c &&& compl32 3) % 256 = c &&& 0xFC := by decide

theorem range_set_byte (c r : Nat) (hc : c < 256) (hr : r < 256) :
    toUint8 ((c &&& compl32 3) ||| r) = (c &&& 0xFC) ||| r := by
  unfold toUint8
  rw [lor_mod_256, range_mask_byte c hc, Nat.mod_eq_of_lt hr]

set_option maxRecDepth 1000000 in
theorem range_set_low : ∀ c < 256, ∀ r < 4,
    ((c &&& 0xFC) ||| r) % 4 = r ∧ ((c &&& 0xFC) ||| r) >>> 2 = c >>> 2 ∧
      ((c &&& 0xFC) ||| r) < 256 := by
  decide

set_option maxRecDepth 1000000 in
set_option maxHeartbeats 4000000 in
theorem flag_set_byte : ∀ c < 256, ∀ k < 8, ∀ v : Bool,
    toUint8 ((c &&& compl32 (1 <<< k)) ||| (boolToInt v <<< k)) =
      (c &&& (255 - 2 ^ k)) ||| (v.toNat * 2 ^ k) := by
  decide

set_option maxRecDepth 1000000 in
set_option maxHeartbeats 4000000 in
theorem flag_set_low : ∀ c < 256, ∀ k < 8, ∀ v : Bool,
    ((c &&& (255 - 2 ^ k)) ||| (v.toNat * 2 ^ k)) < 256 ∧
      (2 ≤ k → ((c &&& (255 - 2 ^ k)) ||| (v.toNat * 2 ^ k)) % 4 = c % 4) := by
  decide

theorem flag_set_other (c k j : Nat) (v : Bool) (hk : k < 8) (hj : j < 8) (hjk : j ≠ k) :
    ((c &&& (255 - 2 ^ k)) ||| (v.toNat * 2 ^ k)).testBit j = c.testBit j := by
  have h1 : (255 - 2 ^ k).testBit j = true := by
    interval_cases k <;> interval_cases j <;> first | decide | exact absurd rfl hjk
  have h2 : (v.toNat * 2 ^ k).testBit j = false := by
    cases v <;> interval_cases k <;> interval_cases j <;> first | decide | exact absurd rfl hjk
  rw [Nat.testBit_lor, Nat.testBit_land, h1, h2]; simp

theorem flag_set_own (c k : Nat) (v : Bool) (hk : k < 8) :
    ((c &&& (255 - 2 ^ k)) ||| (v.toNat * 2 ^ k)).testBit k = v := by
  have h1 : (255 - 2 ^ k).testBit k = false := by
    interval_cases k <;> decide
  have h2 : (v.toNat * 2 ^ k).testBit k = v := by
    cases v <;> interval_cases k <;> decide
  rw [Nat.testBit_lor, Nat.testBit_land, h1, h2]; simp

set_option maxRecDepth 1000000 in
theorem getters_byte : ∀ c < 256,
    intToBool (c >>> 7) = c.testBit 7 ∧ intToBool ((c >>> 6) &&& 1) = c.testBit 6 ∧
    intToBool ((c >>> 5) &&& 1) = c.testBit 5 ∧ intToBool ((c >>> 3) &&& 1) = c.testBit 3 ∧
    intToBool ((c >>> 2) &&& 1) = c.testBit 2 ∧ toUint8 (c &&& 3) = c % 4 ∧
    c &&& 3 = c % 4 := by
  decide

theorem Flag.bit_lt (f : Flag) : f.bit < 8 := by
  cases f <;> decide

theorem Flag.two_le_bit (f : Flag) : 2 ≤ f.bit := by
  cases f <;> decide

theorem Flag.bit_injective (f g : Flag) (h : g ≠ f) : g.bit ≠ f.bit := by
  cases f <;> cases g <;> first | exact absurd rfl h | decide

theorem Flag.get_eq_testBit (self : ADXL345) (hc : self._dataFormat < 256) (f : Flag) :
    f.get self = self._dataFormat.testBit f.bit := by
  obtain ⟨h7, h6, h5, h3, h2, -, -⟩ := getters_byte self._dataFormat hc
  cases f
  · exact h7
  · exact h6
  · exact h5
  · exact h3
  · exact h2

theorem GetRange_eq_mod (self : ADXL345) (hc : self._dataFormat < 256) :
    GetRange self = self._dataFormat % 4 :=
  (getters_byte self._dataFormat hc).2.2.2.2.2.1

/-! ## `SetDataFormat` -/

theorem SetDataFormat_eq (ra : RegisterAccess β) (self : ADXL345) (b : β) (bitfield : Nat) :
    SetDataFormat ra self b bitfield =
      (if (ra._WriteTo b REG_DATA_FORMAT bitfield).2 = 0
        then { self with _dataFormat := bitfield } else self,
       (ra._WriteTo b REG_DATA_FORMAT bitfield).1,
       (ra._WriteTo b REG_DATA_FORMAT bitfield).2) := by
  unfold SetDataFormat
  rcases h : ra._WriteTo b REG_DATA_FORMAT bitfield with ⟨b1, s⟩
  by_cases hs : s = 0 <;> simp [hs]

theorem SetDataFormat_trace (ra : RegisterAccess β) (self : ADXL345) (b : β)
    (t : List Transaction) (bitfield : Nat) :
    (SetDataFormat ra.traced self (b, t) bitfield).2.1.2 =
      t ++ [Transaction.write 0x31 bitfield] := by
  rw [SetDataFormat_eq]; rfl

theorem SetDataFormat_cache_of_success (ra : RegisterAccess β) (self : ADXL345) (b : β)
    (bitfield : Nat) (h : (SetDataFormat ra self b bitfield).2.2 = 0) :
    (SetDataFormat ra self b bitfield).1 = { self with _dataFormat := bitfield } := by
  rw [SetDataFormat_eq] at h ⊢
  simp only at h
  simp [h]

theorem Flag.set_eq (ra : RegisterAccess β) (self : ADXL345) (b : β) (v : Bool) (f : Flag)
    (hc : self._dataFormat < 256) :
    f.set ra self b v = SetDataFormat ra self b
      ((self._dataFormat &&& (255 - 2 ^ f.bit)) ||| (v.toNat * 2 ^ f.bit)) := by
  rw [← flag_set_byte self._dataFormat hc f.bit f.bit_lt v]
  cases f <;> rfl

theorem SetRange_eq (ra : RegisterAccess β) (self : ADXL345) (b : β) (range : Nat)
    (hc : self._dataFormat < 256) (hr : range < 256) :
    SetRange ra self b range =
      SetDataFormat ra self b ((self._dataFormat &&& 0xFC) ||| range) := by
  rw [← range_set_byte self._dataFormat range hc hr]
  rfl


/-! ## The cached data-format byte -/

/-- C1: `SetDataFormat` performs the single write of `bitfield` to register
0x31 and returns that write's status and bus state; if the write succeeds the
cache becomes `bitfield` (the gain is untouched), and if it fails the driver
state is unchanged, so every data-format getter returns what it returned before
the call. -/
theorem SetDataFormat_status_and_cache (ra : RegisterAccess β) (self : ADXL345) (b : β)
    (t : List Transaction) (bitfield : Nat) :
    (SetDataFormat ra self b bitfield).2.2 = (ra._WriteTo b 0x31 bitfield).2 ∧
    (SetDataFormat ra self b bitfield).2.1 = (ra._WriteTo b 0x31 bitfield).1 ∧
    (SetDataFormat ra.traced self (b, t) bitfield).2.1.2 =
      t ++ [Transaction.write 0x31 bitfield] ∧
    ((ra._WriteTo b 0x31 bitfield).2 = 0 →
      (SetDataFormat ra self b bitfield).1._dataFormat = bitfield ∧
      (SetDataFormat ra self b bitfield).1._gain = self._gain) ∧
    ((ra._WriteTo b 0x31 bitfield).2 ≠ 0 →
      (SetDataFormat ra self b bitfield).1 = self ∧
      (SetDataFormat ra self b bitfield).1._dataFormat = self._dataFormat ∧
      GetDataFormat (SetDataFormat ra self b bitfield).1 = GetDataFormat self ∧
      GetSelfTest (SetDataFormat ra self b bitfield).1 = GetSelfTest self ∧
      GetSPI3Wire (SetDataFormat ra self b bitfield).1 = GetSPI3Wire self ∧
      GetIntActiveLow (SetDataFormat ra self b bitfield).1 = GetIntActiveLow self ∧
      GetFullRes (SetDataFormat ra self b bitfield).1 = GetFullRes self ∧
      GetLeftJustify (SetDataFormat ra self b bitfield).1 = GetLeftJustify self ∧
      GetRange (SetDataFormat ra self b bitfield).1 = GetRange self) := by
  refine ⟨?_, ?_, SetDataFormat_trace ra self b t bitfield, ?_, ?_⟩
  · rw [SetDataFormat_eq]; rfl
  · rw [SetDataFormat_eq]; rfl
  · intro h
    have h' : (ra._WriteTo b REG_DATA_FORMAT bitfield).2 = 0 := h
    rw [SetDataFormat_eq]
    simp [h']
  · intro h
    have h' : ¬ (ra._WriteTo b REG_DATA_FORMAT bitfield).2 = 0 := h
    have e : (SetDataFormat ra self b bitfield).1 = self := by
      rw [SetDataFormat_eq]
      simp [h']
    rw [e]
    exact ⟨rfl, rfl, rfl, rfl, rfl, rfl, rfl, rfl, rfl⟩

/-- Witness for C1: on the register-file stub a write that fails with status 3
leaves a cache of 5 in place. -/
theorem SetDataFormat_status_and_cache_witness :
    (SetDataFormat RegFile.access { _dataFormat := 5, _gain := fun _ => 1 }
      { regs := fun _ => 5, script := [3] } 0xFF).1._dataFormat = 5 :=
  ((SetDataFormat_status_and_cache RegFile.access { _dataFormat := 5, _gain := fun _ => 1 }
      { regs := fun _ => 5, script := [3] } [] 0xFF).2.2.2.2 (by decide)).2.1

/-! ### The invariant on faithful register files -/

theorem access_explicit (ra : RegisterAccess β) :
    ra =
      { _WriteTo := fun b reg val => ((ra._WriteTo b reg val).1, (ra._WriteTo b reg val).2)
        _WriteToBlock := fun b reg data n =>
          ((ra._WriteToBlock b reg data n).1, (ra._WriteToBlock b reg data n).2)
        _ReadFrom := fun b reg val =>
          ((ra._ReadFrom b reg val).1, (ra._ReadFrom b reg val).2.1,
            (ra._ReadFrom b reg val).2.2)
        _ReadFromBlock := fun b reg data n =>
          ((ra._ReadFromBlock b reg data n).1, (ra._ReadFromBlock b reg data n).2.1,
            (ra._ReadFromBlock b reg data n).2.2) } :=
  rfl

theorem faithful_write_other (ra : RegisterAccess β) (regs : β → Nat → Nat)
    (hf : FaithfulRegisterFile ra regs) (b : β) (reg val : Nat) (h : reg ≠ 0x31) :
    regs (ra._WriteTo b reg val).1 0x31 = regs b 0x31 := by
  by_cases hs : (ra._WriteTo b reg val).2 = 0
  · rw [hf.write_ok b reg val hs]
    simp [Ne.symm h]
  · rw [hf.write_failed b reg val hs]

theorem faithful_write_format (ra : RegisterAccess β) (regs : β → Nat → Nat)
    (hf : FaithfulRegisterFile ra regs) (b : β) (val : Nat) :
    regs (ra._WriteTo b 0x31 val).1 0x31 =
      if (ra._WriteTo b 0x31 val).2 = 0 then val else regs b 0x31 := by
  by_cases hs : (ra._WriteTo b 0x31 val).2 = 0
  · rw [hf.write_ok b _ val hs, if_pos hs]
    simp
  · rw [hf.write_failed b _ val hs, if_neg hs]

theorem faithful_writeBlock_offsets (ra : RegisterAccess β) (regs : β → Nat → Nat)
    (hf : FaithfulRegisterFile ra regs) (b : β) (data : Nat → Nat) :
    regs (ra._WriteToBlock b 0x1E data 3).1 0x31 = regs b 0x31 := by
  by_cases hs : (ra._WriteToBlock b 0x1E data 3).2 = 0
  · rw [hf.writeBlock_ok b _ data 3 hs]
    simp
  · rw [hf.writeBlock_failed b _ data 3 hs]

theorem faithful_read_format (ra : RegisterAccess β) (regs : β → Nat → Nat)
    (hf : FaithfulRegisterFile ra regs) (hk : KeepsByteOnFailure ra) (b : β) (val : Nat) :
    (ra._ReadFrom b 0x31 val).2.2 =
      if (ra._ReadFrom b 0x31 val).2.1 = 0 then regs b 0x31 else val := by
  by_cases hs : (ra._ReadFrom b 0x31 val).2.1 = 0
  · rw [hf.read_ok b _ val hs, if_pos hs]
  · rw [hk b _ val hs, if_neg hs]

theorem run_faithful_preserves (ra : RegisterAccess β) (regs : β → Nat → Nat)
    (hf : FaithfulRegisterFile ra regs) (hk : KeepsByteOnFailure ra)
    (op : Op) (self : ADXL345) (b : β)
    (h : self._dataFormat = regs b 0x31) :
    (op.run ra self b).1._dataFormat = regs (op.run ra self b).2.1 0x31 := by
  have hw := faithful_write_other ra regs hf
  have hwf := faithful_write_format ra regs hf
  have hwb := faithful_writeBlock_offsets ra regs hf
  have hrf := faithful_read_format ra regs hf hk
  have hr := hf.read_regs
  have hrb := hf.readBlock_regs
  replace h := h.symm
  rw [access_explicit ra]
  cases op <;>
    simp only [Op.run, SetGain, GetGain, SetDataFormat, RefreshDataFormat, GetDataFormat, SetSelfTest,
      GetSelfTest, SetSPI3Wire, GetSPI3Wire, SetIntActiveLow, GetIntActiveLow,
      SetFullRes, GetFullRes, SetLeftJustify, GetLeftJustify, SetRange, GetRange,
      GetDataRaw, GetData, GetDeviceID, CheckDeviceID, SetThreshTapRaw, GetThreshTapRaw,
      SetThreshTap, GetThreshTap, SetOffsetRaw, GetOffsetRaw, SetOffset, GetOffset,
      SetTapDurRaw, GetTapDurRaw, SetTapDur, GetTapDur, SetTapLatencyRaw,
      GetTapLatencyRaw, SetTapLatency, GetTapLatency, SetTapWindowRaw, GetTapWindowRaw,
      SetTapWindow, GetTapWindow, SetThreshActRaw, GetThreshActRaw, SetThreshAct,
      GetThreshAct, SetThreshInactRaw, GetThreshInactRaw, SetThreshInact, GetThreshInact,
      SetTimeInact, GetTimeInact, SetActInactCtl, GetActInactCtl, SetThreshFFRaw,
      GetThreshFFRaw, SetThreshFF, GetThreshFF, SetTimeFFRaw, GetTimeFFRaw, SetTimeFF,
      GetTimeFF, SetTapAxes, GetTapAxes, GetActTapStatus, GetAsleep, SetBwRate,
      GetBwRate, SetLowPower, GetLowPower, SetRate, GetRate, SetPowerCtl, GetPowerCtl,
      SetLink, GetLink, SetAutoSleep, GetAutoSleep, SetMeasure, GetMeasure, SetSleep,
      GetSleep, SetWakeup, GetWakeup, SetIntEnable, GetIntEnable, SetIntMap, GetIntMap,
      GetIntSource, SetFifoCtl, GetFifoCtl, SetFifoMode, GetFifoMode, SetFifoTriggerInt2,
      GetFifoTriggerInt2, SetFifoSamples, GetFifoSamples, GetFifoStatus, GetFifoTrig,
      GetFifoEntries] <;>
    (try simp only [REG_DEVID, REG_RESERVED_FIRST, REG_RESERVED_LAST, REG_THRESH_TAP, REG_OFSX,
      REG_OFSY, REG_OFSZ, REG_DUR, REG_LATENT, REG_WINDOW, REG_THRESH_ACT,
      REG_THRESH_INACT, REG_TIME_INACT, REG_ACT_INACT_CTL, REG_THRESH_FF, REG_TIME_FF,
      REG_TAP_AXES, REG_ACT_TAP_STATUS, REG_BW_RATE, REG_POWER_CTL, REG_INT_ENABLE,
      REG_INT_MAP, REG_INT_SOURCE, REG_DATA_FORMAT, REG_DATAX0, REG_DATAX1, REG_DATAY0,
      REG_DATAY1, REG_DATAZ0, REG_DATAZ1, REG_FIFO_CTL, REG_FIFO_STATUS]) <;>
    (try simp only [hr, hrb, hwb, hwf, hrf]) <;>
    (try split_ifs) <;>
    (try simp [hw, hr, hrb, hwb, hwf, hrf, h, *])

theorem runAll_faithful_preserves (ra : RegisterAccess β) (regs : β → Nat → Nat)
    (hf : FaithfulRegisterFile ra regs) (hk : KeepsByteOnFailure ra)
    (ops : List Op) (self : ADXL345) (b : β)
    (h : self._dataFormat = regs b 0x31) :
    (runAll ra self b ops).1._dataFormat = regs (runAll ra self b ops).2 0x31 := by
  induction ops generalizing self b with
  | nil => exact h
  | cons op ops ih =>
    simp only [runAll]
    exact ih _ _ (run_faithful_preserves ra regs hf hk op self b h)

theorem RegFile.access_faithful : FaithfulRegisterFile RegFile.access RegFile.regs where
  write_ok := by
    intro rf reg val hs
    by_cases h0 : rf.status = 0 <;> simp_all [RegFile.access]
  write_failed := by
    intro rf reg val hs
    by_cases h0 : rf.status = 0 <;> simp_all [RegFile.access]
  writeBlock_ok := by
    intro rf reg data n hs
    by_cases h0 : rf.status = 0 <;> simp_all [RegFile.access]
  writeBlock_failed := by
    intro rf reg data n hs
    by_cases h0 : rf.status = 0 <;> simp_all [RegFile.access]
  read_regs := by
    intro rf reg val
    by_cases h0 : rf.status = 0 <;> simp [RegFile.access, h0]
  read_ok := by
    intro rf reg val hs
    by_cases h0 : rf.status = 0 <;> simp_all [RegFile.access]
  readBlock_regs := by
    intro rf reg data n
    by_cases h0 : rf.status = 0 <;> simp [RegFile.access, h0]
  readBlock_ok := by
    intro rf reg data n hs i hi
    by_cases h0 : rf.status = 0 <;> simp_all [RegFile.access]

theorem RegFile.access_keeps : KeepsByteOnFailure RegFile.access := by
  intro rf reg val hs
  by_cases h0 : rf.status = 0 <;> simp_all [RegFile.access]

theorem RegFile.clobbering_faithful :
    FaithfulRegisterFile RegFile.clobbering RegFile.regs where
  write_ok := RegFile.access_faithful.write_ok
  write_failed := RegFile.access_faithful.write_failed
  writeBlock_ok := RegFile.access_faithful.writeBlock_ok
  writeBlock_failed := RegFile.access_faithful.writeBlock_failed
  read_regs := by
    intro rf reg val
    by_cases h0 : rf.status = 0 <;> simp [RegFile.clobbering, h0]
  read_ok := by
    intro rf reg val hs
    by_cases h0 : rf.status = 0 <;> simp_all [RegFile.clobbering]
  readBlock_regs := RegFile.access_faithful.readBlock_regs
  readBlock_ok := RegFile.access_faithful.readBlock_ok

/-- C2, as stated, fails.  The stub `RegFile.clobbering` is a faithful register
file, in which a failed transaction changes no register; on it a
`RefreshDataFormat` whose read fails with status 3 and leaves 0xFF in the
caller's byte takes a freshly constructed driver, whose cache 0 equals
register 0x31, to a cache of 0xFF while register 0x31 is still 0. -/
theorem failed_refresh_breaks_cache :
    FaithfulRegisterFile RegFile.clobbering RegFile.regs ∧
    (new : ADXL345)._dataFormat =
      ({ regs := fun _ => 0, script := [3] } : RegFile).regs 0x31 ∧
    (Op.run RegFile.clobbering new { regs := fun _ => 0, script := [3] }
      Op.RefreshDataFormat).2.2 = some 3 ∧
    (Op.run RegFile.clobbering new { regs := fun _ => 0, script := [3] }
      Op.RefreshDataFormat).1._dataFormat = 0xFF ∧
    (Op.run RegFile.clobbering new { regs := fun _ => 0, script := [3] }
      Op.RefreshDataFormat).2.1.regs 0x31 = 0 ∧
    (Op.run RegFile.clobbering new { regs := fun _ => 0, script := [3] }
        Op.RefreshDataFormat).1._dataFormat ≠
      (Op.run RegFile.clobbering new { regs := fun _ => 0, script := [3] }
        Op.RefreshDataFormat).2.1.regs 0x31 :=
  ⟨RegFile.clobbering_faithful, rfl, rfl, rfl, rfl, by decide⟩

/-- C2, amended: on every faithful register file in which a failed
single-byte read leaves the caller's byte unchanged, every public operation
preserves "the cached data-format byte equals register 0x31", whether it
succeeds or fails; hence the invariant holds after every finite sequence of
operations started from a freshly constructed driver on a device whose
register 0x31 is 0. -/
theorem cache_invariant (ra : RegisterAccess β) (regs : β → Nat → Nat)
    (hf : FaithfulRegisterFile ra regs) (hk : KeepsByteOnFailure ra) :
    (∀ (op : Op) (self : ADXL345) (b : β), self._dataFormat = regs b 0x31 →
      (op.run ra self b).1._dataFormat = regs (op.run ra self b).2.1 0x31) ∧
    (∀ (ops : List Op) (b : β), regs b 0x31 = 0 →
      (runAll ra new b ops).1._dataFormat = regs (runAll ra new b ops).2 0x31) :=
  ⟨run_faithful_preserves ra regs hf hk,
    fun ops b h => runAll_faithful_preserves ra regs hf hk ops new b h.symm⟩

/-- Witness for C2 (amended): on the register-file stub, a run with a
successful range write, a flag write that fails with status 7 and a refresh
that fails with status 4. -/
theorem cache_invariant_witness :
    (runAll RegFile.access new { regs := fun _ => 0, script := [0, 7, 4] }
      [Op.SetRange 2, Op.SetFullRes true, Op.RefreshDataFormat]).1._dataFormat =
    (runAll RegFile.access new { regs := fun _ => 0, script := [0, 7, 4] }
      [Op.SetRange 2, Op.SetFullRes true, Op.RefreshDataFormat]).2.regs 0x31 :=
  (cache_invariant RegFile.access RegFile.regs RegFile.access_faithful
    RegFile.access_keeps).2 _ _ rfl


/-! ## The derived setters and getters -/

/-- C3: for each one-bit data-format setter (bits 7, 6, 5, 3, 2), every cache
byte and every boolean `v`, the call is the single write to register 0x31 of the
cache with that bit cleared OR-ed with `v` shifted to that bit (no read is
issued); on success the matching getter returns `v` and every other flag getter
and `GetRange` return what they returned before.  The same holds for `SetRange`
with an argument in 0..3: `GetRange` then returns the argument and the five
flag getters are unchanged. -/
theorem flag_setters_clear_then_or (ra : RegisterAccess β) (self : ADXL345) (b : β)
    (t : List Transaction) (f : Flag) (v : Bool) (range : Nat)
    (hc : self._dataFormat < 256) (hr : range ≤ 3) :
    (Flag.selfTest.bit = 7 ∧ Flag.spi3Wire.bit = 6 ∧ Flag.intActiveLow.bit = 5 ∧
      Flag.fullRes.bit = 3 ∧ Flag.leftJustify.bit = 2) ∧
    (f.set ra.traced self (b, t) v).2.1.2 =
      t ++ [Transaction.write 0x31
        ((self._dataFormat &&& (255 - 2 ^ f.bit)) ||| (v.toNat * 2 ^ f.bit))] ∧
    ((f.set ra self b v).2.2 = 0 →
      f.get (f.set ra self b v).1 = v ∧
      (∀ g : Flag, g ≠ f → g.get (f.set ra self b v).1 = g.get self) ∧
      GetRange (f.set ra self b v).1 = GetRange self) ∧
    (SetRange ra.traced self (b, t) range).2.1.2 =
      t ++ [Transaction.write 0x31 ((self._dataFormat &&& 0xFC) ||| range)] ∧
    ((SetRange ra self b range).2.2 = 0 →
      GetRange (SetRange ra self b range).1 = range ∧
      (∀ g : Flag, g.get (SetRange ra self b range).1 = g.get self)) := by
  have hr4 : range < 4 := by omega
  have hr256 : range < 256 := by omega
  refine ⟨⟨rfl, rfl, rfl, rfl, rfl⟩, ?_, ?_, ?_, ?_⟩
  · rw [Flag.set_eq ra.traced self (b, t) v f hc]
    exact SetDataFormat_trace ra self b t _
  · intro hs
    rw [Flag.set_eq ra self b v f hc] at hs ⊢
    rw [SetDataFormat_cache_of_success ra self b _ hs]
    obtain ⟨hw, hlow⟩ := flag_set_low self._dataFormat hc f.bit f.bit_lt v
    refine ⟨?_, ?_, ?_⟩
    · rw [Flag.get_eq_testBit _ hw f]
      exact flag_set_own self._dataFormat f.bit v f.bit_lt
    · intro g hg
      rw [Flag.get_eq_testBit _ hw g, Flag.get_eq_testBit self hc g]
      exact flag_set_other self._dataFormat f.bit g.bit v f.bit_lt g.bit_lt
        (Flag.bit_injective f g hg)
    · rw [GetRange_eq_mod _ hw, GetRange_eq_mod self hc]
      exact hlow f.two_le_bit
  · rw [SetRange_eq ra.traced self (b, t) range hc hr256]
    exact SetDataFormat_trace ra self b t _
  · intro hs
    rw [SetRange_eq ra self b range hc hr256] at hs ⊢
    rw [SetDataFormat_cache_of_success ra self b _ hs]
    obtain ⟨hmod, hshift, hw⟩ := range_set_low self._dataFormat hc range hr4
    refine ⟨?_, ?_⟩
    · rw [GetRange_eq_mod _ hw]
      exact hmod
    · intro g
      rw [Flag.get_eq_testBit _ hw g, Flag.get_eq_testBit self hc g]
      have hg : 2 ≤ g.bit := g.two_le_bit
      have e : ∀ x : Nat, x.testBit g.bit = (x >>> 2).testBit (g.bit - 2) := by
        intro x
        rw [Nat.testBit_shiftRight]
        congr 1
        omega
      rw [e, e self._dataFormat]
      exact congrArg (fun x => Nat.testBit x (g.bit - 2)) hshift

/-- Witness for C3: setting full resolution on a cache of 0x42 over a stub
whose write succeeds. -/
theorem flag_setters_clear_then_or_witness :
    (Flag.fullRes.set (RegFile.access).traced { _dataFormat := 0x42, _gain := fun _ => 1 }
      ({ regs := fun _ => 0x42, script := [] }, []) true).2.1.2 =
      [] ++ [Transaction.write 0x31 ((0x42 &&& (255 - 2 ^ Flag.fullRes.bit)) |||
        (true.toNat * 2 ^ Flag.fullRes.bit))] :=
  (flag_setters_clear_then_or RegFile.access { _dataFormat := 0x42, _gain := fun _ => 1 }
    { regs := fun _ => 0x42, script := [] } [] Flag.fullRes true 1
    (by decide) (by decide)).2.1

/-- C4, as stated, fails: on a fresh driver (all flags clear) `SetRange 4`
succeeds, writes 4 to register 0x31 and sets the left-justify flag. -/
theorem SetRange_wide_argument_sets_flag :
    (SetRange RegFile.access new { regs := fun _ => 0, script := [] } 4).2.2 = 0 ∧
    (SetRange RegFile.access new { regs := fun _ => 0, script := [] } 4).2.1.regs 0x31 = 4 ∧
    GetLeftJustify new = false ∧
    GetLeftJustify (SetRange RegFile.access new { regs := fun _ => 0, script := [] } 4).1
      = true := by
  decide

/-- C4, amended: for every cache byte `c` and every 8-bit argument, `SetRange`
is the single write to register 0x31 of `(c AND 0xFC) OR range`; when the
argument is one of `VAL_RANGE_x` (0..3) that byte agrees with `c` on bits 2..7,
so after a successful call the five flags read back as before. -/
theorem SetRange_frame (ra : RegisterAccess β) (self : ADXL345) (b : β)
    (t : List Transaction) (range : Nat)
    (hc : self._dataFormat < 256) (hr : range < 256) :
    (SetRange ra.traced self (b, t) range).2.1.2 =
      t ++ [Transaction.write 0x31 ((self._dataFormat &&& 0xFC) ||| range)] ∧
    ((SetRange ra self b range).2.2 = 0 →
      (SetRange ra self b range).1._dataFormat = (self._dataFormat &&& 0xFC) ||| range) ∧
    (range ≤ 3 →
      ((self._dataFormat &&& 0xFC) ||| range) >>> 2 = self._dataFormat >>> 2 ∧
      ((SetRange ra self b range).2.2 = 0 →
        GetSelfTest (SetRange ra self b range).1 = GetSelfTest self ∧
        GetSPI3Wire (SetRange ra self b range).1 = GetSPI3Wire self ∧
        GetIntActiveLow (SetRange ra self b range).1 = GetIntActiveLow self ∧
        GetFullRes (SetRange ra self b range).1 = GetFullRes self ∧
        GetLeftJustify (SetRange ra self b range).1 = GetLeftJustify self)) := by
  refine ⟨?_, ?_, ?_⟩
  · rw [SetRange_eq ra.traced self (b, t) range hc hr]
    exact SetDataFormat_trace ra self b t _
  · intro hs
    rw [SetRange_eq ra self b range hc hr] at hs ⊢
    rw [SetDataFormat_cache_of_success ra self b _ hs]
  · intro hr3
    have hr4 : range < 4 := by omega
    obtain ⟨-, hshift, hw⟩ := range_set_low self._dataFormat hc range hr4
    refine ⟨hshift, ?_⟩
    intro hs
    rw [SetRange_eq ra self b range hc hr] at hs ⊢
    rw [SetDataFormat_cache_of_success ra self b _ hs]
    have key : ∀ g : Flag,
        g.get { self with _dataFormat := (self._dataFormat &&& 0xFC) ||| range } =
          g.get self := by
      intro g
      rw [Flag.get_eq_testBit _ hw g, Flag.get_eq_testBit self hc g]
      have hg : 2 ≤ g.bit := g.two_le_bit
      have e : ∀ x : Nat, x.testBit g.bit = (x >>> 2).testBit (g.bit - 2) := by
        intro x
        rw [Nat.testBit_shiftRight]
        congr 1
        omega
      rw [e, e self._dataFormat]
      exact congrArg (fun x => Nat.testBit x (g.bit - 2)) hshift
    exact ⟨key .selfTest, key .spi3Wire, key .intActiveLow, key .fullRes, key .leftJustify⟩

/-- Witness for C4 (amended): `SetRange 3` on a cache of 0xEC. -/
theorem SetRange_frame_witness :
    ((0xEC &&& 0xFC) ||| 3) >>> 2 = 0xEC >>> 2 :=
  ((SetRange_frame RegFile.access { _dataFormat := 0xEC, _gain := fun _ => 1 }
    { regs := fun _ => 0xEC, script := [] } [] 3 (by decide) (by decide)).2.2
      (by decide)).1

/-- C5: every data-format getter is a function of the cached byte alone:
`GetDataFormat` yields the byte, the flag getters yield bits 7, 6, 5, 3 and 2,
`GetRange` yields the byte AND 0x03, which is at most 3; as public operations
they leave the driver, the bus and the list of transactions unchanged. -/
theorem getters_read_cache (ra : RegisterAccess β) (self : ADXL345) (b : β)
    (t : List Transaction) (hc : self._dataFormat < 256) :
    GetDataFormat self = self._dataFormat ∧
    GetSelfTest self = self._dataFormat.testBit 7 ∧
    GetSPI3Wire self = self._dataFormat.testBit 6 ∧
    GetIntActiveLow self = self._dataFormat.testBit 5 ∧
    GetFullRes self = self._dataFormat.testBit 3 ∧
    GetLeftJustify self = self._dataFormat.testBit 2 ∧
    GetRange self = self._dataFormat &&& 0x03 ∧
    GetRange self ≤ 3 ∧
    (∀ op ∈ [Op.GetDataFormat, Op.GetSelfTest, Op.GetSPI3Wire, Op.GetIntActiveLow,
        Op.GetFullRes, Op.GetLeftJustify, Op.GetRange],
      op.run ra.traced self (b, t) = (self, (b, t), none)) := by
  obtain ⟨h7, h6, h5, h3, h2, hr, hand⟩ := getters_byte self._dataFormat hc
  refine ⟨rfl, h7, h6, h5, h3, h2, ?_, ?_, ?_⟩
  · rw [hand]; exact hr
  · have : GetRange self = self._dataFormat % 4 := hr
    omega
  · intro op hop
    simp only [List.mem_cons, List.mem_singleton, List.not_mem_nil, or_false] at hop
    rcases hop with h | h | h | h | h | h | h <;> subst h <;> rfl

/-- Witness for C5: the getters on a cache of 0x0B. -/
theorem getters_read_cache_witness :
    GetRange { _dataFormat := 0x0B, _gain := fun _ => 1 } = 0x0B &&& 0x03 :=
  (getters_read_cache RegFile.access { _dataFormat := 0x0B, _gain := fun _ => 1 }
    { regs := fun _ => 0, script := [] } [] (by decide)).2.2.2.2.2.2.1

/-- C6: `RefreshDataFormat` issues exactly one single-byte read of register
0x31, with the cache as the destination, and returns that read's status; the
cache afterwards is the byte the read left at the destination.  On the
register-file stub a successful refresh makes the cache equal to register 0x31
whatever the cache held before. -/
theorem RefreshDataFormat_reads_once (ra : RegisterAccess β) (self : ADXL345) (b : β)
    (t : List Transaction) (rf : RegFile) :
    (RefreshDataFormat ra.traced self (b, t)).2.1.2 = t ++ [Transaction.read 0x31] ∧
    (RefreshDataFormat ra self b).2.2 = (ra._ReadFrom b 0x31 self._dataFormat).2.1 ∧
    (RefreshDataFormat ra self b).2.1 = (ra._ReadFrom b 0x31 self._dataFormat).1 ∧
    (RefreshDataFormat ra self b).1._dataFormat =
      (ra._ReadFrom b 0x31 self._dataFormat).2.2 ∧
    (RefreshDataFormat ra self b).1._gain = self._gain ∧
    ((RefreshDataFormat RegFile.access self rf).2.2 = 0 →
      (RefreshDataFormat RegFile.access self rf).1._dataFormat = rf.regs 0x31) := by
  refine ⟨rfl, rfl, rfl, rfl, rfl, ?_⟩
  simp only [RefreshDataFormat, RegFile.access, REG_DATA_FORMAT]
  split_ifs with h <;> simp [h]

/-- Witness for C6: a stale cache of 0 is replaced by the register content
0x0B. -/
theorem RefreshDataFormat_reads_once_witness :
    (RefreshDataFormat RegFile.access new { regs := fun _ => 0x0B, script := [] }).1._dataFormat
      = 0x0B :=
  (RefreshDataFormat_reads_once RegFile.access new { regs := fun _ => 0x0B, script := [] }
    [] { regs := fun _ => 0x0B, script := [] }).2.2.2.2.2 (by decide)


/-! ## The sample decoder -/

theorem toInt8_eq (x : Nat) (hx : x < 256) :
    toInt8 x = if x < 128 then (x : Int) else (x : Int) - 256 := by
  unfold toInt8
  rw [Nat.mod_eq_of_lt hx]

theorem toInt16_of_range (x : Int) (h1 : -32768 ≤ x) (h2 : x ≤ 32767) : toInt16 x = x := by
  unfold toInt16
  omega

theorem assemble_range (lo hi : Nat) (hlo : lo < 256) (hhi : hi < 256) :
    -32768 ≤ (lo : Int) + toInt8 hi * 256 ∧ (lo : Int) + toInt8 hi * 256 ≤ 32767 := by
  rw [toInt8_eq hi hhi]
  split_ifs <;> omega

theorem GetDataRaw_eq (ra : RegisterAccess β) (self : ADXL345) (b : β)
    (data : Nat → Int) (buffer : Nat → Nat) :
    GetDataRaw ra self b data buffer =
      if (ra._ReadFromBlock b 0x32 buffer 6).2.1 ≠ 0 then
        ((ra._ReadFromBlock b 0x32 buffer 6).1,
          (ra._ReadFromBlock b 0x32 buffer 6).2.1, data)
      else
        ((ra._ReadFromBlock b 0x32 buffer 6).1, 0, fun i =>
          if i < 3 then
            decodeAxis self._FullRes self._LeftJustify self._Range
              ((ra._ReadFromBlock b 0x32 buffer 6).2.2 (2 * i))
              ((ra._ReadFromBlock b 0x32 buffer 6).2.2 (2 * i + 1))
          else data i) := by
  unfold GetDataRaw REG_DATAX0
  rcases ra._ReadFromBlock b 0x32 buffer 6 with ⟨b1, s, B⟩
  rfl

theorem GetData_eq (ra : RegisterAccess β) (self : ADXL345) (b : β)
    (data : Nat → ℚ) (raw : Nat → Int) (buffer : Nat → Nat) :
    GetData ra self b data raw buffer =
      if (GetDataRaw ra self b raw buffer).2.1 ≠ 0 then
        ((GetDataRaw ra self b raw buffer).1, (GetDataRaw ra self b raw buffer).2.1, data)
      else
        ((GetDataRaw ra self b raw buffer).1, 0, fun i =>
          if h : i < 3 then
            if !self._FullRes then
              self._gain ⟨i, h⟩ * ((GetDataRaw ra self b raw buffer).2.2 i : ℚ) / 256 *
                ((1 <<< self._Range : Nat) : ℚ)
            else self._gain ⟨i, h⟩ * ((GetDataRaw ra self b raw buffer).2.2 i : ℚ) / 256
          else data i) := by
  unfold GetData
  rcases GetDataRaw ra self b raw buffer with ⟨b1, s, r⟩
  rfl

/-- C7: with the left-justify flag clear, a successful `GetDataRaw` is one
6-byte block read at register 0x32 and stores, for each axis `i` in 0..2, the
signed little-endian value `B[2i] + 256 * int8(B[2i+1])` of the block `B` of
bytes that the read returned, whatever the full-resolution flag and the
range. -/
theorem GetDataRaw_right_justified (ra : RegisterAccess β) (self : ADXL345) (b : β)
    (t : List Transaction) (data : Nat → Int) (buffer : Nat → Nat)
    (hlj : GetLeftJustify self = false)
    (hs : (ra._ReadFromBlock b 0x32 buffer 6).2.1 = 0)
    (hB : ∀ k < 6, (ra._ReadFromBlock b 0x32 buffer 6).2.2 k < 256) :
    (GetDataRaw ra.traced self (b, t) data buffer).1.2 = t ++ [Transaction.readBlock 0x32 6] ∧
    (GetDataRaw ra self b data buffer).1 = (ra._ReadFromBlock b 0x32 buffer 6).1 ∧
    (GetDataRaw ra self b data buffer).2.1 = 0 ∧
    (∀ i < 3, (GetDataRaw ra self b data buffer).2.2 i =
      ((ra._ReadFromBlock b 0x32 buffer 6).2.2 (2 * i) : Int) + 256 *
        (if (ra._ReadFromBlock b 0x32 buffer 6).2.2 (2 * i + 1) < 128
          then ((ra._ReadFromBlock b 0x32 buffer 6).2.2 (2 * i + 1) : Int)
          else ((ra._ReadFromBlock b 0x32 buffer 6).2.2 (2 * i + 1) : Int) - 256)) := by
  have hlj' : self._LeftJustify = false := hlj
  refine ⟨?_, ?_, ?_, ?_⟩
  · rw [GetDataRaw_eq]
    split_ifs <;> rfl
  · rw [GetDataRaw_eq]; simp [hs]
  · rw [GetDataRaw_eq]; simp [hs]
  · intro i hi
    rw [GetDataRaw_eq]
    simp only [hs, ne_eq, not_true_eq_false, if_false, hi, if_true]
    have h1 := hB (2 * i) (by omega)
    have h2 := hB (2 * i + 1) (by omega)
    obtain ⟨r1, r2⟩ := assemble_range _ _ h1 h2
    simp only [decodeAxis, hlj', Bool.false_eq_true, if_false]
    rw [toInt16_of_range _ r1 r2, toInt8_eq _ h2]
    ring


/-- Witness for C7: the block 34 EE 00 80 FF 7F decodes to -4556, -32768 and
32767, of which the first is shown. -/
theorem GetDataRaw_right_justified_witness :
    (GetDataRaw RegFile.access new
      { regs := fun r => [0x34, 0xEE, 0x00, 0x80, 0xFF, 0x7F].getD (r - 0x32) 0, script := [] }
      (fun _ => 0) (fun _ => 0)).2.2 0 = -4556 :=
  (GetDataRaw_right_justified RegFile.access new
    { regs := fun r => [0x34, 0xEE, 0x00, 0x80, 0xFF, 0x7F].getD (r - 0x32) 0, script := [] }
    [] (fun _ => 0) (fun _ => 0) (by decide) (by decide) (by decide)).2.2.2 0 (by decide)

theorem range_le_three (self : ADXL345) : self._Range ≤ 3 := by
  have h : self._dataFormat &&& 3 ≤ 3 := Nat.and_le_right
  show (self._dataFormat &&& 3) % 256 ≤ 3
  omega

theorem divisor_cases (fullRes : Bool) (range : Nat) (h : range ≤ 3) :
    (if fullRes then toUint8 (64 >>> range) else 64) =
      2 ^ (6 - (if fullRes then range else 0)) := by
  cases fullRes
  · rfl
  · interval_cases range <;> rfl

theorem divisor_pow (fullRes : Bool) (range : Nat) (h : range ≤ 3) :
    2 ^ (6 - (if fullRes then range else 0)) = (if fullRes then 64 >>> range else 64) := by
  cases fullRes
  · rfl
  · interval_cases range <;> rfl

theorem tdiv_int16 (v : Int) (k : Nat) (h1 : -32768 ≤ v) (h2 : v ≤ 32767) :
    toInt16 (Int.tdiv v ((2 ^ k : Nat) : Int)) = Int.tdiv v ((2 ^ k : Nat) : Int) := by
  have hpos : (0 : Int) < ((2 ^ k : Nat) : Int) := by positivity
  apply toInt16_of_range
  · rcases le_or_lt 0 v with hv | hv
    · have := Int.tdiv_nonneg hv (le_of_lt hpos)
      omega
    · have e : Int.tdiv v ((2 ^ k : Nat) : Int) = -(Int.tdiv (-v) ((2 ^ k : Nat) : Int)) := by
        rw [Int.neg_tdiv, neg_neg]
      have hle : Int.tdiv (-v) ((2 ^ k : Nat) : Int) ≤ -v := by
        rw [Int.tdiv_eq_ediv (by omega) (le_of_lt hpos)]
        exact Int.ediv_le_self _ (by omega)
      omega
  · rcases le_or_lt 0 v with hv | hv
    · have hle : Int.tdiv v ((2 ^ k : Nat) : Int) ≤ v := by
        rw [Int.tdiv_eq_ediv hv (le_of_lt hpos)]
        exact Int.ediv_le_self _ hv
      omega
    · have e : Int.tdiv v ((2 ^ k : Nat) : Int) = -(Int.tdiv (-v) ((2 ^ k : Nat) : Int)) := by
        rw [Int.neg_tdiv, neg_neg]
      have := Int.tdiv_nonneg (show (0 : Int) ≤ -v by omega) (le_of_lt hpos)
      omega

theorem tdiv_eq_shift (v : Int) (k : Nat) (h : 0 ≤ v ∨ ((2 ^ k : Nat) : Int) ∣ v) :
    Int.tdiv v ((2 ^ k : Nat) : Int) = v >>> k := by
  rw [Int.shiftRight_eq_div_pow]
  rcases h with h | h
  · exact Int.tdiv_eq_ediv h (by positivity)
  · exact Int.tdiv_eq_ediv_of_dvd h

/-- C8, as stated, fails: with only the left-justify flag set, the block
FF FF .. decodes to -1 on the first axis; `GetDataRaw` stores 0 there, while
the arithmetic right shift of -1 by 6 bits is -1. -/
theorem left_justified_quotient_is_not_shift :
    (GetDataRaw RegFile.access { _dataFormat := 0x04, _gain := fun _ => 1 }
      { regs := fun _ => 0xFF, script := [] } (fun _ => 0) (fun _ => 0)).2.1 = 0 ∧
    (GetDataRaw RegFile.access { _dataFormat := 0x04, _gain := fun _ => 1 }
      { regs := fun _ => 0xFF, script := [] } (fun _ => 7) (fun _ => 0)).2.2 0 = 0 ∧
    ((0xFF : Int) + 256 * (0xFF - 256)) >>> 6 = -1 := by
  decide

/-- C8, amended: with the left-justify flag set, each axis value stored by a
successful `GetDataRaw` is the decoded signed 16-bit value divided, with
truncation toward zero, by 64 when full resolution is off and by
`64 >> range` (2 to the power `6 - range`) when it is on; that quotient is the
arithmetic right shift by 6, respectively `6 - range`, bits whenever the
decoded value is non-negative or a multiple of the divisor. -/
theorem GetDataRaw_left_justified (ra : RegisterAccess β) (self : ADXL345) (b : β)
    (data : Nat → Int) (buffer : Nat → Nat) (i : Nat) (hi : i < 3)
    (hlj : GetLeftJustify self = true)
    (hs : (ra._ReadFromBlock b 0x32 buffer 6).2.1 = 0)
    (hB : ∀ k < 6, (ra._ReadFromBlock b 0x32 buffer 6).2.2 k < 256) :
    GetRange self ≤ 3 ∧
    (2 : Nat) ^ (6 - (if GetFullRes self then GetRange self else 0)) =
      (if GetFullRes self then 64 >>> GetRange self else 64) ∧
    (GetDataRaw ra self b data buffer).2.2 i =
      Int.tdiv
        (((ra._ReadFromBlock b 0x32 buffer 6).2.2 (2 * i) : Int) + 256 *
          (if (ra._ReadFromBlock b 0x32 buffer 6).2.2 (2 * i + 1) < 128
            then ((ra._ReadFromBlock b 0x32 buffer 6).2.2 (2 * i + 1) : Int)
            else ((ra._ReadFromBlock b 0x32 buffer 6).2.2 (2 * i + 1) : Int) - 256))
        (((2 : Nat) ^ (6 - (if GetFullRes self then GetRange self else 0)) : Nat) : Int) ∧
    ((0 ≤ ((ra._ReadFromBlock b 0x32 buffer 6).2.2 (2 * i) : Int) + 256 *
          (if (ra._ReadFromBlock b 0x32 buffer 6).2.2 (2 * i + 1) < 128
            then ((ra._ReadFromBlock b 0x32 buffer 6).2.2 (2 * i + 1) : Int)
            else ((ra._ReadFromBlock b 0x32 buffer 6).2.2 (2 * i + 1) : Int) - 256) ∨
      (((2 : Nat) ^ (6 - (if GetFullRes self then GetRange self else 0)) : Nat) : Int) ∣
        ((ra._ReadFromBlock b 0x32 buffer 6).2.2 (2 * i) : Int) + 256 *
          (if (ra._ReadFromBlock b 0x32 buffer 6).2.2 (2 * i + 1) < 128
            then ((ra._ReadFromBlock b 0x32 buffer 6).2.2 (2 * i + 1) : Int)
            else ((ra._ReadFromBlock b 0x32 buffer 6).2.2 (2 * i + 1) : Int) - 256)) →
      (GetDataRaw ra self b data buffer).2.2 i =
        (((ra._ReadFromBlock b 0x32 buffer 6).2.2 (2 * i) : Int) + 256 *
          (if (ra._ReadFromBlock b 0x32 buffer 6).2.2 (2 * i + 1) < 128
            then ((ra._ReadFromBlock b 0x32 buffer 6).2.2 (2 * i + 1) : Int)
            else ((ra._ReadFromBlock b 0x32 buffer 6).2.2 (2 * i + 1) : Int) - 256)) >>>
          (6 - (if GetFullRes self then GetRange self else 0))) := by
  have hlj' : self._LeftJustify = true := hlj
  have hr : self._Range ≤ 3 := range_le_three self
  have h1 := hB (2 * i) (by omega)
  have h2 := hB (2 * i + 1) (by omega)
  obtain ⟨r1, r2⟩ := assemble_range _ _ h1 h2
  have hdiv := divisor_cases self._FullRes self._Range hr
  have key : (GetDataRaw ra self b data buffer).2.2 i =
      Int.tdiv
        (((ra._ReadFromBlock b 0x32 buffer 6).2.2 (2 * i) : Int) +
          toInt8 ((ra._ReadFromBlock b 0x32 buffer 6).2.2 (2 * i + 1)) * 256)
        (((2 : Nat) ^ (6 - (if self._FullRes then self._Range else 0)) : Nat) : Int) := by
    rw [GetDataRaw_eq]
    simp only [hs, ne_eq, not_true_eq_false, if_false, hi, if_true]
    simp only [decodeAxis, hlj', if_true]
    rw [toInt16_of_range _ r1 r2, hdiv]
    exact tdiv_int16 _ _ r1 r2
  have hv : ((ra._ReadFromBlock b 0x32 buffer 6).2.2 (2 * i) : Int) +
        toInt8 ((ra._ReadFromBlock b 0x32 buffer 6).2.2 (2 * i + 1)) * 256 =
      ((ra._ReadFromBlock b 0x32 buffer 6).2.2 (2 * i) : Int) + 256 *
        (if (ra._ReadFromBlock b 0x32 buffer 6).2.2 (2 * i + 1) < 128
          then ((ra._ReadFromBlock b 0x32 buffer 6).2.2 (2 * i + 1) : Int)
          else ((ra._ReadFromBlock b 0x32 buffer 6).2.2 (2 * i + 1) : Int) - 256) := by
    rw [toInt8_eq _ h2]
    ring
  rw [hv] at key
  refine ⟨hr, ?_, key, ?_⟩
  · exact divisor_pow self._FullRes self._Range hr
  · intro h
    rw [key]
    exact tdiv_eq_shift _ _ h

/-- Witness for C8 (amended): left-justified full-resolution data at range 1
(divisor 32); the first axis of the block 40 FF .. is -192 / 32 = -6. -/
theorem GetDataRaw_left_justified_witness :
    (GetDataRaw RegFile.access { _dataFormat := 0x0D, _gain := fun _ => 1 }
      { regs := fun r => [0x40, 0xFF, 0x00, 0x80, 0xFF, 0x7F].getD (r - 0x32) 0, script := [] }
      (fun _ => 0) (fun _ => 0)).2.2 0 = -6 :=
  (GetDataRaw_left_justified RegFile.access { _dataFormat := 0x0D, _gain := fun _ => 1 }
    { regs := fun r => [0x40, 0xFF, 0x00, 0x80, 0xFF, 0x7F].getD (r - 0x32) 0, script := [] }
    (fun _ => 0) (fun _ => 0) 0 (by decide) (by decide) (by decide) (by decide)).2.2.1


/-- C9: in exact arithmetic, a successful `GetData` stores for each axis `i`
the value `gain[i] * raw[i] / 256` when the full-resolution flag is set and
`gain[i] * raw[i] / 256 * 2^range` when it is clear, where `raw` is the triple
stored by `GetDataRaw` and `range` is the low two bits of the cache.  With
range 2, gain 1 and the raw triple 256, 0, 0 this is 4, 0, 0 with full
resolution off and 1, 0, 0 with full resolution on. -/
theorem GetData_scaling (ra : RegisterAccess β) (self : ADXL345) (b : β)
    (data : Nat → ℚ) (raw : Nat → Int) (buffer : Nat → Nat)
    (hc : self._dataFormat < 256)
    (hs : (GetDataRaw ra self b raw buffer).2.1 = 0) :
    (GetData ra self b data raw buffer).2.1 = 0 ∧
    (GetData ra self b data raw buffer).1 = (GetDataRaw ra self b raw buffer).1 ∧
    GetRange self = self._dataFormat % 4 ∧
    (∀ i : Fin 3, (GetData ra self b data raw buffer).2.2 i =
      if GetFullRes self then
        self._gain i * ((GetDataRaw ra self b raw buffer).2.2 i : ℚ) / 256
      else
        self._gain i * ((GetDataRaw ra self b raw buffer).2.2 i : ℚ) / 256 *
          2 ^ (self._dataFormat % 4)) ∧
    ((GetDataRaw RegFile.access { _dataFormat := 0x02, _gain := fun _ => 1 }
        { regs := fun r => if r = 0x33 then 1 else 0, script := [] }
        (fun _ => 0) (fun _ => 0)).2.2 0 = 256 ∧
      (GetData RegFile.access { _dataFormat := 0x02, _gain := fun _ => 1 }
        { regs := fun r => if r = 0x33 then 1 else 0, script := [] }
        (fun _ => 9) (fun _ => 0) (fun _ => 0)).2.2 0 = 4 ∧
      (GetData RegFile.access { _dataFormat := 0x02, _gain := fun _ => 1 }
        { regs := fun r => if r = 0x33 then 1 else 0, script := [] }
        (fun _ => 9) (fun _ => 0) (fun _ => 0)).2.2 1 = 0 ∧
      (GetData RegFile.access { _dataFormat := 0x02, _gain := fun _ => 1 }
        { regs := fun r => if r = 0x33 then 1 else 0, script := [] }
        (fun _ => 9) (fun _ => 0) (fun _ => 0)).2.2 2 = 0 ∧
      (GetData RegFile.access { _dataFormat := 0x0A, _gain := fun _ => 1 }
        { regs := fun r => if r = 0x33 then 1 else 0, script := [] }
        (fun _ => 9) (fun _ => 0) (fun _ => 0)).2.2 0 = 1 ∧
      (GetData RegFile.access { _dataFormat := 0x0A, _gain := fun _ => 1 }
        { regs := fun r => if r = 0x33 then 1 else 0, script := [] }
        (fun _ => 9) (fun _ => 0) (fun _ => 0)).2.2 1 = 0 ∧
      (GetData RegFile.access { _dataFormat := 0x0A, _gain := fun _ => 1 }
        { regs := fun r => if r = 0x33 then 1 else 0, script := [] }
        (fun _ => 9) (fun _ => 0) (fun _ => 0)).2.2 2 = 0) := by
  have hrange : self._Range = self._dataFormat % 4 := GetRange_eq_mod self hc
  refine ⟨?_, ?_, hrange, ?_, ?_⟩
  · rw [GetData_eq]; simp [hs]
  · rw [GetData_eq]; simp [hs]
  · intro i
    rw [GetData_eq]
    simp only [hs, ne_eq, not_true_eq_false, if_false, i.isLt, dite_true]
    show _ = if self._FullRes = true then _ else _
    cases hfr : self._FullRes
    · simp only [Bool.not_false, if_true, Bool.false_eq_true, if_false, hrange,
        Nat.one_shiftLeft, Nat.cast_pow, Nat.cast_ofNat]
    · simp only [Bool.not_true, Bool.false_eq_true, if_false, if_true]
  · have e : (2 &&& 3) % 256 = 2 := by decide
    refine ⟨by decide, ?_, ?_, ?_, ?_, ?_, ?_⟩ <;>
      simp [GetData, GetDataRaw, RegFile.access, RegFile.status, _FullRes, _LeftJustify, _Range,
        decodeAxis, toInt16, toInt8, toUint8, intToBool, REG_DATAX0,
        BIT_DATA_FORMAT_FULL_RES, BIT_DATA_FORMAT_JUSTIFY_LEFT, e] <;>
      norm_num

/-- Witness for C9: range 3 with full resolution off and gain 1/2 on every
axis, over a stub whose block read succeeds. -/
theorem GetData_scaling_witness :
    (GetData RegFile.access { _dataFormat := 0x03, _gain := fun _ => 1 / 2 }
      { regs := fun r => if r = 0x33 then 1 else 0, script := [] }
      (fun _ => 0) (fun _ => 0) (fun _ => 0)).2.1 = 0 :=
  (GetData_scaling RegFile.access { _dataFormat := 0x03, _gain := fun _ => 1 / 2 }
    { regs := fun r => if r = 0x33 then 1 else 0, script := [] }
    (fun _ => 0) (fun _ => 0) (fun _ => 0) (by decide) (by decide)).1

/-- C10: `GetDataRaw` and `GetData` are all-or-nothing.  Each issues exactly
the one 6-byte block read at register 0x32.  If that read returns a non-zero
status, each returns that status and leaves the caller's array as it was; if
the read succeeds, each returns 0 and the three elements it stores do not
depend on what the caller's array (or the uninitialised local array) held
before, while no element past the third is touched. -/
theorem data_reads_all_or_nothing (ra : RegisterAccess β) (self : ADXL345) (b : β)
    (t : List Transaction) (data : Nat → Int) (fdata : Nat → ℚ) (raw : Nat → Int)
    (buffer : Nat → Nat) :
    (GetDataRaw ra.traced self (b, t) data buffer).1.2 =
      t ++ [Transaction.readBlock 0x32 6] ∧
    (GetData ra.traced self (b, t) fdata raw buffer).1.2 =
      t ++ [Transaction.readBlock 0x32 6] ∧
    (GetDataRaw ra self b data buffer).1 = (ra._ReadFromBlock b 0x32 buffer 6).1 ∧
    (GetData ra self b fdata raw buffer).1 = (ra._ReadFromBlock b 0x32 buffer 6).1 ∧
    ((ra._ReadFromBlock b 0x32 buffer 6).2.1 ≠ 0 →
      (GetDataRaw ra self b data buffer).2.1 = (ra._ReadFromBlock b 0x32 buffer 6).2.1 ∧
      (GetDataRaw ra self b data buffer).2.2 = data ∧
      (GetData ra self b fdata raw buffer).2.1 = (ra._ReadFromBlock b 0x32 buffer 6).2.1 ∧
      (GetData ra self b fdata raw buffer).2.2 = fdata) ∧
    ((ra._ReadFromBlock b 0x32 buffer 6).2.1 = 0 →
      (GetDataRaw ra self b data buffer).2.1 = 0 ∧
      (GetData ra self b fdata raw buffer).2.1 = 0 ∧
      (∀ (data2 : Nat → Int) (i : Nat), i < 3 →
        (GetDataRaw ra self b data buffer).2.2 i =
          (GetDataRaw ra self b data2 buffer).2.2 i) ∧
      (∀ (fdata2 : Nat → ℚ) (raw2 : Nat → Int) (i : Nat), i < 3 →
        (GetData ra self b fdata raw buffer).2.2 i =
          (GetData ra self b fdata2 raw2 buffer).2.2 i) ∧
      (∀ i : Nat, 3 ≤ i → (GetDataRaw ra self b data buffer).2.2 i = data i ∧
        (GetData ra self b fdata raw buffer).2.2 i = fdata i)) := by
  have hraw1 : ∀ d : Nat → Int, (GetDataRaw ra self b d buffer).1 =
      (ra._ReadFromBlock b 0x32 buffer 6).1 := by
    intro d; rw [GetDataRaw_eq]; split_ifs <;> rfl
  have hrawS : ∀ d : Nat → Int, (GetDataRaw ra self b d buffer).2.1 =
      (ra._ReadFromBlock b 0x32 buffer 6).2.1 := by
    intro d; rw [GetDataRaw_eq]; split_ifs with h
    · rfl
    · simp only [ne_eq, not_not] at h; exact h.symm
  refine ⟨?_, ?_, hraw1 data, ?_, ?_, ?_⟩
  · rw [GetDataRaw_eq]; split_ifs <;> rfl
  · rw [GetData_eq, GetDataRaw_eq]; split_ifs <;> rfl
  · rw [GetData_eq]; split_ifs <;> exact hraw1 raw
  · intro hf
    refine ⟨hrawS data, ?_, ?_, ?_⟩
    · rw [GetDataRaw_eq]; simp [hf]
    · rw [GetData_eq]; simp [hrawS raw, hf]
    · rw [GetData_eq]; simp [hrawS raw, hf]
  · intro hs
    have hdec : ∀ (d : Nat → Int) (i : Nat), i < 3 → (GetDataRaw ra self b d buffer).2.2 i =
        decodeAxis self._FullRes self._LeftJustify self._Range
          ((ra._ReadFromBlock b 0x32 buffer 6).2.2 (2 * i))
          ((ra._ReadFromBlock b 0x32 buffer 6).2.2 (2 * i + 1)) := by
      intro d i hi
      rw [GetDataRaw_eq]; simp [hs, hi]
    refine ⟨by rw [hrawS, hs], ?_, ?_, ?_, ?_⟩
    · rw [GetData_eq]; simp [hrawS raw, hs]
    · intro data2 i hi
      rw [hdec data i hi, hdec data2 i hi]
    · intro fdata2 raw2 i hi
      rw [GetData_eq, GetData_eq]
      simp only [hrawS, hs, ne_eq, not_true_eq_false, if_false, hi, dite_true,
        hdec raw i hi, hdec raw2 i hi]
    · intro i hi
      have hi' : ¬ i < 3 := by omega
      constructor
      · rw [GetDataRaw_eq]; simp [hs, hi']
      · rw [GetData_eq]; simp [hrawS raw, hs, hi']

/-- Witness for C10: a block read failing with status 2 on the stub leaves the
caller's raw array as it was. -/
theorem data_reads_all_or_nothing_witness :
    (GetDataRaw RegFile.access new { regs := fun _ => 0xFF, script := [2] }
      (fun i => 10 + i) (fun _ => 0)).2.1 = 2 :=
  ((data_reads_all_or_nothing RegFile.access new { regs := fun _ => 0xFF, script := [2] } []
    (fun i => 10 + i) (fun _ => 0) (fun _ => 0) (fun _ => 0)).2.2.2.2.1 (by decide)).1

/-! ## Identity check and saturation -/

theorem CheckDeviceID_eq (ra : RegisterAccess β) (b : β) (dID : Nat) :
    CheckDeviceID ra b dID =
      ((ra._ReadFrom b 0x00 dID).1,
        if (ra._ReadFrom b 0x00 dID).2.1 = 0 ∧ (ra._ReadFrom b 0x00 dID).2.2 ≠ 0xE5 then 0x10
        else (ra._ReadFrom b 0x00 dID).2.1) := by
  unfold CheckDeviceID GetDeviceID REG_DEVID
  rcases ra._ReadFrom b 0x00 dID with ⟨b1, s, v⟩
  rfl

/-- C11: `CheckDeviceID` issues the one single-byte read of register 0x00; it
returns 0 exactly when that read succeeded with the byte 0xE5 (octal 0345),
`STATUS_INVALID_ID` (0x10) when the read succeeded with any other byte, and the
read's own status when the read failed, whatever the destination byte
holds. -/
theorem CheckDeviceID_status (ra : RegisterAccess β) (b : β) (t : List Transaction)
    (dID : Nat) :
    VAL_DEVICE_ID = 0xE5 ∧ STATUS_INVALID_ID = 0x10 ∧
    (CheckDeviceID ra.traced (b, t) dID).1.2 = t ++ [Transaction.read 0x00] ∧
    (CheckDeviceID ra b dID).1 = (ra._ReadFrom b 0x00 dID).1 ∧
    ((CheckDeviceID ra b dID).2 = 0 ↔
      ((ra._ReadFrom b 0x00 dID).2.1 = 0 ∧ (ra._ReadFrom b 0x00 dID).2.2 = 0xE5)) ∧
    ((ra._ReadFrom b 0x00 dID).2.1 = 0 → (ra._ReadFrom b 0x00 dID).2.2 ≠ 0xE5 →
      (CheckDeviceID ra b dID).2 = 0x10) ∧
    ((ra._ReadFrom b 0x00 dID).2.1 ≠ 0 →
      (CheckDeviceID ra b dID).2 = (ra._ReadFrom b 0x00 dID).2.1) := by
  refine ⟨rfl, rfl, ?_, ?_, ?_, ?_, ?_⟩
  · rw [CheckDeviceID_eq]; rfl
  · rw [CheckDeviceID_eq]
  · rw [CheckDeviceID_eq]
    by_cases hs : (ra._ReadFrom b 0x00 dID).2.1 = 0 <;>
      by_cases hv : (ra._ReadFrom b 0x00 dID).2.2 = 0xE5 <;> simp [hs, hv]
  · intro hs hv
    rw [CheckDeviceID_eq]; simp [hs, hv]
  · intro hs
    rw [CheckDeviceID_eq]; simp [hs]

/-- Witness for C11: a device that answers 0xE6 is rejected with status
0x10. -/
theorem CheckDeviceID_status_witness :
    (CheckDeviceID RegFile.access { regs := fun _ => 0xE6, script := [] } 0).2 = 0x10 :=
  (CheckDeviceID_status RegFile.access { regs := fun _ => 0xE6, script := [] } [] 0).2.2.2.2.2.1
    (by decide) (by decide)

theorem SquashLongIntoUint_eq (l : Int) :
    SquashLongIntoUint l = (min (max l 0) 255).toNat := by
  unfold SquashLongIntoUint
  simp only
  split_ifs with h1 h2 <;> congr 1 <;> omega

theorem SquashLongIntoInt_eq (l : Int) : SquashLongIntoInt l = min (max l (-128)) 127 := by
  unfold SquashLongIntoInt toInt8
  simp only
  split_ifs <;> omega

theorem lrintf_intCast (n : Int) : lrintf (n : ℚ) = n := by
  unfold lrintf
  simp

theorem lrintf_near (x : ℚ) : |(lrintf x : ℚ) - x| ≤ 1 / 2 := by
  unfold lrintf
  have h1 := Int.floor_le x
  have h2 := Int.lt_floor_add_one x
  simp only
  split_ifs with a b c
  · rw [abs_le]; constructor <;> linarith
  · rw [abs_le]; push_cast; constructor <;> linarith
  · rw [abs_le]; constructor <;> linarith
  · rw [abs_le]; push_cast; constructor <;> linarith

/-- C12: `SquashLongIntoUint l` is `min (max l 0) 255` for every integer `l`;
each of the seven physical-unit setters issues the one write, to its register,
of the rounded scaled argument clamped into 0..255 (with `lrintf` exact, to
nearest, ties to even); a tap threshold of -5 g stores 0 and one of 20 g
stores 255. -/
theorem SquashLongIntoUint_saturates (ra : RegisterAccess β) (b : β) (t : List Transaction)
    (l : Int) (x : ℚ) :
    (SquashLongIntoUint l : Int) = min (max l 0) 255 ∧
    SquashLongIntoUint l ≤ 255 ∧
    (255 < l → SquashLongIntoUint l = 255) ∧
    (l < 0 → SquashLongIntoUint l = 0) ∧
    (SetThreshTap ra.traced (b, t) x).1.2 =
      t ++ [Transaction.write 0x1D (min (max (lrintf (x * 16)) 0) 255).toNat] ∧
    (SetThreshAct ra.traced (b, t) x).1.2 =
      t ++ [Transaction.write 0x24 (min (max (lrintf (x * 16)) 0) 255).toNat] ∧
    (SetThreshInact ra.traced (b, t) x).1.2 =
      t ++ [Transaction.write 0x25 (min (max (lrintf (x * 16)) 0) 255).toNat] ∧
    (SetThreshFF ra.traced (b, t) x).1.2 =
      t ++ [Transaction.write 0x28 (min (max (lrintf (x * 16)) 0) 255).toNat] ∧
    (SetTapDur ra.traced (b, t) x).1.2 =
      t ++ [Transaction.write 0x21 (min (max (lrintf (x * 8 / 5)) 0) 255).toNat] ∧
    (SetTapLatency ra.traced (b, t) x).1.2 =
      t ++ [Transaction.write 0x22 (min (max (lrintf (x * 4 / 5)) 0) 255).toNat] ∧
    (SetTapWindow ra.traced (b, t) x).1.2 =
      t ++ [Transaction.write 0x23 (min (max (lrintf (x * 4 / 5)) 0) 255).toNat] ∧
    (SetThreshTap ra.traced (b, t) (-5)).1.2 = t ++ [Transaction.write 0x1D 0] ∧
    (SetThreshTap ra.traced (b, t) 20).1.2 = t ++ [Transaction.write 0x1D 255] := by
  have hsq := SquashLongIntoUint_eq
  have e1 : lrintf ((-5 : ℚ) * 16) = -80 := by
    have : ((-5 : ℚ) * 16) = ((-80 : Int) : ℚ) := by norm_num
    rw [this, lrintf_intCast]
  have e2 : lrintf ((20 : ℚ) * 16) = 320 := by
    have : ((20 : ℚ) * 16) = ((320 : Int) : ℚ) := by norm_num
    rw [this, lrintf_intCast]
  refine ⟨?_, ?_, ?_, ?_, ?_, ?_, ?_, ?_, ?_, ?_, ?_, ?_, ?_⟩
  · rw [hsq]; omega
  · rw [hsq]; omega
  · intro h; rw [hsq]; omega
  · intro h; rw [hsq]; omega
  · rw [← hsq]; rfl
  · rw [← hsq]; rfl
  · rw [← hsq]; rfl
  · rw [← hsq]; rfl
  · rw [← hsq]; rfl
  · rw [← hsq]; rfl
  · rw [← hsq]; rfl
  · show t ++ [Transaction.write 0x1D (SquashLongIntoUint (lrintf ((-5 : ℚ) * 16)))] = _
    rw [e1]; rfl
  · show t ++ [Transaction.write 0x1D (SquashLongIntoUint (lrintf ((20 : ℚ) * 16)))] = _
    rw [e2]; rfl

/-- Witness for C12: an argument above the range saturates at 255. -/
theorem SquashLongIntoUint_saturates_witness : SquashLongIntoUint 320 = 255 :=
  (SquashLongIntoUint_saturates RegFile.access { regs := fun _ => 0, script := [] } [] 320
    0).2.2.1 (by decide)

/-- C13: `SquashLongIntoInt l` is `min (max l (-128)) 127` for every integer
`l`; `SetOffset` issues the one block write of three bytes at register 0x1E,
and the bytes are the two's-complement bytes of the three values
`lrintf (64 * offset[i])` (exact, to nearest, ties to even) clamped into
-128..127. -/
theorem SetOffset_saturates (ra : RegisterAccess β) (b : β) (t : List Transaction)
    (l : Int) (offset : Nat → ℚ) (raw : Nat → Int) :
    SquashLongIntoInt l = min (max l (-128)) 127 ∧
    (SetOffset ra.traced (b, t) offset raw).1.2 =
      t ++ [Transaction.writeBlock 0x1E
        [int8Byte (min (max (lrintf (64 * offset 0)) (-128)) 127),
         int8Byte (min (max (lrintf (64 * offset 1)) (-128)) 127),
         int8Byte (min (max (lrintf (64 * offset 2)) (-128)) 127)]] ∧
    (SetOffset ra (b) offset raw).2 =
      (ra._WriteToBlock b 0x1E
        (fun i => int8Byte (if i < 3 then min (max (lrintf (64 * offset i)) (-128)) 127
          else raw i)) 3).2 ∧
    (∀ v : Int, -128 ≤ v → v ≤ 127 →
      (int8Byte v : Int) = (if 0 ≤ v then v else v + 256) ∧ int8Byte v < 256 ∧
        toInt8 (int8Byte v) = v) := by
  refine ⟨SquashLongIntoInt_eq l, ?_, ?_, ?_⟩
  · simp only [← SquashLongIntoInt_eq]
    rfl
  · simp only [← SquashLongIntoInt_eq]
    rfl
  · intro v h1 h2
    unfold toInt8 int8Byte
    refine ⟨?_, ?_, ?_⟩
    · split_ifs <;> omega
    · omega
    · split_ifs <;> omega

/-- Witness for C13: the two's-complement byte of -3 is 0xFD. -/
theorem SetOffset_saturates_witness :
    (int8Byte (-3) : Int) = (if (0 : Int) ≤ -3 then -3 else -3 + 256) :=
  ((SetOffset_saturates RegFile.access { regs := fun _ => 0, script := [] } [] 0
    (fun _ => 0) (fun _ => 0)).2.2.2 (-3) (by decide) (by decide)).1

/-! ## The transport framers -/

variable {σ : Type}

set_option maxRecDepth 1000000 in
theorem spi_header_byte : ∀ addr < 256,
    toUint8 (addr ||| 0x00) = addr ||| 0x00 ∧ toUint8 (addr ||| 0x40) = addr ||| 0x40 ∧
    toUint8 (addr ||| 0x80) = addr ||| 0x80 ∧ toUint8 (addr ||| 0xC0) = addr ||| 0xC0 := by
  decide

set_option maxRecDepth 1000000 in
theorem spi_header_fields : ∀ addr < 0x3A,
    ((addr ||| 0x00) &&& 0x3F = addr ∧ (addr ||| 0x00).testBit 7 = false ∧
      (addr ||| 0x00).testBit 6 = false) ∧
    ((addr ||| 0x40) &&& 0x3F = addr ∧ (addr ||| 0x40).testBit 7 = false ∧
      (addr ||| 0x40).testBit 6 = true) ∧
    ((addr ||| 0x80) &&& 0x3F = addr ∧ (addr ||| 0x80).testBit 7 = true ∧
      (addr ||| 0x80).testBit 6 = false) ∧
    ((addr ||| 0xC0) &&& 0x3F = addr ∧ (addr ||| 0xC0).testBit 7 = true ∧
      (addr ||| 0xC0).testBit 6 = true) := by
  decide

theorem staged_getD (data : Nat → Nat) (n k : Nat) (hk : k < n) :
    ((List.range n).map (fun i => data i)).getD k 0 = data k := by
  simp [List.getD, hk]

theorem SPI_WriteTo_eq (hal : HAL σ) (self : ADXL345_SPI) (s : σ) (reg val : Nat) :
    ADXL345_SPI._WriteTo hal self s reg val =
      (hal.HAL_GPIO_WritePin
        (hal.HAL_SPI_Transmit (hal.HAL_GPIO_WritePin s self._ssPort self._ssPin 0) self._hspi
          [toUint8 (reg ||| 0x00), val] 128).1
        self._ssPort self._ssPin 1,
       (hal.HAL_SPI_Transmit (hal.HAL_GPIO_WritePin s self._ssPort self._ssPin 0) self._hspi
          [toUint8 (reg ||| 0x00), val] 128).2) :=
  rfl

theorem SPI_WriteToBlock_eq (hal : HAL σ) (self : ADXL345_SPI) (s : σ) (reg : Nat)
    (data : Nat → Nat) (n : Nat) :
    ADXL345_SPI._WriteToBlock hal self s reg data n =
      (hal.HAL_GPIO_WritePin
        (hal.HAL_SPI_Transmit (hal.HAL_GPIO_WritePin s self._ssPort self._ssPin 0) self._hspi
          (toUint8 (reg ||| 0x40) ::
            (List.range n).map (fun i => data i)) 128).1
        self._ssPort self._ssPin 1,
       (hal.HAL_SPI_Transmit (hal.HAL_GPIO_WritePin s self._ssPort self._ssPin 0) self._hspi
          (toUint8 (reg ||| 0x40) ::
            (List.range n).map (fun i => data i)) 128).2) :=
  rfl

theorem SPI_ReadFromBlock_eq (hal : HAL σ) (self : ADXL345_SPI) (s : σ) (reg : Nat)
    (data : Nat → Nat) (n : Nat) :
    ADXL345_SPI._ReadFromBlock hal self s reg data n =
      if (hal.HAL_SPI_Transmit (hal.HAL_GPIO_WritePin s self._ssPort self._ssPin 0) self._hspi
          [toUint8 (reg ||| 0xC0)] 128).2 = 0
      then
        (hal.HAL_GPIO_WritePin
          (hal.HAL_SPI_Receive
            (hal.HAL_SPI_Transmit (hal.HAL_GPIO_WritePin s self._ssPort self._ssPin 0)
              self._hspi
              [toUint8 (reg ||| 0xC0)] 128).1
            self._hspi data n 128).1 self._ssPort self._ssPin 1,
         (hal.HAL_SPI_Receive
            (hal.HAL_SPI_Transmit (hal.HAL_GPIO_WritePin s self._ssPort self._ssPin 0)
              self._hspi
              [toUint8 (reg ||| 0xC0)] 128).1
            self._hspi data n 128).2)
      else
        (hal.HAL_GPIO_WritePin
          (hal.HAL_SPI_Transmit (hal.HAL_GPIO_WritePin s self._ssPort self._ssPin 0) self._hspi
            [toUint8 (reg ||| 0xC0)] 128).1
          self._ssPort self._ssPin 1,
         (hal.HAL_SPI_Transmit (hal.HAL_GPIO_WritePin s self._ssPort self._ssPin 0) self._hspi
            [toUint8 (reg ||| 0xC0)] 128).2,
         data) := by
  have e : ((boolToInt true <<< 7) ||| (boolToInt true <<< 6)) = 0xC0 := by decide
  unfold ADXL345_SPI._ReadFromBlock
  simp only [GPIO_PIN_RESET, GPIO_PIN_SET, COM_TIMEOUT, e]

theorem SPI_ReadFrom_eq (hal : HAL σ) (self : ADXL345_SPI) (s : σ) (reg val : Nat) :
    ADXL345_SPI._ReadFrom hal self s reg val =
      if (hal.HAL_SPI_Transmit (hal.HAL_GPIO_WritePin s self._ssPort self._ssPin 0) self._hspi
          [toUint8 (reg ||| 0x80)] 128).2 = 0
      then
        (hal.HAL_GPIO_WritePin
          (hal.HAL_SPI_Receive
            (hal.HAL_SPI_Transmit (hal.HAL_GPIO_WritePin s self._ssPort self._ssPin 0)
              self._hspi
              [toUint8 (reg ||| 0x80)] 128).1
            self._hspi (fun _ => val) 1 128).1 self._ssPort self._ssPin 1,
         (hal.HAL_SPI_Receive
            (hal.HAL_SPI_Transmit (hal.HAL_GPIO_WritePin s self._ssPort self._ssPin 0)
              self._hspi
              [toUint8 (reg ||| 0x80)] 128).1
            self._hspi (fun _ => val) 1 128).2.1,
         (hal.HAL_SPI_Receive
            (hal.HAL_SPI_Transmit (hal.HAL_GPIO_WritePin s self._ssPort self._ssPin 0)
              self._hspi
              [toUint8 (reg ||| 0x80)] 128).1
            self._hspi (fun _ => val) 1 128).2.2 0)
      else
        (hal.HAL_GPIO_WritePin
          (hal.HAL_SPI_Transmit (hal.HAL_GPIO_WritePin s self._ssPort self._ssPin 0) self._hspi
            [toUint8 (reg ||| 0x80)] 128).1
          self._ssPort self._ssPin 1,
         (hal.HAL_SPI_Transmit (hal.HAL_GPIO_WritePin s self._ssPort self._ssPin 0) self._hspi
            [toUint8 (reg ||| 0x80)] 128).2,
         val) := by
  have e : ((boolToInt true <<< 7) ||| (boolToInt false <<< 6)) = 0x80 := by decide
  unfold ADXL345_SPI._ReadFrom
  simp only [GPIO_PIN_RESET, GPIO_PIN_SET, COM_TIMEOUT, e]

/-- C14: SPI framing.  For every 8-bit register address, the first byte
transmitted is `addr OR 0x00` for the single write (followed by the value, two
bytes in all), `addr OR 0x40` for the block write (followed by `data[0..n-1]`
in order, `n + 1` bytes in all), `addr OR 0x80` for the single read and
`addr OR 0xC0` for the block read; the read header is followed, when its
transmit succeeded, by the receive of 1 respectively `n` bytes.  For an address
up to 0x39 the low six bits of the header are the address, bit 7 is set exactly
for the reads and bit 6 exactly for the block operations. -/
theorem SPI_framing (hal : HAL σ) (self : ADXL345_SPI) (s : σ) (t : List HalEvent)
    (addr val : Nat) (data : Nat → Nat) (n : Nat) (haddr : addr < 256) :
    (ADXL345_SPI._WriteTo hal.traced self (s, t) addr val).1.2 =
      t ++ [HalEvent.gpioWritePin self._ssPort self._ssPin 0,
        HalEvent.spiTransmit self._hspi [addr ||| 0x00, val] 128,
        HalEvent.gpioWritePin self._ssPort self._ssPin 1] ∧
    (ADXL345_SPI._WriteToBlock hal.traced self (s, t) addr data n).1.2 =
      t ++ [HalEvent.gpioWritePin self._ssPort self._ssPin 0,
        HalEvent.spiTransmit self._hspi
          ((addr ||| 0x40) :: (List.range n).map (fun i => data i)) 128,
        HalEvent.gpioWritePin self._ssPort self._ssPin 1] ∧
    ((addr ||| 0x40) :: (List.range n).map (fun i => data i)).length = n + 1 ∧
    (∀ k < n,
      ((addr ||| 0x40) :: (List.range n).map (fun i => data i)).getD (k + 1) 0 = data k) ∧
    (ADXL345_SPI._ReadFrom hal.traced self (s, t) addr val).1.2 =
      t ++ ([HalEvent.gpioWritePin self._ssPort self._ssPin 0,
          HalEvent.spiTransmit self._hspi [addr ||| 0x80] 128] ++
        (if (hal.HAL_SPI_Transmit (hal.HAL_GPIO_WritePin s self._ssPort self._ssPin 0)
            self._hspi [addr ||| 0x80] 128).2 = 0
          then [HalEvent.spiReceive self._hspi 1 128] else []) ++
        [HalEvent.gpioWritePin self._ssPort self._ssPin 1]) ∧
    (ADXL345_SPI._ReadFromBlock hal.traced self (s, t) addr data n).1.2 =
      t ++ ([HalEvent.gpioWritePin self._ssPort self._ssPin 0,
          HalEvent.spiTransmit self._hspi [addr ||| 0xC0] 128] ++
        (if (hal.HAL_SPI_Transmit (hal.HAL_GPIO_WritePin s self._ssPort self._ssPin 0)
            self._hspi [addr ||| 0xC0] 128).2 = 0
          then [HalEvent.spiReceive self._hspi n 128] else []) ++
        [HalEvent.gpioWritePin self._ssPort self._ssPin 1]) ∧
    (addr ≤ 0x39 →
      ((addr ||| 0x00) &&& 0x3F = addr ∧ (addr ||| 0x00).testBit 7 = false ∧
        (addr ||| 0x00).testBit 6 = false) ∧
      ((addr ||| 0x40) &&& 0x3F = addr ∧ (addr ||| 0x40).testBit 7 = false ∧
        (addr ||| 0x40).testBit 6 = true) ∧
      ((addr ||| 0x80) &&& 0x3F = addr ∧ (addr ||| 0x80).testBit 7 = true ∧
        (addr ||| 0x80).testBit 6 = false) ∧
      ((addr ||| 0xC0) &&& 0x3F = addr ∧ (addr ||| 0xC0).testBit 7 = true ∧
        (addr ||| 0xC0).testBit 6 = true)) := by
  obtain ⟨h00, h40, h80, hC0⟩ := spi_header_byte addr haddr
  refine ⟨?_, ?_, ?_, ?_, ?_, ?_, ?_⟩
  · rw [SPI_WriteTo_eq, h00]; simp [HAL.traced]
  · rw [SPI_WriteToBlock_eq, h40]; simp [HAL.traced]
  · simp
  · intro k hk
    rw [List.getD_cons_succ]
    exact staged_getD data n k hk
  · rw [SPI_ReadFrom_eq, h80]
    by_cases htx : (hal.HAL_SPI_Transmit (hal.HAL_GPIO_WritePin s self._ssPort self._ssPin 0)
        self._hspi [addr ||| 0x80] 128).2 = 0
    · have htx' : (hal.traced.HAL_SPI_Transmit
          (hal.traced.HAL_GPIO_WritePin (s, t) self._ssPort self._ssPin 0)
          self._hspi [addr ||| 0x80] 128).2 = 0 := htx
      rw [if_pos htx', if_pos htx]
      simp [HAL.traced]
    · have htx' : ¬ (hal.traced.HAL_SPI_Transmit
          (hal.traced.HAL_GPIO_WritePin (s, t) self._ssPort self._ssPin 0)
          self._hspi [addr ||| 0x80] 128).2 = 0 := htx
      rw [if_neg htx', if_neg htx]
      simp [HAL.traced]
  · rw [SPI_ReadFromBlock_eq, hC0]
    by_cases htx : (hal.HAL_SPI_Transmit (hal.HAL_GPIO_WritePin s self._ssPort self._ssPin 0)
        self._hspi [addr ||| 0xC0] 128).2 = 0
    · have htx' : (hal.traced.HAL_SPI_Transmit
          (hal.traced.HAL_GPIO_WritePin (s, t) self._ssPort self._ssPin 0)
          self._hspi [addr ||| 0xC0] 128).2 = 0 := htx
      rw [if_pos htx', if_pos htx]
      simp [HAL.traced]
    · have htx' : ¬ (hal.traced.HAL_SPI_Transmit
          (hal.traced.HAL_GPIO_WritePin (s, t) self._ssPort self._ssPin 0)
          self._hspi [addr ||| 0xC0] 128).2 = 0 := htx
      rw [if_neg htx', if_neg htx]
      simp [HAL.traced]
  · intro hle
    exact spi_header_fields addr (by omega)

/-- Witness for C14: the header of a block read of register 0x32 is 0xF2. -/
theorem SPI_framing_witness :
    (0x32 ||| 0xC0) &&& 0x3F = 0x32 ∧ (0x32 ||| 0xC0).testBit 7 = true ∧
      (0x32 ||| 0xC0).testBit 6 = true :=
  ((SPI_framing DeviceStub.hal (ADXL345_SPI.new 1 2 3)
    { regs := fun _ => 0, pointer := 0, multi := false, selected := false } [] 0x32 0
    (fun _ => 0) 6 (by decide)).2.2.2.2.2.2 (by decide)).2.2.2

theorem select_once (port pin hspi : Nat) (pData : List Nat) (rx : List HalEvent)
    (hrx : rx = [] ∨ ∃ size, rx = [HalEvent.spiReceive hspi size 128]) :
    ([HalEvent.gpioWritePin port pin 0, HalEvent.spiTransmit hspi pData 128] ++ rx ++
        [HalEvent.gpioWritePin port pin 1]).count (HalEvent.gpioWritePin port pin 0) = 1 ∧
    ([HalEvent.gpioWritePin port pin 0, HalEvent.spiTransmit hspi pData 128] ++ rx ++
        [HalEvent.gpioWritePin port pin 1]).count (HalEvent.gpioWritePin port pin 1) = 1 := by
  rcases hrx with h | ⟨size, h⟩ <;> subst h <;> simp [List.count_cons]

/-- C15: select-line discipline.  Each of the four SPI register operations
drives the select line low, then transmits, then receives if and only if the
transmit returned success (reads only), then drives the select line high,
whatever the primitives return; among the events of the operation the line is
driven low exactly once and high exactly once, and the operation returns the
status of the last bus primitive it performed. -/
theorem SPI_select_line_discipline (hal : HAL σ) (self : ADXL345_SPI) (s : σ)
    (t : List HalEvent) (reg val : Nat) (data : Nat → Nat) (n : Nat) :
    GPIO_PIN_RESET = 0 ∧ GPIO_PIN_SET = 1 ∧
    -- the single write
    ((ADXL345_SPI._WriteTo hal.traced self (s, t) reg val).1.2 =
        t ++ ([HalEvent.gpioWritePin self._ssPort self._ssPin 0,
          HalEvent.spiTransmit self._hspi [toUint8 (reg ||| 0x00), val] 128] ++ [] ++
          [HalEvent.gpioWritePin self._ssPort self._ssPin 1]) ∧
      (ADXL345_SPI._WriteTo hal self s reg val).2 =
        (hal.HAL_SPI_Transmit (hal.HAL_GPIO_WritePin s self._ssPort self._ssPin 0) self._hspi
          [toUint8 (reg ||| 0x00), val] 128).2 ∧
      ((ADXL345_SPI._WriteTo hal.traced self (s, t) reg val).1.2.drop t.length).count
        (HalEvent.gpioWritePin self._ssPort self._ssPin 0) = 1 ∧
      ((ADXL345_SPI._WriteTo hal.traced self (s, t) reg val).1.2.drop t.length).count
        (HalEvent.gpioWritePin self._ssPort self._ssPin 1) = 1) ∧
    -- the block write
    ((ADXL345_SPI._WriteToBlock hal.traced self (s, t) reg data n).1.2 =
        t ++ ([HalEvent.gpioWritePin self._ssPort self._ssPin 0,
          HalEvent.spiTransmit self._hspi
            (toUint8 (reg ||| 0x40) :: (List.range n).map (fun i => data i)) 128] ++ [] ++
          [HalEvent.gpioWritePin self._ssPort self._ssPin 1]) ∧
      (ADXL345_SPI._WriteToBlock hal self s reg data n).2 =
        (hal.HAL_SPI_Transmit (hal.HAL_GPIO_WritePin s self._ssPort self._ssPin 0) self._hspi
          (toUint8 (reg ||| 0x40) :: (List.range n).map (fun i => data i)) 128).2 ∧
      ((ADXL345_SPI._WriteToBlock hal.traced self (s, t) reg data n).1.2.drop t.length).count
        (HalEvent.gpioWritePin self._ssPort self._ssPin 0) = 1 ∧
      ((ADXL345_SPI._WriteToBlock hal.traced self (s, t) reg data n).1.2.drop t.length).count
        (HalEvent.gpioWritePin self._ssPort self._ssPin 1) = 1) ∧
    -- the single read
    ((ADXL345_SPI._ReadFrom hal.traced self (s, t) reg val).1.2 =
        t ++ ([HalEvent.gpioWritePin self._ssPort self._ssPin 0,
          HalEvent.spiTransmit self._hspi [toUint8 (reg ||| 0x80)] 128] ++
          (if (hal.HAL_SPI_Transmit (hal.HAL_GPIO_WritePin s self._ssPort self._ssPin 0)
              self._hspi [toUint8 (reg ||| 0x80)] 128).2 = 0
            then [HalEvent.spiReceive self._hspi 1 128] else []) ++
          [HalEvent.gpioWritePin self._ssPort self._ssPin 1]) ∧
      (ADXL345_SPI._ReadFrom hal self s reg val).2.1 =
        (if (hal.HAL_SPI_Transmit (hal.HAL_GPIO_WritePin s self._ssPort self._ssPin 0)
            self._hspi [toUint8 (reg ||| 0x80)] 128).2 = 0
          then (hal.HAL_SPI_Receive
            (hal.HAL_SPI_Transmit (hal.HAL_GPIO_WritePin s self._ssPort self._ssPin 0)
              self._hspi [toUint8 (reg ||| 0x80)] 128).1 self._hspi (fun _ => val) 1 128).2.1
          else (hal.HAL_SPI_Transmit (hal.HAL_GPIO_WritePin s self._ssPort self._ssPin 0)
            self._hspi [toUint8 (reg ||| 0x80)] 128).2) ∧
      ((ADXL345_SPI._ReadFrom hal.traced self (s, t) reg val).1.2.drop t.length).count
        (HalEvent.gpioWritePin self._ssPort self._ssPin 0) = 1 ∧
      ((ADXL345_SPI._ReadFrom hal.traced self (s, t) reg val).1.2.drop t.length).count
        (HalEvent.gpioWritePin self._ssPort self._ssPin 1) = 1) ∧
    -- the block read
    ((ADXL345_SPI._ReadFromBlock hal.traced self (s, t) reg data n).1.2 =
        t ++ ([HalEvent.gpioWritePin self._ssPort self._ssPin 0,
          HalEvent.spiTransmit self._hspi [toUint8 (reg ||| 0xC0)] 128] ++
          (if (hal.HAL_SPI_Transmit (hal.HAL_GPIO_WritePin s self._ssPort self._ssPin 0)
              self._hspi [toUint8 (reg ||| 0xC0)] 128).2 = 0
            then [HalEvent.spiReceive self._hspi n 128] else []) ++
          [HalEvent.gpioWritePin self._ssPort self._ssPin 1]) ∧
      (ADXL345_SPI._ReadFromBlock hal self s reg data n).2.1 =
        (if (hal.HAL_SPI_Transmit (hal.HAL_GPIO_WritePin s self._ssPort self._ssPin 0)
            self._hspi [toUint8 (reg ||| 0xC0)] 128).2 = 0
          then (hal.HAL_SPI_Receive
            (hal.HAL_SPI_Transmit (hal.HAL_GPIO_WritePin s self._ssPort self._ssPin 0)
              self._hspi [toUint8 (reg ||| 0xC0)] 128).1 self._hspi data n 128).2.1
          else (hal.HAL_SPI_Transmit (hal.HAL_GPIO_WritePin s self._ssPort self._ssPin 0)
            self._hspi [toUint8 (reg ||| 0xC0)] 128).2) ∧
      ((ADXL345_SPI._ReadFromBlock hal.traced self (s, t) reg data n).1.2.drop t.length).count
        (HalEvent.gpioWritePin self._ssPort self._ssPin 0) = 1 ∧
      ((ADXL345_SPI._ReadFromBlock hal.traced self (s, t) reg data n).1.2.drop t.length).count
        (HalEvent.gpioWritePin self._ssPort self._ssPin 1) = 1) := by
  have tW : (ADXL345_SPI._WriteTo hal.traced self (s, t) reg val).1.2 =
      t ++ ([HalEvent.gpioWritePin self._ssPort self._ssPin 0,
        HalEvent.spiTransmit self._hspi [toUint8 (reg ||| 0x00), val] 128] ++ [] ++
        [HalEvent.gpioWritePin self._ssPort self._ssPin 1]) := by
    rw [SPI_WriteTo_eq]; simp [HAL.traced]
  have tWB : (ADXL345_SPI._WriteToBlock hal.traced self (s, t) reg data n).1.2 =
      t ++ ([HalEvent.gpioWritePin self._ssPort self._ssPin 0,
        HalEvent.spiTransmit self._hspi
          (toUint8 (reg ||| 0x40) :: (List.range n).map (fun i => data i)) 128] ++ [] ++
        [HalEvent.gpioWritePin self._ssPort self._ssPin 1]) := by
    rw [SPI_WriteToBlock_eq]; simp [HAL.traced]
  have tR : (ADXL345_SPI._ReadFrom hal.traced self (s, t) reg val).1.2 =
      t ++ ([HalEvent.gpioWritePin self._ssPort self._ssPin 0,
        HalEvent.spiTransmit self._hspi [toUint8 (reg ||| 0x80)] 128] ++
        (if (hal.HAL_SPI_Transmit (hal.HAL_GPIO_WritePin s self._ssPort self._ssPin 0)
            self._hspi [toUint8 (reg ||| 0x80)] 128).2 = 0
          then [HalEvent.spiReceive self._hspi 1 128] else []) ++
        [HalEvent.gpioWritePin self._ssPort self._ssPin 1]) := by
    rw [SPI_ReadFrom_eq]
    split_ifs with h1 h2 h2
    · simp [HAL.traced]
    · exact absurd h1 h2
    · exact absurd h2 h1
    · simp [HAL.traced]
  have tRB : (ADXL345_SPI._ReadFromBlock hal.traced self (s, t) reg data n).1.2 =
      t ++ ([HalEvent.gpioWritePin self._ssPort self._ssPin 0,
        HalEvent.spiTransmit self._hspi [toUint8 (reg ||| 0xC0)] 128] ++
        (if (hal.HAL_SPI_Transmit (hal.HAL_GPIO_WritePin s self._ssPort self._ssPin 0)
            self._hspi [toUint8 (reg ||| 0xC0)] 128).2 = 0
          then [HalEvent.spiReceive self._hspi n 128] else []) ++
        [HalEvent.gpioWritePin self._ssPort self._ssPin 1]) := by
    rw [SPI_ReadFromBlock_eq]
    split_ifs with h1 h2 h2
    · simp [HAL.traced]
    · exact absurd h1 h2
    · exact absurd h2 h1
    · simp [HAL.traced]
  refine ⟨rfl, rfl, ⟨tW, ?_, ?_, ?_⟩, ⟨tWB, ?_, ?_, ?_⟩, ⟨tR, ?_, ?_, ?_⟩, ⟨tRB, ?_, ?_, ?_⟩⟩
  · rw [SPI_WriteTo_eq]
  · rw [tW, List.drop_left]
    exact (select_once _ _ _ _ [] (Or.inl rfl)).1
  · rw [tW, List.drop_left]
    exact (select_once _ _ _ _ [] (Or.inl rfl)).2
  · rw [SPI_WriteToBlock_eq]
  · rw [tWB, List.drop_left]
    exact (select_once _ _ _ _ [] (Or.inl rfl)).1
  · rw [tWB, List.drop_left]
    exact (select_once _ _ _ _ [] (Or.inl rfl)).2
  · rw [SPI_ReadFrom_eq]
    split_ifs <;> rfl
  · rw [tR, List.drop_left]
    refine (select_once _ _ _ _ _ ?_).1
    split_ifs
    · exact Or.inr ⟨1, rfl⟩
    · exact Or.inl rfl
  · rw [tR, List.drop_left]
    refine (select_once _ _ _ _ _ ?_).2
    split_ifs
    · exact Or.inr ⟨1, rfl⟩
    · exact Or.inl rfl
  · rw [SPI_ReadFromBlock_eq]
    split_ifs <;> rfl
  · rw [tRB, List.drop_left]
    refine (select_once _ _ _ _ _ ?_).1
    split_ifs
    · exact Or.inr ⟨n, rfl⟩
    · exact Or.inl rfl
  · rw [tRB, List.drop_left]
    refine (select_once _ _ _ _ _ ?_).2
    split_ifs
    · exact Or.inr ⟨n, rfl⟩
    · exact Or.inl rfl

theorem I2C_ReadFrom_eq (hal : HAL σ) (self : ADXL345_I2C) (s : σ) (reg val : Nat) :
    ADXL345_I2C._ReadFrom hal self s reg val =
      if (hal.HAL_I2C_Master_Transmit s self._hi2c self._devAddr [reg] 128).2 = 0 then
        ((hal.HAL_I2C_Master_Receive
            (hal.HAL_I2C_Master_Transmit s self._hi2c self._devAddr [reg] 128).1
            self._hi2c self._devAddr (fun _ => val) 1 128).1,
         (hal.HAL_I2C_Master_Receive
            (hal.HAL_I2C_Master_Transmit s self._hi2c self._devAddr [reg] 128).1
            self._hi2c self._devAddr (fun _ => val) 1 128).2.1,
         (hal.HAL_I2C_Master_Receive
            (hal.HAL_I2C_Master_Transmit s self._hi2c self._devAddr [reg] 128).1
            self._hi2c self._devAddr (fun _ => val) 1 128).2.2 0)
      else
        ((hal.HAL_I2C_Master_Transmit s self._hi2c self._devAddr [reg] 128).1,
         (hal.HAL_I2C_Master_Transmit s self._hi2c self._devAddr [reg] 128).2, val) := by
  unfold ADXL345_I2C._ReadFrom
  simp only [COM_TIMEOUT]

theorem I2C_ReadFromBlock_eq (hal : HAL σ) (self : ADXL345_I2C) (s : σ) (reg : Nat)
    (data : Nat → Nat) (n : Nat) :
    ADXL345_I2C._ReadFromBlock hal self s reg data n =
      if (hal.HAL_I2C_Master_Transmit s self._hi2c self._devAddr [reg] 128).2 = 0 then
        hal.HAL_I2C_Master_Receive
          (hal.HAL_I2C_Master_Transmit s self._hi2c self._devAddr [reg] 128).1
          self._hi2c self._devAddr data n 128
      else
        ((hal.HAL_I2C_Master_Transmit s self._hi2c self._devAddr [reg] 128).1,
         (hal.HAL_I2C_Master_Transmit s self._hi2c self._devAddr [reg] 128).2, data) := by
  unfold ADXL345_I2C._ReadFromBlock
  simp only [COM_TIMEOUT]

theorem I2C_ReadFrom_trace (hal : HAL σ) (self : ADXL345_I2C) (s : σ) (t : List HalEvent)
    (reg val : Nat) :
    (ADXL345_I2C._ReadFrom hal.traced self (s, t) reg val).1.2 =
      t ++ ([HalEvent.i2cTransmit self._hi2c self._devAddr [reg] 128] ++
        (if (hal.HAL_I2C_Master_Transmit s self._hi2c self._devAddr [reg] 128).2 = 0
          then [HalEvent.i2cReceive self._hi2c self._devAddr 1 128] else [])) := by
  rw [I2C_ReadFrom_eq]
  split_ifs with h1 h2 h2
  · simp [HAL.traced]
  · exact absurd h1 h2
  · exact absurd h2 h1
  · simp [HAL.traced]

theorem I2C_ReadFromBlock_trace (hal : HAL σ) (self : ADXL345_I2C) (s : σ)
    (t : List HalEvent) (reg : Nat) (data : Nat → Nat) (n : Nat) :
    (ADXL345_I2C._ReadFromBlock hal.traced self (s, t) reg data n).1.2 =
      t ++ ([HalEvent.i2cTransmit self._hi2c self._devAddr [reg] 128] ++
        (if (hal.HAL_I2C_Master_Transmit s self._hi2c self._devAddr [reg] 128).2 = 0
          then [HalEvent.i2cReceive self._hi2c self._devAddr n 128] else [])) := by
  rw [I2C_ReadFromBlock_eq]
  split_ifs with h1 h2 h2
  · simp [HAL.traced]
  · exact absurd h1 h2
  · exact absurd h2 h1
  · simp [HAL.traced]

theorem I2C_ReadFrom_status (hal : HAL σ) (self : ADXL345_I2C) (s : σ) (reg val : Nat) :
    (ADXL345_I2C._ReadFrom hal self s reg val).2.1 =
      (if (hal.HAL_I2C_Master_Transmit s self._hi2c self._devAddr [reg] 128).2 = 0
        then (hal.HAL_I2C_Master_Receive
          (hal.HAL_I2C_Master_Transmit s self._hi2c self._devAddr [reg] 128).1
          self._hi2c self._devAddr (fun _ => val) 1 128).2.1
        else (hal.HAL_I2C_Master_Transmit s self._hi2c self._devAddr [reg] 128).2) := by
  rw [I2C_ReadFrom_eq]
  split_ifs <;> rfl

theorem I2C_ReadFromBlock_status (hal : HAL σ) (self : ADXL345_I2C) (s : σ) (reg : Nat)
    (data : Nat → Nat) (n : Nat) :
    (ADXL345_I2C._ReadFromBlock hal self s reg data n).2.1 =
      (if (hal.HAL_I2C_Master_Transmit s self._hi2c self._devAddr [reg] 128).2 = 0
        then (hal.HAL_I2C_Master_Receive
          (hal.HAL_I2C_Master_Transmit s self._hi2c self._devAddr [reg] 128).1
          self._hi2c self._devAddr data n 128).2.1
        else (hal.HAL_I2C_Master_Transmit s self._hi2c self._devAddr [reg] 128).2) := by
  rw [I2C_ReadFromBlock_eq]
  split_ifs <;> rfl

/-- C16: I2C framing.  The single write is exactly one transmit of the two
bytes `[addr, value]`; the block write with `n <= 6` is exactly one transmit of
the `n + 1` bytes `[addr, data[0], ..., data[n-1]]`; the single and the block
read transmit the one byte `[addr]` and then, exactly when that transmit
succeeded, receive 1 respectively `n` bytes, and return the status of the last
transaction performed.  Every transaction carries the device address fixed by
the constructor: 0xA6 for the strap low, 0x3A otherwise. -/
theorem I2C_framing (hal : HAL σ) (hi2c sdoState : Nat) (s : σ) (t : List HalEvent)
    (addr val : Nat) (data : Nat → Nat) (n : Nat) :
    (ADXL345_I2C.new hi2c sdoState)._hi2c = hi2c ∧
    (ADXL345_I2C.new hi2c sdoState)._devAddr = (if sdoState = 0 then 0xA6 else 0x3A) ∧
    -- the single write
    (ADXL345_I2C._WriteTo hal.traced (ADXL345_I2C.new hi2c sdoState) (s, t) addr val).1.2 =
      t ++ [HalEvent.i2cTransmit hi2c (if sdoState = 0 then 0xA6 else 0x3A) [addr, val] 128] ∧
    ADXL345_I2C._WriteTo hal (ADXL345_I2C.new hi2c sdoState) s addr val =
      hal.HAL_I2C_Master_Transmit s hi2c (if sdoState = 0 then 0xA6 else 0x3A)
        [addr, val] 128 ∧
    -- the block write
    (n ≤ 6 →
      (ADXL345_I2C._WriteToBlock hal.traced (ADXL345_I2C.new hi2c sdoState)
          (s, t) addr data n).1.2 =
        t ++ [HalEvent.i2cTransmit hi2c (if sdoState = 0 then 0xA6 else 0x3A)
          (addr :: (List.range n).map (fun i => data i)) 128] ∧
      ADXL345_I2C._WriteToBlock hal (ADXL345_I2C.new hi2c sdoState) s addr data n =
        hal.HAL_I2C_Master_Transmit s hi2c (if sdoState = 0 then 0xA6 else 0x3A)
          (addr :: (List.range n).map (fun i => data i)) 128 ∧
      (addr :: (List.range n).map (fun i => data i)).length = n + 1 ∧
      (addr :: (List.range n).map (fun i => data i)).length ≤ BUFFER_MAX + 1 ∧
      (∀ k < n, (addr :: (List.range n).map (fun i => data i)).getD (k + 1) 0 = data k)) ∧
    -- the single read
    (ADXL345_I2C._ReadFrom hal.traced (ADXL345_I2C.new hi2c sdoState) (s, t) addr val).1.2 =
      t ++ ([HalEvent.i2cTransmit hi2c (if sdoState = 0 then 0xA6 else 0x3A) [addr] 128] ++
        (if (hal.HAL_I2C_Master_Transmit s hi2c (if sdoState = 0 then 0xA6 else 0x3A)
            [addr] 128).2 = 0
          then [HalEvent.i2cReceive hi2c (if sdoState = 0 then 0xA6 else 0x3A) 1 128]
          else [])) ∧
    (ADXL345_I2C._ReadFrom hal (ADXL345_I2C.new hi2c sdoState) s addr val).2.1 =
      (if (hal.HAL_I2C_Master_Transmit s hi2c (if sdoState = 0 then 0xA6 else 0x3A)
          [addr] 128).2 = 0
        then (hal.HAL_I2C_Master_Receive
          (hal.HAL_I2C_Master_Transmit s hi2c (if sdoState = 0 then 0xA6 else 0x3A)
            [addr] 128).1
          hi2c (if sdoState = 0 then 0xA6 else 0x3A) (fun _ => val) 1 128).2.1
        else (hal.HAL_I2C_Master_Transmit s hi2c (if sdoState = 0 then 0xA6 else 0x3A)
          [addr] 128).2) ∧
    -- the block read
    (ADXL345_I2C._ReadFromBlock hal.traced (ADXL345_I2C.new hi2c sdoState)
        (s, t) addr data n).1.2 =
      t ++ ([HalEvent.i2cTransmit hi2c (if sdoState = 0 then 0xA6 else 0x3A) [addr] 128] ++
        (if (hal.HAL_I2C_Master_Transmit s hi2c (if sdoState = 0 then 0xA6 else 0x3A)
            [addr] 128).2 = 0
          then [HalEvent.i2cReceive hi2c (if sdoState = 0 then 0xA6 else 0x3A) n 128]
          else [])) ∧
    (ADXL345_I2C._ReadFromBlock hal (ADXL345_I2C.new hi2c sdoState) s addr data n).2.1 =
      (if (hal.HAL_I2C_Master_Transmit s hi2c (if sdoState = 0 then 0xA6 else 0x3A)
          [addr] 128).2 = 0
        then (hal.HAL_I2C_Master_Receive
          (hal.HAL_I2C_Master_Transmit s hi2c (if sdoState = 0 then 0xA6 else 0x3A)
            [addr] 128).1
          hi2c (if sdoState = 0 then 0xA6 else 0x3A) data n 128).2.1
        else (hal.HAL_I2C_Master_Transmit s hi2c (if sdoState = 0 then 0xA6 else 0x3A)
          [addr] 128).2) := by
  have hd : (ADXL345_I2C.new hi2c sdoState)._devAddr = (if sdoState = 0 then 0xA6 else 0x3A) := by
    show toUint8 (if sdoState = 0 then 0xA6 else 0x3A) = _
    split_ifs <;> rfl
  have hh : (ADXL345_I2C.new hi2c sdoState)._hi2c = hi2c := rfl
  refine ⟨hh, hd, ?_, ?_, ?_, ?_, ?_, ?_, ?_⟩
  · show t ++ [HalEvent.i2cTransmit (ADXL345_I2C.new hi2c sdoState)._hi2c
        (ADXL345_I2C.new hi2c sdoState)._devAddr [addr, val] 128] = _
    rw [hd, hh]
  · show hal.HAL_I2C_Master_Transmit s (ADXL345_I2C.new hi2c sdoState)._hi2c
        (ADXL345_I2C.new hi2c sdoState)._devAddr [addr, val] 128 = _
    rw [hd, hh]
  · intro hn
    refine ⟨?_, ?_, ?_, ?_, ?_⟩
    · show t ++ [HalEvent.i2cTransmit (ADXL345_I2C.new hi2c sdoState)._hi2c
          (ADXL345_I2C.new hi2c sdoState)._devAddr
          (addr :: (List.range n).map (fun i => data i)) 128] = _
      rw [hd, hh]
    · show hal.HAL_I2C_Master_Transmit s (ADXL345_I2C.new hi2c sdoState)._hi2c
          (ADXL345_I2C.new hi2c sdoState)._devAddr
          (addr :: (List.range n).map (fun i => data i)) 128 = _
      rw [hd, hh]
    · simp
    · simp [BUFFER_MAX]; omega
    · intro k hk
      rw [List.getD_cons_succ]
      exact staged_getD data n k hk
  · have h := I2C_ReadFrom_trace hal (ADXL345_I2C.new hi2c sdoState) s t addr val
    rw [hd, hh] at h
    exact h
  · have h := I2C_ReadFrom_status hal (ADXL345_I2C.new hi2c sdoState) s addr val
    rw [hd, hh] at h
    exact h
  · have h := I2C_ReadFromBlock_trace hal (ADXL345_I2C.new hi2c sdoState) s t addr data n
    rw [hd, hh] at h
    exact h
  · have h := I2C_ReadFromBlock_status hal (ADXL345_I2C.new hi2c sdoState) s addr data n
    rw [hd, hh] at h
    exact h

/-- Witness for C16: a block write of three bytes stages four bytes. -/
theorem I2C_framing_witness :
    (0x1E :: (List.range 3).map (fun i => [7, 8, 9].getD i 0)).length = 3 + 1 :=
  ((I2C_framing DeviceStub.hal 1 0
    { regs := fun _ => 0, pointer := 0, multi := false, selected := false } [] 0x1E 0
    (fun i => [7, 8, 9].getD i 0) 3).2.2.2.2.1 (by decide)).2.2.1

/-! ## The round trip on the device stub -/

theorem store_at (regs : Nat → Nat) (addr : Nat) (payload : List Nat) (k : Nat)
    (hk : k < payload.length) :
    DeviceStub.store regs addr payload (addr + k) = payload.getD k 0 := by
  unfold DeviceStub.store
  have h : addr ≤ addr + k ∧ addr + k < addr + payload.length := by omega
  rw [if_pos h]
  congr 1
  omega

theorem i2c_round_trip_single (self : ADXL345_I2C) (s : DeviceStub) (R v val : Nat) :
    ((ADXL345_I2C.access DeviceStub.hal self)._WriteTo s R v).2 = 0 ∧
    ((ADXL345_I2C.access DeviceStub.hal self)._ReadFrom
      ((ADXL345_I2C.access DeviceStub.hal self)._WriteTo s R v).1 R val).2 = (0, v) := by
  constructor
  · rfl
  · show (ADXL345_I2C._ReadFrom DeviceStub.hal self
        (ADXL345_I2C._WriteTo DeviceStub.hal self s R v).1 R val).2 = (0, v)
    rw [I2C_ReadFrom_eq]
    simp [ADXL345_I2C._WriteTo, DeviceStub.hal, DeviceStub.store]

theorem i2c_round_trip_block (self : ADXL345_I2C) (s : DeviceStub) (R : Nat)
    (data buf : Nat → Nat) (n : Nat) :
    ((ADXL345_I2C.access DeviceStub.hal self)._WriteToBlock s R data n).2 = 0 ∧
    ((ADXL345_I2C.access DeviceStub.hal self)._ReadFromBlock
      ((ADXL345_I2C.access DeviceStub.hal self)._WriteToBlock s R data n).1 R buf n).2.1 = 0 ∧
    (∀ k < n, ((ADXL345_I2C.access DeviceStub.hal self)._ReadFromBlock
      ((ADXL345_I2C.access DeviceStub.hal self)._WriteToBlock s R data n).1 R buf n).2.2 k =
        data k) := by
  refine ⟨rfl, ?_, ?_⟩
  · show (ADXL345_I2C._ReadFromBlock DeviceStub.hal self
        (ADXL345_I2C._WriteToBlock DeviceStub.hal self s R data n).1 R buf n).2.1 = 0
    rw [I2C_ReadFromBlock_eq]
    simp [DeviceStub.hal]
  · intro k hk
    show (ADXL345_I2C._ReadFromBlock DeviceStub.hal self
        (ADXL345_I2C._WriteToBlock DeviceStub.hal self s R data n).1 R buf n).2.2 k = data k
    rw [I2C_ReadFromBlock_eq]
    have hlen : k < ((List.range n).map (fun i => data i)).length := by simpa using hk
    have hst := store_at s.regs R ((List.range n).map (fun i => data i)) k hlen
    rw [staged_getD data n k hk] at hst
    simp [ADXL345_I2C._WriteToBlock, DeviceStub.hal, hk, DeviceStub.store] at hst ⊢
    try exact hst

theorem spi_round_trip_single (self : ADXL345_SPI) (s : DeviceStub) (R v val : Nat)
    (hR : R ≤ 0x39) :
    ((ADXL345_SPI.access DeviceStub.hal self)._WriteTo s R v).2 = 0 ∧
    ((ADXL345_SPI.access DeviceStub.hal self)._ReadFrom
      ((ADXL345_SPI.access DeviceStub.hal self)._WriteTo s R v).1 R val).2 = (0, v) := by
  obtain ⟨h00, h40, h80, hC0⟩ := spi_header_byte R (by omega)
  obtain ⟨⟨a00, b00, c00⟩, ⟨a40, b40, c40⟩, ⟨a80, b80, c80⟩, ⟨aC0, bC0, cC0⟩⟩ :=
    spi_header_fields R (by omega)
  simp only [Nat.or_zero] at h00 a00 b00 c00
  constructor
  · show (ADXL345_SPI._WriteTo DeviceStub.hal self s R v).2 = 0
    rw [SPI_WriteTo_eq, Nat.or_zero, h00]
    simp [DeviceStub.hal, b00, GPIO_PIN_RESET]
  · show (ADXL345_SPI._ReadFrom DeviceStub.hal self
        (ADXL345_SPI._WriteTo DeviceStub.hal self s R v).1 R val).2 = (0, v)
    rw [SPI_ReadFrom_eq, SPI_WriteTo_eq, Nat.or_zero, h00, h80]
    simp [DeviceStub.hal, a00, b00, c00, a80, b80, c80, DeviceStub.store, GPIO_PIN_RESET]

theorem spi_round_trip_block (self : ADXL345_SPI) (s : DeviceStub) (R : Nat)
    (data buf : Nat → Nat) (n : Nat) (hR : R ≤ 0x39) :
    ((ADXL345_SPI.access DeviceStub.hal self)._WriteToBlock s R data n).2 = 0 ∧
    ((ADXL345_SPI.access DeviceStub.hal self)._ReadFromBlock
      ((ADXL345_SPI.access DeviceStub.hal self)._WriteToBlock s R data n).1 R buf n).2.1 = 0 ∧
    (∀ k < n, ((ADXL345_SPI.access DeviceStub.hal self)._ReadFromBlock
      ((ADXL345_SPI.access DeviceStub.hal self)._WriteToBlock s R data n).1 R buf n).2.2 k =
        data k) := by
  obtain ⟨h00, h40, h80, hC0⟩ := spi_header_byte R (by omega)
  obtain ⟨⟨a00, b00, c00⟩, ⟨a40, b40, c40⟩, ⟨a80, b80, c80⟩, ⟨aC0, bC0, cC0⟩⟩ :=
    spi_header_fields R (by omega)
  simp only [Nat.or_zero] at h00 a00 b00 c00
  refine ⟨?_, ?_, ?_⟩
  · show (ADXL345_SPI._WriteToBlock DeviceStub.hal self s R data n).2 = 0
    rw [SPI_WriteToBlock_eq, h40]
    simp [DeviceStub.hal, b40, GPIO_PIN_RESET]
  · show (ADXL345_SPI._ReadFromBlock DeviceStub.hal self
        (ADXL345_SPI._WriteToBlock DeviceStub.hal self s R data n).1 R buf n).2.1 = 0
    rw [SPI_ReadFromBlock_eq, hC0]
    simp [DeviceStub.hal, bC0, GPIO_PIN_RESET]
  · intro k hk
    show (ADXL345_SPI._ReadFromBlock DeviceStub.hal self
        (ADXL345_SPI._WriteToBlock DeviceStub.hal self s R data n).1 R buf n).2.2 k = data k
    have hlen : k < ((List.range n).map (fun i => data i)).length := by simpa using hk
    have hst := store_at s.regs R ((List.range n).map (fun i => data i)) k hlen
    rw [staged_getD data n k hk] at hst
    rw [SPI_ReadFromBlock_eq, SPI_WriteToBlock_eq, h40, hC0]
    simp [DeviceStub.hal, a40, b40, c40, aC0, bC0, cC0, GPIO_PIN_RESET, hk, DeviceStub.store]
      at hst ⊢
    try exact hst

/-- C17: round-trip law on the device stub, for both transports.  For every
valid register `R` (0x00, or 0x1D..0x39) and every value `v`, the single write
of `v` to `R` followed by the single read of `R` returns success and `v`; for
every `n <= 6` with `R + n - 1 <= 0x39`, the block write of `data[0..n-1]` at
`R` followed by the block read of `n` bytes at `R` returns success and the same
`n` bytes, and touches no register above 0x39. -/
theorem round_trip (i2c : ADXL345_I2C) (spi : ADXL345_SPI) (s : DeviceStub)
    (R v val : Nat) (data buf : Nat → Nat) (n : Nat)
    (hR : R = 0x00 ∨ (0x1D ≤ R ∧ R ≤ 0x39)) (hn : n ≤ 6) (hRn : R + n - 1 ≤ 0x39) :
    (((ADXL345_I2C.access DeviceStub.hal i2c)._WriteTo s R v).2 = 0 ∧
      ((ADXL345_I2C.access DeviceStub.hal i2c)._ReadFrom
        ((ADXL345_I2C.access DeviceStub.hal i2c)._WriteTo s R v).1 R val).2 = (0, v)) ∧
    (((ADXL345_I2C.access DeviceStub.hal i2c)._WriteToBlock s R data n).2 = 0 ∧
      ((ADXL345_I2C.access DeviceStub.hal i2c)._ReadFromBlock
        ((ADXL345_I2C.access DeviceStub.hal i2c)._WriteToBlock s R data n).1 R buf n).2.1 = 0 ∧
      (∀ k < n, ((ADXL345_I2C.access DeviceStub.hal i2c)._ReadFromBlock
        ((ADXL345_I2C.access DeviceStub.hal i2c)._WriteToBlock s R data n).1 R buf n).2.2 k =
          data k)) ∧
    (((ADXL345_SPI.access DeviceStub.hal spi)._WriteTo s R v).2 = 0 ∧
      ((ADXL345_SPI.access DeviceStub.hal spi)._ReadFrom
        ((ADXL345_SPI.access DeviceStub.hal spi)._WriteTo s R v).1 R val).2 = (0, v)) ∧
    (((ADXL345_SPI.access DeviceStub.hal spi)._WriteToBlock s R data n).2 = 0 ∧
      ((ADXL345_SPI.access DeviceStub.hal spi)._ReadFromBlock
        ((ADXL345_SPI.access DeviceStub.hal spi)._WriteToBlock s R data n).1 R buf n).2.1 = 0 ∧
      (∀ k < n, ((ADXL345_SPI.access DeviceStub.hal spi)._ReadFromBlock
        ((ADXL345_SPI.access DeviceStub.hal spi)._WriteToBlock s R data n).1 R buf n).2.2 k =
          data k)) ∧
    (∀ k < n, R + k ≤ 0x39) ∧ n + 1 ≤ BUFFER_MAX + 1 := by
  have hR39 : R ≤ 0x39 := by omega
  refine ⟨i2c_round_trip_single i2c s R v val, i2c_round_trip_block i2c s R data buf n,
    spi_round_trip_single spi s R v val hR39, spi_round_trip_block spi s R data buf n hR39,
    ?_, ?_⟩
  · intro k hk; omega
  · simp only [BUFFER_MAX]; omega

/-- Witness for C17: the SPI single write of 0x5A to register 0x2D reads back
0x5A on a stub whose select line starts high. -/
theorem round_trip_witness :
    ((ADXL345_SPI.access DeviceStub.hal (ADXL345_SPI.new 1 2 3))._ReadFrom
      ((ADXL345_SPI.access DeviceStub.hal (ADXL345_SPI.new 1 2 3))._WriteTo
        { regs := fun _ => 0, pointer := 0, multi := false, selected := false }
        0x2D 0x5A).1 0x2D 0).2 = (0, 0x5A) :=
  (round_trip (ADXL345_I2C.new 1 0) (ADXL345_SPI.new 1 2 3)
    { regs := fun _ => 0, pointer := 0, multi := false, selected := false }
    0x2D 0x5A 0 (fun i => i) (fun _ => 0) 3 (by decide) (by decide) (by decide)).2.2.1.2

/-! ## The read-modify-write setters -/

theorem Field.set_eq_of (ra : RegisterAccess β) (b : β) (arg val : Nat) (f : Field) :
    f.set ra b arg val =
      if (ra._ReadFrom b f.reg val).2.1 ≠ 0 then
        ((ra._ReadFrom b f.reg val).1, (ra._ReadFrom b f.reg val).2.1)
      else
        ra._WriteTo (ra._ReadFrom b f.reg val).1 f.reg
          (f.newByte (ra._ReadFrom b f.reg val).2.2 arg) := by
  cases f <;> rfl

theorem Field.get_eq_of (ra : RegisterAccess β) (b : β) (val : Nat) (f : Field) :
    f.get ra b val =
      ((ra._ReadFrom b f.reg val).1, (ra._ReadFrom b f.reg val).2.1,
        f.extract (ra._ReadFrom b f.reg val).2.2) := by
  cases f <;> rfl

/-- C18: every read-modify-write setter (the ten fields of `Field`) first
reads its register.  If that read returns a non-zero status, the setter returns
that status with the bus as the read left it and issues no write (on the
register-file stub no register changes); if the read succeeds, exactly one
write to the same register follows and the setter returns that write's
result. -/
theorem rmw_setters_read_then_write (ra : RegisterAccess β) (b : β) (t : List Transaction)
    (f : Field) (arg val : Nat) (rf : RegFile) :
    (Field.lowPower.reg = 0x2C ∧ Field.rate.reg = 0x2C ∧ Field.link.reg = 0x2D ∧
      Field.autoSleep.reg = 0x2D ∧ Field.measure.reg = 0x2D ∧ Field.sleep.reg = 0x2D ∧
      Field.wakeup.reg = 0x2D ∧ Field.fifoMode.reg = 0x38 ∧
      Field.fifoTriggerInt2.reg = 0x38 ∧ Field.fifoSamples.reg = 0x38) ∧
    ((ra._ReadFrom b f.reg val).2.1 ≠ 0 →
      f.set ra b arg val = ((ra._ReadFrom b f.reg val).1, (ra._ReadFrom b f.reg val).2.1) ∧
      (f.set ra.traced (b, t) arg val).1.2 = t ++ [Transaction.read f.reg]) ∧
    ((ra._ReadFrom b f.reg val).2.1 = 0 →
      f.set ra b arg val =
        ra._WriteTo (ra._ReadFrom b f.reg val).1 f.reg
          (f.newByte (ra._ReadFrom b f.reg val).2.2 arg) ∧
      (f.set ra.traced (b, t) arg val).1.2 =
        t ++ [Transaction.read f.reg,
          Transaction.write f.reg (f.newByte (ra._ReadFrom b f.reg val).2.2 arg)]) ∧
    ((RegFile.access._ReadFrom rf f.reg val).2.1 ≠ 0 →
      (f.set RegFile.access rf arg val).1.regs = rf.regs) := by
  refine ⟨⟨rfl, rfl, rfl, rfl, rfl, rfl, rfl, rfl, rfl, rfl⟩, ?_, ?_, ?_⟩
  · intro h
    have ht : ¬ (ra.traced._ReadFrom (b, t) f.reg val).2.1 = 0 := h
    constructor
    · rw [Field.set_eq_of, if_pos h]
    · rw [Field.set_eq_of, if_pos ht]
      rfl
  · intro h
    have ht : (ra.traced._ReadFrom (b, t) f.reg val).2.1 = 0 := h
    constructor
    · rw [Field.set_eq_of]; simp [h]
    · rw [Field.set_eq_of]
      simp only [ht, ne_eq, not_true_eq_false, if_false]
      simp [RegisterAccess.traced]
  · intro h
    rw [Field.set_eq_of, if_pos h]
    simp only [RegFile.access]
    split_ifs <;> rfl

/-- Witness for C18: `SetMeasure` over a stub whose read fails with status 3
returns 3. -/
theorem rmw_setters_read_then_write_witness :
    Field.measure.set RegFile.access { regs := fun _ => 0, script := [3] } 1 0 =
      ((RegFile.access._ReadFrom { regs := fun _ => 0, script := [3] }
          Field.measure.reg 0).1,
        (RegFile.access._ReadFrom { regs := fun _ => 0, script := [3] }
          Field.measure.reg 0).2.1) :=
  ((rmw_setters_read_then_write RegFile.access { regs := fun _ => 0, script := [3] } []
    Field.measure 1 0 { regs := fun _ => 0, script := [3] }).2.1 (by decide)).1

/-! ### The field a setter changes -/

set_option maxRecDepth 1000000 in
set_option maxHeartbeats 4000000 in
theorem newByte_bool_fields : ∀ x < 256, ∀ arg < 2,
    (Field.lowPower.newByte x arg = (x &&& (255 - 0x10)) ||| (arg <<< 4)) ∧
    (Field.link.newByte x arg = (x &&& (255 - 0x20)) ||| (arg <<< 5)) ∧
    (Field.autoSleep.newByte x arg = (x &&& (255 - 0x10)) ||| (arg <<< 4)) ∧
    (Field.measure.newByte x arg = (x &&& (255 - 0x08)) ||| (arg <<< 3)) ∧
    (Field.sleep.newByte x arg = (x &&& (255 - 0x04)) ||| (arg <<< 2)) ∧
    (Field.fifoTriggerInt2.newByte x arg = (x &&& (255 - 0x20)) ||| (arg <<< 5)) := by
  decide

set_option maxRecDepth 1000000 in
set_option maxHeartbeats 4000000 in
theorem newByte_two_bit_fields : ∀ x < 256, ∀ arg < 4,
    (Field.wakeup.newByte x arg = (x &&& (255 - 0x03)) ||| (arg <<< 0)) ∧
    (Field.fifoMode.newByte x arg = (x &&& (255 - 0xC0)) ||| (arg <<< 6)) := by
  decide

set_option maxRecDepth 1000000 in
set_option maxHeartbeats 4000000 in
theorem newByte_samples : ∀ x < 256, ∀ arg < 32,
    Field.fifoSamples.newByte x arg = (x &&& (255 - 0x1F)) ||| (arg <<< 0) := by
  decide

set_option maxRecDepth 1000000 in
set_option maxHeartbeats 4000000 in
theorem newByte_rate : ∀ x < 256, ∀ arg < 16,
    Field.rate.newByte x arg = (x &&& 0x10) ||| arg ∧
    ((x &&& 0x10) ||| arg) &&& 0x0F = arg ∧
    ((x &&& 0x10) ||| arg).testBit 4 = x.testBit 4 ∧
    ((x &&& 0x10) ||| arg) < 32 ∧
    (x < 32 → ((x &&& 0x10) ||| arg) >>> 4 = x >>> 4) := by
  decide

theorem Field.newByte_eq (f : Field) (x arg : Nat) (hf : f ≠ Field.rate) (hx : x < 256)
    (harg : arg ≤ f.mask >>> f.shift) :
    f.newByte x arg = (x &&& (255 - f.mask)) ||| (arg <<< f.shift) := by
  cases f
  · exact (newByte_bool_fields x hx arg (Nat.lt_succ_of_le harg)).1
  · exact absurd rfl hf
  · exact (newByte_bool_fields x hx arg (Nat.lt_succ_of_le harg)).2.1
  · exact (newByte_bool_fields x hx arg (Nat.lt_succ_of_le harg)).2.2.1
  · exact (newByte_bool_fields x hx arg (Nat.lt_succ_of_le harg)).2.2.2.1
  · exact (newByte_bool_fields x hx arg (Nat.lt_succ_of_le harg)).2.2.2.2.1
  · exact (newByte_two_bit_fields x hx arg (Nat.lt_succ_of_le harg)).1
  · exact (newByte_two_bit_fields x hx arg (Nat.lt_succ_of_le harg)).2
  · exact (newByte_bool_fields x hx arg (Nat.lt_succ_of_le harg)).2.2.2.2.2
  · exact newByte_samples x hx arg (Nat.lt_succ_of_le harg)

set_option maxRecDepth 1000000 in
set_option maxHeartbeats 4000000 in
theorem extract_byte : ∀ x < 256,
    Field.lowPower.extract x = (x &&& 0x10) >>> 4 ∧
    Field.rate.extract x = (x &&& 0x0F) >>> 0 ∧
    Field.link.extract x = (x &&& 0x20) >>> 5 ∧
    Field.autoSleep.extract x = (x &&& 0x10) >>> 4 ∧
    Field.measure.extract x = (x &&& 0x08) >>> 3 ∧
    Field.sleep.extract x = (x &&& 0x04) >>> 2 ∧
    Field.wakeup.extract x = (x &&& 0x03) >>> 0 ∧
    Field.fifoMode.extract x = (x &&& 0xC0) >>> 6 ∧
    Field.fifoTriggerInt2.extract x = (x &&& 0x20) >>> 5 ∧
    Field.fifoSamples.extract x = (x &&& 0x1F) >>> 0 := by
  decide

theorem Field.extract_eq (f : Field) (x : Nat) (hx : x < 256) :
    f.extract x = (x &&& f.mask) >>> f.shift := by
  obtain ⟨h1, h2, h3, h4, h5, h6, h7, h8, h9, h10⟩ := extract_byte x hx
  cases f
  · exact h1
  · exact h2
  · exact h3
  · exact h4
  · exact h5
  · exact h6
  · exact h7
  · exact h8
  · exact h9
  · exact h10

set_option maxRecDepth 1000000 in
set_option maxHeartbeats 8000000 in
theorem field_frame_bool : ∀ x < 256, ∀ arg < 2, ∀ s < 8,
    ((x &&& (255 - 1 <<< s)) ||| (arg <<< s)) &&& (255 - 1 <<< s) = x &&& (255 - 1 <<< s) ∧
    (((x &&& (255 - 1 <<< s)) ||| (arg <<< s)) &&& (1 <<< s)) >>> s = arg ∧
    ((x &&& (255 - 1 <<< s)) ||| (arg <<< s)) < 256 := by
  decide

set_option maxRecDepth 1000000 in
set_option maxHeartbeats 8000000 in
theorem field_frame_two_bit : ∀ x < 256, ∀ arg < 4,
    (((x &&& (255 - 0x03)) ||| (arg <<< 0)) &&& (255 - 0x03) = x &&& (255 - 0x03) ∧
      (((x &&& (255 - 0x03)) ||| (arg <<< 0)) &&& 0x03) >>> 0 = arg ∧
      ((x &&& (255 - 0x03)) ||| (arg <<< 0)) < 256) ∧
    (((x &&& (255 - 0xC0)) ||| (arg <<< 6)) &&& (255 - 0xC0) = x &&& (255 - 0xC0) ∧
      (((x &&& (255 - 0xC0)) ||| (arg <<< 6)) &&& 0xC0) >>> 6 = arg ∧
      ((x &&& (255 - 0xC0)) ||| (arg <<< 6)) < 256) := by
  decide

set_option maxRecDepth 1000000 in
set_option maxHeartbeats 8000000 in
theorem field_frame_samples : ∀ x < 256, ∀ arg < 32,
    ((x &&& (255 - 0x1F)) ||| (arg <<< 0)) &&& (255 - 0x1F) = x &&& (255 - 0x1F) ∧
    (((x &&& (255 - 0x1F)) ||| (arg <<< 0)) &&& 0x1F) >>> 0 = arg ∧
    ((x &&& (255 - 0x1F)) ||| (arg <<< 0)) < 256 := by
  decide

theorem Field.frame (f : Field) (x arg : Nat) (hf : f ≠ Field.rate) (hx : x < 256)
    (harg : arg ≤ f.mask >>> f.shift) :
    ((x &&& (255 - f.mask)) ||| (arg <<< f.shift)) &&& (255 - f.mask) =
      x &&& (255 - f.mask) ∧
    (((x &&& (255 - f.mask)) ||| (arg <<< f.shift)) &&& f.mask) >>> f.shift = arg ∧
    ((x &&& (255 - f.mask)) ||| (arg <<< f.shift)) < 256 := by
  cases f
  · exact field_frame_bool x hx arg (Nat.lt_succ_of_le harg) 4 (by decide)
  · exact absurd rfl hf
  · exact field_frame_bool x hx arg (Nat.lt_succ_of_le harg) 5 (by decide)
  · exact field_frame_bool x hx arg (Nat.lt_succ_of_le harg) 4 (by decide)
  · exact field_frame_bool x hx arg (Nat.lt_succ_of_le harg) 3 (by decide)
  · exact field_frame_bool x hx arg (Nat.lt_succ_of_le harg) 2 (by decide)
  · exact (field_frame_two_bit x hx arg (Nat.lt_succ_of_le harg)).1
  · exact (field_frame_two_bit x hx arg (Nat.lt_succ_of_le harg)).2
  · exact field_frame_bool x hx arg (Nat.lt_succ_of_le harg) 5 (by decide)
  · exact field_frame_samples x hx arg (Nat.lt_succ_of_le harg)

theorem Field.masks_disjoint (f g : Field) (hreg : g.reg = f.reg) (hne : g ≠ f) :
    (255 - f.mask) &&& g.mask = g.mask := by
  cases f <;> cases g <;>
    first
    | exact absurd rfl hne
    | exact absurd hreg (by decide)
    | rfl

theorem Field.other_field (f g : Field) (x w : Nat) (hreg : g.reg = f.reg) (hne : g ≠ f)
    (hw : w &&& (255 - f.mask) = x &&& (255 - f.mask)) :
    w &&& g.mask = x &&& g.mask := by
  have hd := Field.masks_disjoint f g hreg hne
  calc w &&& g.mask = w &&& ((255 - f.mask) &&& g.mask) := by rw [hd]
    _ = (w &&& (255 - f.mask)) &&& g.mask := by rw [Nat.and_assoc]
    _ = (x &&& (255 - f.mask)) &&& g.mask := by rw [hw]
    _ = x &&& ((255 - f.mask) &&& g.mask) := by rw [Nat.and_assoc]
    _ = x &&& g.mask := by rw [hd]

theorem stub_read_ok (regs : Nat → Nat) (reg val : Nat) :
    RegFile.access._ReadFrom { regs := regs, script := [] } reg val =
      ({ regs := regs, script := [] }, 0, regs reg) := rfl

theorem stub_write_ok (regs : Nat → Nat) (reg w : Nat) :
    RegFile.access._WriteTo { regs := regs, script := [] } reg w =
      ({ regs := fun r => if r = reg then w else regs r, script := [] }, 0) := rfl

/-- C19: each read-modify-write setter other than `SetRate`, called with an
argument that fits its field, writes the byte that equals the register content
`x` it read outside the field and holds the argument inside the field.  On the
register-file stub the matching getter then returns the argument, and the
getter of every other field of the same register returns what it returned
before. -/
theorem rmw_setters_change_only_their_field (ra : RegisterAccess β) (b : β)
    (t : List Transaction) (f g : Field) (arg val val2 val3 : Nat) (regs : Nat → Nat)
    (hf : f ≠ Field.rate) (harg : arg ≤ f.mask >>> f.shift) :
    (Field.lowPower.mask = 0x10 ∧ Field.rate.mask = 0x0F ∧ Field.link.mask = 0x20 ∧
      Field.autoSleep.mask = 0x10 ∧ Field.measure.mask = 0x08 ∧ Field.sleep.mask = 0x04 ∧
      Field.wakeup.mask = 0x03 ∧ Field.fifoMode.mask = 0xC0 ∧
      Field.fifoTriggerInt2.mask = 0x20 ∧ Field.fifoSamples.mask = 0x1F) ∧
    ((ra._ReadFrom b f.reg val).2.1 = 0 → (ra._ReadFrom b f.reg val).2.2 < 256 →
      (f.set ra.traced (b, t) arg val).1.2 =
        t ++ [Transaction.read f.reg,
          Transaction.write f.reg
            (((ra._ReadFrom b f.reg val).2.2 &&& (255 - f.mask)) ||| (arg <<< f.shift))] ∧
      ((((ra._ReadFrom b f.reg val).2.2 &&& (255 - f.mask)) ||| (arg <<< f.shift)) &&&
          (255 - f.mask) = (ra._ReadFrom b f.reg val).2.2 &&& (255 - f.mask)) ∧
      (((((ra._ReadFrom b f.reg val).2.2 &&& (255 - f.mask)) ||| (arg <<< f.shift)) &&&
          f.mask) >>> f.shift = arg)) ∧
    (regs f.reg < 256 →
      (f.set RegFile.access { regs := regs, script := [] } arg val).2 = 0 ∧
      (f.get RegFile.access
        (f.set RegFile.access { regs := regs, script := [] } arg val).1 val2).2 = (0, arg) ∧
      (g.reg = f.reg → g ≠ f →
        (g.get RegFile.access
          (f.set RegFile.access { regs := regs, script := [] } arg val).1 val2).2 =
        (g.get RegFile.access { regs := regs, script := [] } val3).2)) := by
  refine ⟨⟨rfl, rfl, rfl, rfl, rfl, rfl, rfl, rfl, rfl, rfl⟩, ?_, ?_⟩
  · intro hs hx
    obtain ⟨h1, h2, -⟩ := Field.frame f _ arg hf hx harg
    refine ⟨?_, h1, h2⟩
    have ht : (ra.traced._ReadFrom (b, t) f.reg val).2.1 = 0 := hs
    rw [Field.set_eq_of]
    simp only [ht, ne_eq, not_true_eq_false, if_false]
    have hb : f.newByte (ra.traced._ReadFrom (b, t) f.reg val).2.2 arg =
        ((ra._ReadFrom b f.reg val).2.2 &&& (255 - f.mask)) ||| (arg <<< f.shift) :=
      Field.newByte_eq f _ arg hf hx harg
    rw [hb]
    simp [RegisterAccess.traced]
  · intro hx
    obtain ⟨h1, h2, h3⟩ := Field.frame f (regs f.reg) arg hf hx harg
    have hset : f.set RegFile.access { regs := regs, script := [] } arg val =
        ({ regs := fun r => if r = f.reg then
            (regs f.reg &&& (255 - f.mask)) ||| (arg <<< f.shift) else regs r,
           script := [] }, 0) := by
      rw [Field.set_eq_of, stub_read_ok]
      simp only [ne_eq, not_true_eq_false, if_false]
      rw [Field.newByte_eq f _ arg hf hx harg, stub_write_ok]
    rw [hset]
    refine ⟨rfl, ?_, ?_⟩
    · rw [Field.get_eq_of, stub_read_ok]
      simp only [if_true]
      rw [Field.extract_eq f _ h3, h2]
    · intro hreg hne
      rw [Field.get_eq_of, Field.get_eq_of, stub_read_ok, stub_read_ok]
      simp only [hreg, if_true]
      rw [Field.extract_eq g _ h3, Field.extract_eq g _ hx,
        Field.other_field f g (regs f.reg) _ hreg hne h1]

/-- Witness for C19: `SetWakeup 2` on a POWER_CTL content of 0x2D leaves the
link, auto-sleep, measure and sleep bits and stores 2 in the wake-up field. -/
theorem rmw_setters_change_only_their_field_witness :
    (Field.wakeup.get RegFile.access
      (Field.wakeup.set RegFile.access { regs := fun _ => 0x2D, script := [] } 2 0).1 0).2 =
      (0, 2) :=
  ((rmw_setters_change_only_their_field RegFile.access
    { regs := fun _ => 0x2D, script := [] } [] Field.wakeup Field.measure 2 0 0 0
    (fun _ => 0x2D) (by decide) (by decide)).2.2 (by decide)).2.1

/-- C20, as stated, fails: with 0xE5 in register 0x2C, `SetRate 0x0A` succeeds
and leaves 0x0A there, so bits 5..7 of the register content are cleared. -/
theorem SetRate_clears_upper_bits :
    (SetRate RegFile.access { regs := fun _ => 0xE5, script := [] } 0x0A 0).2 = 0 ∧
    (SetRate RegFile.access { regs := fun _ => 0xE5, script := [] } 0x0A 0).1.regs 0x2C
      = 0x0A ∧
    (0xE5 >>> 4 : Nat) = 0x0E ∧ (0x0A >>> 4 : Nat) = 0x00 := by
  decide

/-- C20, amended: for every content `x` of register 0x2C and every rate in
0..15, the byte that `SetRate` writes has bits 0..3 equal to the rate, bit 4
equal to bit 4 of `x` and bits 5..7 clear; its bits 4..7 are those of `x`
whenever bits 5..7 of `x` are clear. -/
theorem SetRate_frame (ra : RegisterAccess β) (b : β) (t : List Transaction)
    (rate bwRateVal : Nat)
    (hs : (ra._ReadFrom b 0x2C bwRateVal).2.1 = 0)
    (hx : (ra._ReadFrom b 0x2C bwRateVal).2.2 < 256) (hr : rate ≤ 15) :
    (SetRate ra.traced (b, t) rate bwRateVal).1.2 =
      t ++ [Transaction.read 0x2C,
        Transaction.write 0x2C (((ra._ReadFrom b 0x2C bwRateVal).2.2 &&& 0x10) ||| rate)] ∧
    (((ra._ReadFrom b 0x2C bwRateVal).2.2 &&& 0x10) ||| rate) &&& 0x0F = rate ∧
    (((ra._ReadFrom b 0x2C bwRateVal).2.2 &&& 0x10) ||| rate).testBit 4 =
      ((ra._ReadFrom b 0x2C bwRateVal).2.2).testBit 4 ∧
    (((ra._ReadFrom b 0x2C bwRateVal).2.2 &&& 0x10) ||| rate) < 32 ∧
    ((ra._ReadFrom b 0x2C bwRateVal).2.2 < 32 →
      (((ra._ReadFrom b 0x2C bwRateVal).2.2 &&& 0x10) ||| rate) >>> 4 =
        (ra._ReadFrom b 0x2C bwRateVal).2.2 >>> 4) := by
  obtain ⟨h1, h2, h3, h4, h5⟩ := newByte_rate _ hx rate (Nat.lt_succ_of_le hr)
  refine ⟨?_, h2, h3, h4, h5⟩
  have ht : (ra.traced._ReadFrom (b, t) Field.rate.reg bwRateVal).2.1 = 0 := hs
  have e : SetRate ra.traced (b, t) rate bwRateVal =
      Field.rate.set ra.traced (b, t) rate bwRateVal := rfl
  rw [e, Field.set_eq_of]
  simp only [ht, ne_eq, not_true_eq_false, if_false]
  have hb : Field.rate.newByte (ra.traced._ReadFrom (b, t) Field.rate.reg bwRateVal).2.2 rate =
      ((ra._ReadFrom b 0x2C bwRateVal).2.2 &&& 0x10) ||| rate := h1
  rw [hb]
  simp [RegisterAccess.traced, Field.reg, REG_BW_RATE]

/-- Witness for C20 (amended): `SetRate 0x0A` on a content of 0x15 writes
0x1A. -/
theorem SetRate_frame_witness :
    (SetRate (RegFile.access).traced ({ regs := fun _ => 0x15, script := [] }, []) 0x0A 0).1.2
      = [] ++ [Transaction.read 0x2C,
        Transaction.write 0x2C (((RegFile.access._ReadFrom
          { regs := fun _ => 0x15, script := [] } 0x2C 0).2.2 &&& 0x10) ||| 0x0A)] :=
  (SetRate_frame RegFile.access { regs := fun _ => 0x15, script := [] } [] 0x0A 0
    (by decide) (by decide) (by decide)).1

/-! ## Failure propagation -/

theorem i2c_failStop (hal : HAL σ) (i2c : ADXL345_I2C) (self : ADXL345) (s : σ) (op : Op) :
    failStop [] (op.run (ADXL345_I2C.access hal.logged i2c) self (s, [])).2.2
      (op.run (ADXL345_I2C.access hal.logged i2c) self (s, [])).2.1.2 = true := by
  cases op <;>
    simp only [Op.run, SetGain, GetGain, SetDataFormat, RefreshDataFormat, GetDataFormat, SetSelfTest,
      GetSelfTest, SetSPI3Wire, GetSPI3Wire, SetIntActiveLow, GetIntActiveLow,
      SetFullRes, GetFullRes, SetLeftJustify, GetLeftJustify, SetRange, GetRange,
      GetDataRaw, GetData, GetDeviceID, CheckDeviceID, SetThreshTapRaw, GetThreshTapRaw,
      SetThreshTap, GetThreshTap, SetOffsetRaw, GetOffsetRaw, SetOffset, GetOffset,
      SetTapDurRaw, GetTapDurRaw, SetTapDur, GetTapDur, SetTapLatencyRaw,
      GetTapLatencyRaw, SetTapLatency, GetTapLatency, SetTapWindowRaw, GetTapWindowRaw,
      SetTapWindow, GetTapWindow, SetThreshActRaw, GetThreshActRaw, SetThreshAct,
      GetThreshAct, SetThreshInactRaw, GetThreshInactRaw, SetThreshInact, GetThreshInact,
      SetTimeInact, GetTimeInact, SetActInactCtl, GetActInactCtl, SetThreshFFRaw,
      GetThreshFFRaw, SetThreshFF, GetThreshFF, SetTimeFFRaw, GetTimeFFRaw, SetTimeFF,
      GetTimeFF, SetTapAxes, GetTapAxes, GetActTapStatus, GetAsleep, SetBwRate,
      GetBwRate, SetLowPower, GetLowPower, SetRate, GetRate, SetPowerCtl, GetPowerCtl,
      SetLink, GetLink, SetAutoSleep, GetAutoSleep, SetMeasure, GetMeasure, SetSleep,
      GetSleep, SetWakeup, GetWakeup, SetIntEnable, GetIntEnable, SetIntMap, GetIntMap,
      GetIntSource, SetFifoCtl, GetFifoCtl, SetFifoMode, GetFifoMode, SetFifoTriggerInt2,
      GetFifoTriggerInt2, SetFifoSamples, GetFifoSamples, GetFifoStatus, GetFifoTrig,
      GetFifoEntries] <;>
    (try simp only [ADXL345_I2C.access, ADXL345_I2C._WriteTo, ADXL345_I2C._WriteToBlock,
      ADXL345_I2C._ReadFrom, ADXL345_I2C._ReadFromBlock, HAL.logged]) <;>
    (try split_ifs) <;> simp_all [failStop]

theorem failStop_spec (tail : List (HalEvent × Option Nat)) (result : Option Nat)
    (htail : ∀ x ∈ tail, x.2 = none) :
    ∀ (L : List (HalEvent × Option Nat)), failStop tail result L = true →
      ∀ (pre : List (HalEvent × Option Nat)) (e : HalEvent) (st : Nat)
        (post : List (HalEvent × Option Nat)),
        L = pre ++ (e, some st) :: post → st ≠ 0 → result = some st ∧ post = tail := by
  intro L
  induction L with
  | nil =>
    intro _ pre e st post h _
    simp at h
  | cons x rest ih =>
    intro hfs pre e st post hL hst
    obtain ⟨ev, status⟩ := x
    cases pre with
    | nil =>
      simp only [List.nil_append, List.cons.injEq, Prod.mk.injEq] at hL
      obtain ⟨⟨-, hstatus⟩, hrest⟩ := hL
      subst hstatus
      subst hrest
      simpa [failStop, hst] using hfs
    | cons p pre1 =>
      simp only [List.cons_append, List.cons.injEq] at hL
      obtain ⟨-, hrest⟩ := hL
      cases status with
      | none => exact ih (by simpa [failStop] using hfs) pre1 e st post hrest hst
      | some s1 =>
        by_cases hs1 : s1 = 0
        · exact ih (by simpa [failStop, hs1] using hfs) pre1 e st post hrest hst
        · have hfs1 : result = some s1 ∧ rest = tail := by simpa [failStop, hs1] using hfs
          have hmem : (e, some st) ∈ tail := by
            rw [← hfs1.2, hrest]
            simp
          have := htail _ hmem
          simp at this

theorem spi_failStop (hal : HAL σ) (spi : ADXL345_SPI) (self : ADXL345) (s : σ) (op : Op) :
    failStop [(HalEvent.gpioWritePin spi._ssPort spi._ssPin 1, none)]
      (op.run (ADXL345_SPI.access hal.logged spi) self (s, [])).2.2
      (op.run (ADXL345_SPI.access hal.logged spi) self (s, [])).2.1.2 = true := by
  cases op <;>
    simp only [Op.run, SetGain, GetGain, SetDataFormat, RefreshDataFormat, GetDataFormat, SetSelfTest,
      GetSelfTest, SetSPI3Wire, GetSPI3Wire, SetIntActiveLow, GetIntActiveLow,
      SetFullRes, GetFullRes, SetLeftJustify, GetLeftJustify, SetRange, GetRange,
      GetDataRaw, GetData, GetDeviceID, CheckDeviceID, SetThreshTapRaw, GetThreshTapRaw,
      SetThreshTap, GetThreshTap, SetOffsetRaw, GetOffsetRaw, SetOffset, GetOffset,
      SetTapDurRaw, GetTapDurRaw, SetTapDur, GetTapDur, SetTapLatencyRaw,
      GetTapLatencyRaw, SetTapLatency, GetTapLatency, SetTapWindowRaw, GetTapWindowRaw,
      SetTapWindow, GetTapWindow, SetThreshActRaw, GetThreshActRaw, SetThreshAct,
      GetThreshAct, SetThreshInactRaw, GetThreshInactRaw, SetThreshInact, GetThreshInact,
      SetTimeInact, GetTimeInact, SetActInactCtl, GetActInactCtl, SetThreshFFRaw,
      GetThreshFFRaw, SetThreshFF, GetThreshFF, SetTimeFFRaw, GetTimeFFRaw, SetTimeFF,
      GetTimeFF, SetTapAxes, GetTapAxes, GetActTapStatus, GetAsleep, SetBwRate,
      GetBwRate, SetLowPower, GetLowPower, SetRate, GetRate, SetPowerCtl, GetPowerCtl,
      SetLink, GetLink, SetAutoSleep, GetAutoSleep, SetMeasure, GetMeasure, SetSleep,
      GetSleep, SetWakeup, GetWakeup, SetIntEnable, GetIntEnable, SetIntMap, GetIntMap,
      GetIntSource, SetFifoCtl, GetFifoCtl, SetFifoMode, GetFifoMode, SetFifoTriggerInt2,
      GetFifoTriggerInt2, SetFifoSamples, GetFifoSamples, GetFifoStatus, GetFifoTrig,
      GetFifoEntries] <;>
    (try simp only [ADXL345_SPI.access, ADXL345_SPI._WriteTo, ADXL345_SPI._WriteToBlock,
      ADXL345_SPI._ReadFrom, ADXL345_SPI._ReadFromBlock, HAL.logged, GPIO_PIN_SET]) <;>
    (try split_ifs) <;> simp_all [failStop]

/-- C21: bus failures propagate verbatim with no retry.  For every public
operation, on either transport and for every HAL: when a bus primitive called
by the operation returns a non-zero status `st`, the operation returns exactly
`st`, and no primitive is called after the failed one on I2C, while on SPI only
the write that drives the select line high follows. -/
theorem bus_failures_propagate (hal : HAL σ) (i2c : ADXL345_I2C) (spi : ADXL345_SPI)
    (self : ADXL345) (s : σ) (op : Op) (pre post : List (HalEvent × Option Nat))
    (e : HalEvent) (st : Nat) (hst : st ≠ 0) :
    ((op.run (ADXL345_I2C.access hal.logged i2c) self (s, [])).2.1.2 =
        pre ++ (e, some st) :: post →
      (op.run (ADXL345_I2C.access hal.logged i2c) self (s, [])).2.2 = some st ∧ post = []) ∧
    ((op.run (ADXL345_SPI.access hal.logged spi) self (s, [])).2.1.2 =
        pre ++ (e, some st) :: post →
      (op.run (ADXL345_SPI.access hal.logged spi) self (s, [])).2.2 = some st ∧
        post = [(HalEvent.gpioWritePin spi._ssPort spi._ssPin 1, none)]) := by
  constructor
  · intro h
    exact failStop_spec [] _ (by simp) _ (i2c_failStop hal i2c self s op) pre e st post h hst
  · intro h
    exact failStop_spec _ _ (by simp) _ (spi_failStop hal spi self s op) pre e st post h hst

/-- Witness for C21: `SetMeasure` over SPI with a read that succeeds and a
write whose transmit returns 5. -/
theorem bus_failures_propagate_witness :
    (Op.run (ADXL345_SPI.access ScriptedHal.logged (ADXL345_SPI.new 1 2 3)) new
      ([0, 0, 5], []) (Op.SetMeasure true 0)).2.2 = some 5 :=
  ((bus_failures_propagate ScriptedHal (ADXL345_I2C.new 1 0) (ADXL345_SPI.new 1 2 3) new
    [0, 0, 5] (Op.SetMeasure true 0)
    [(HalEvent.gpioWritePin 2 3 0, none), (HalEvent.spiTransmit 1 [0xAD] 128, some 0),
      (HalEvent.spiReceive 1 1 128, some 0), (HalEvent.gpioWritePin 2 3 1, none),
      (HalEvent.gpioWritePin 2 3 0, none)]
    [(HalEvent.gpioWritePin 2 3 1, none)]
    (HalEvent.spiTransmit 1 [0x2D, 0x08] 128) 5 (by decide)).2 (by decide)).1

/-! ## The transactions of the public operations -/

theorem traced_explicit (ra : RegisterAccess β) :
    ra.traced =
      { _WriteTo := fun s reg val =>
          (((ra._WriteTo s.1 reg val).1, s.2 ++ [Transaction.write reg val]),
            (ra._WriteTo s.1 reg val).2)
        _WriteToBlock := fun s reg data n =>
          (((ra._WriteToBlock s.1 reg data n).1,
              s.2 ++ [Transaction.writeBlock reg ((List.range n).map data)]),
            (ra._WriteToBlock s.1 reg data n).2)
        _ReadFrom := fun s reg val =>
          (((ra._ReadFrom s.1 reg val).1, s.2 ++ [Transaction.read reg]),
            (ra._ReadFrom s.1 reg val).2.1, (ra._ReadFrom s.1 reg val).2.2)
        _ReadFromBlock := fun s reg data n =>
          (((ra._ReadFromBlock s.1 reg data n).1, s.2 ++ [Transaction.readBlock reg n]),
            (ra._ReadFromBlock s.1 reg data n).2.1, (ra._ReadFromBlock s.1 reg data n).2.2) } :=
  rfl

theorem trace_checks (ra : RegisterAccess β) (self : ADXL345) (b : β) (op : Op) :
    (op.run ra.traced self (b, [])).2.1.2.all
      (fun tr => tr.blockOK && tr.addresses.all validRegister) = true := by
  rw [traced_explicit]
  cases op <;>
    simp only [Op.run, SetGain, GetGain, SetDataFormat, RefreshDataFormat, GetDataFormat, SetSelfTest,
      GetSelfTest, SetSPI3Wire, GetSPI3Wire, SetIntActiveLow, GetIntActiveLow,
      SetFullRes, GetFullRes, SetLeftJustify, GetLeftJustify, SetRange, GetRange,
      GetDataRaw, GetData, GetDeviceID, CheckDeviceID, SetThreshTapRaw, GetThreshTapRaw,
      SetThreshTap, GetThreshTap, SetOffsetRaw, GetOffsetRaw, SetOffset, GetOffset,
      SetTapDurRaw, GetTapDurRaw, SetTapDur, GetTapDur, SetTapLatencyRaw,
      GetTapLatencyRaw, SetTapLatency, GetTapLatency, SetTapWindowRaw, GetTapWindowRaw,
      SetTapWindow, GetTapWindow, SetThreshActRaw, GetThreshActRaw, SetThreshAct,
      GetThreshAct, SetThreshInactRaw, GetThreshInactRaw, SetThreshInact, GetThreshInact,
      SetTimeInact, GetTimeInact, SetActInactCtl, GetActInactCtl, SetThreshFFRaw,
      GetThreshFFRaw, SetThreshFF, GetThreshFF, SetTimeFFRaw, GetTimeFFRaw, SetTimeFF,
      GetTimeFF, SetTapAxes, GetTapAxes, GetActTapStatus, GetAsleep, SetBwRate,
      GetBwRate, SetLowPower, GetLowPower, SetRate, GetRate, SetPowerCtl, GetPowerCtl,
      SetLink, GetLink, SetAutoSleep, GetAutoSleep, SetMeasure, GetMeasure, SetSleep,
      GetSleep, SetWakeup, GetWakeup, SetIntEnable, GetIntEnable, SetIntMap, GetIntMap,
      GetIntSource, SetFifoCtl, GetFifoCtl, SetFifoMode, GetFifoMode, SetFifoTriggerInt2,
      GetFifoTriggerInt2, SetFifoSamples, GetFifoSamples, GetFifoStatus, GetFifoTrig,
      GetFifoEntries] <;>
    (try split_ifs) <;>
    simp [Transaction.blockOK, Transaction.addresses, Transaction.count, validRegister,
      List.range_succ, REG_DEVID, REG_RESERVED_FIRST, REG_RESERVED_LAST, REG_THRESH_TAP, REG_OFSX,
      REG_OFSY, REG_OFSZ, REG_DUR, REG_LATENT, REG_WINDOW, REG_THRESH_ACT,
      REG_THRESH_INACT, REG_TIME_INACT, REG_ACT_INACT_CTL, REG_THRESH_FF, REG_TIME_FF,
      REG_TAP_AXES, REG_ACT_TAP_STATUS, REG_BW_RATE, REG_POWER_CTL, REG_INT_ENABLE,
      REG_INT_MAP, REG_INT_SOURCE, REG_DATA_FORMAT, REG_DATAX0, REG_DATAX1, REG_DATAY0,
      REG_DATAY1, REG_DATAZ0, REG_DATAZ1, REG_FIFO_CTL, REG_FIFO_STATUS]

theorem copyLoop_some (data : Nat → Nat) :
    ∀ (count i : Nat) (arr : List Nat), i + count < arr.length →
      ∃ out, copyLoop data count i arr = some out ∧ out.length = arr.length ∧
        ∀ k, out.getD k 0 = if i < k ∧ k ≤ i + count then data (k - 1) else arr.getD k 0 := by
  intro count
  induction count with
  | zero =>
    intro i arr _
    refine ⟨arr, rfl, rfl, ?_⟩
    intro k
    have : ¬ (i < k ∧ k ≤ i + 0) := by omega
    rw [if_neg this]
  | succ c ih =>
    intro i arr h
    have h1 : i + 1 < arr.length := by omega
    obtain ⟨out, ho, hl, hk⟩ := ih (i + 1) (arr.set (i + 1) (data i)) (by
      rw [List.length_set]; omega)
    refine ⟨out, ?_, ?_, ?_⟩
    · simp only [copyLoop, h1, if_true]
      exact ho
    · rw [hl, List.length_set]
    · intro k
      rw [hk k]
      by_cases hk1 : k = i + 1
      · subst hk1
        have a1 : ¬ (i + 1 < i + 1 ∧ i + 1 ≤ i + 1 + c) := by omega
        have a2 : i < i + 1 ∧ i + 1 ≤ i + (c + 1) := by omega
        rw [if_neg a1, if_pos a2]
        simp [List.getD, h1]
      · have hne : i + 1 ≠ k := fun h => hk1 h.symm
        have e : (arr.set (i + 1) (data i)).getD k 0 = arr.getD k 0 := by
          simp [List.getD, List.getElem?_set, hne]
        rw [e]
        by_cases c1 : i + 1 < k ∧ k ≤ i + 1 + c
        · have c2 : i < k ∧ k ≤ i + (c + 1) := by omega
          rw [if_pos c1, if_pos c2]
        · have c2 : ¬ (i < k ∧ k ≤ i + (c + 1)) := by omega
          rw [if_neg c1, if_neg c2]

theorem copyLoop_none (data : Nat → Nat) :
    ∀ (count i : Nat) (arr : List Nat), 0 < count → arr.length ≤ i + count →
      copyLoop data count i arr = none := by
  intro count
  induction count with
  | zero => intro i arr h; omega
  | succ c ih =>
    intro i arr _ h
    by_cases h1 : i + 1 < arr.length
    · simp only [copyLoop, h1, if_true]
      have hc : 0 < c := by omega
      exact ih (i + 1) _ hc (by rw [List.length_set]; omega)
    · simp only [copyLoop, h1, if_false]

theorem stage_in_bounds (reg : Nat) (data : Nat → Nat) (n : Nat) (dataWithReg : List Nat)
    (hlen : dataWithReg.length = BUFFER_MAX + 1) (hn : n ≤ BUFFER_MAX) :
    ∃ out, stage reg data n dataWithReg = some out ∧ out.length = BUFFER_MAX + 1 ∧
      out.take (n + 1) = reg :: (List.range n).map (fun i => data i) := by
  have hlen7 : dataWithReg.length = 7 := hlen
  have hn6 : n ≤ 6 := hn
  obtain ⟨out, ho, hl, hk⟩ := copyLoop_some data n 0 (dataWithReg.set 0 reg) (by
    rw [List.length_set]; omega)
  rw [List.length_set] at hl
  refine ⟨out, ho, by rw [hl, hlen], ?_⟩
  apply List.ext_getElem
  · simp [hl, hlen7]; omega
  · intro k h1 h2
    have hkn : k < n + 1 := by simpa using h2
    have hko : k < out.length := by omega
    have e1 : (out.take (n + 1))[k] = out.getD k 0 := by
      simp [List.getD, hko]
    rw [e1, hk k]
    cases k with
    | zero =>
      simp [List.getD, hlen7]
    | succ j =>
      have c : 0 < j + 1 ∧ j + 1 ≤ 0 + n := by omega
      rw [if_pos c]
      simp

theorem stage_out_of_bounds (reg : Nat) (data : Nat → Nat) (n : Nat) (dataWithReg : List Nat)
    (hlen : dataWithReg.length = BUFFER_MAX + 1) (hn : BUFFER_MAX < n) :
    stage reg data n dataWithReg = none := by
  have hlen7 : dataWithReg.length = 7 := hlen
  have hn6 : 6 < n := hn
  exact copyLoop_none data n 0 _ (by omega) (by rw [List.length_set]; omega)

theorem mem_trace_checks (ra : RegisterAccess β) (self : ADXL345) (b : β) (op : Op)
    (tr : Transaction) (htr : tr ∈ (op.run ra.traced self (b, [])).2.1.2) :
    tr.blockOK = true ∧ ∀ a ∈ tr.addresses, validRegister a = true := by
  have h := trace_checks ra self b op
  rw [List.all_eq_true] at h
  have h1 := h tr htr
  simp only [Bool.and_eq_true, List.all_eq_true] at h1
  exact h1

/-- C22: block count bound.  Every transaction that a public operation issues
moves at most `BUFFER_MAX` = 6 bytes: a block write is the three offset bytes
at 0x1E, a block read is the three offset bytes at 0x1E or the six data bytes
at 0x32.  For a count up to 6 the copy loop of the block-write framers stores
only inside the staging array of 7 elements and leaves there the register
followed by `data[0..n-1]`, which is what the framers transmit (SPI after
setting the header bits); for a larger count a store falls outside the
array. -/
theorem block_count_bound (ra : RegisterAccess β) (self : ADXL345) (b : β) (op : Op)
    (tr : Transaction) (hal : HAL σ) (i2c : ADXL345_I2C) (spi : ADXL345_SPI) (s : σ)
    (reg : Nat) (data : Nat → Nat) (n : Nat) (dataWithReg : List Nat)
    (htr : tr ∈ (op.run ra.traced self (b, [])).2.1.2)
    (hlen : dataWithReg.length = BUFFER_MAX + 1) :
    BUFFER_MAX = 6 ∧
    tr.count ≤ BUFFER_MAX ∧
    (∀ r d, tr = Transaction.writeBlock r d → r = 0x1E ∧ d.length = 3) ∧
    (∀ r k, tr = Transaction.readBlock r k → (r = 0x1E ∧ k = 3) ∨ (r = 0x32 ∧ k = 6)) ∧
    (n ≤ 6 →
      ∃ out, stage reg data n dataWithReg = some out ∧ out.length = 7 ∧
        out.take (n + 1) = reg :: (List.range n).map (fun i => data i) ∧
        (ADXL345_I2C._WriteToBlock hal.traced i2c (s, []) reg data n).1.2 =
          [HalEvent.i2cTransmit i2c._hi2c i2c._devAddr (out.take (n + 1)) 128] ∧
        (ADXL345_SPI._WriteToBlock hal.traced spi (s, []) reg data n).1.2 =
          [HalEvent.gpioWritePin spi._ssPort spi._ssPin 0,
            HalEvent.spiTransmit spi._hspi
              (toUint8 ((out.take (n + 1)).headD 0 ||| 0x40) :: (out.take (n + 1)).tail) 128,
            HalEvent.gpioWritePin spi._ssPort spi._ssPin 1]) ∧
    (6 < n → stage reg data n dataWithReg = none) := by
  obtain ⟨hb, -⟩ := mem_trace_checks ra self b op tr htr
  refine ⟨rfl, ?_, ?_, ?_, ?_, ?_⟩
  · cases tr with
    | write r v => simp [Transaction.count, BUFFER_MAX]
    | read r => simp [Transaction.count, BUFFER_MAX]
    | writeBlock r d =>
      simp [Transaction.blockOK] at hb
      simp [Transaction.count, BUFFER_MAX, hb.2]
    | readBlock r k =>
      simp [Transaction.blockOK, REG_OFSX, REG_DATAX0] at hb
      simp only [Transaction.count, BUFFER_MAX]
      omega
  · intro r d h
    subst h
    simpa [Transaction.blockOK, REG_OFSX] using hb
  · intro r k h
    subst h
    simpa [Transaction.blockOK, REG_OFSX, REG_DATAX0] using hb
  · intro hn
    obtain ⟨out, ho, hl, ht⟩ := stage_in_bounds reg data n dataWithReg hlen hn
    refine ⟨out, ho, hl, ht, ?_, ?_⟩
    · rw [ht]; rfl
    · rw [ht, SPI_WriteToBlock_eq]
      simp [HAL.traced]
  · intro hn
    exact stage_out_of_bounds reg data n dataWithReg hlen hn

/-- Witness for C22: the block read of `GetDataRaw` moves six bytes. -/
theorem block_count_bound_witness :
    (Transaction.readBlock 0x32 6).count ≤ BUFFER_MAX :=
  (block_count_bound RegFile.access new { regs := fun _ => 0, script := [] }
    (Op.GetDataRaw (fun _ => 0) (fun _ => 0)) (Transaction.readBlock 0x32 6)
    DeviceStub.hal (ADXL345_I2C.new 1 0) (ADXL345_SPI.new 1 2 3)
    { regs := fun _ => 0, pointer := 0, multi := false, selected := false }
    0x1E (fun _ => 0) 3 [0, 0, 0, 0, 0, 0, 0] (by decide) (by decide)).2.1

/-- C23: reserved registers are never accessed.  Every register address
covered by a transaction that a public operation issues, a block access
covering `start`, ..., `start + count - 1`, is 0x00 or lies in 0x1D..0x39, and
so is outside the reserved range 0x01..0x1C. -/
theorem reserved_registers_untouched (ra : RegisterAccess β) (self : ADXL345) (b : β)
    (op : Op) (tr : Transaction) (a : Nat)
    (htr : tr ∈ (op.run ra.traced self (b, [])).2.1.2) (ha : a ∈ tr.addresses) :
    (REG_RESERVED_FIRST = 0x01 ∧ REG_RESERVED_LAST = 0x1C) ∧
    (a = 0x00 ∨ (0x1D ≤ a ∧ a ≤ 0x39)) ∧
    ¬ (REG_RESERVED_FIRST ≤ a ∧ a ≤ REG_RESERVED_LAST) ∧
    (∀ r d, tr = Transaction.writeBlock r d →
      tr.addresses = (List.range d.length).map (fun i => r + i)) ∧
    (∀ r k, tr = Transaction.readBlock r k →
      tr.addresses = (List.range k).map (fun i => r + i)) ∧
    (∀ r v, tr = Transaction.write r v → tr.addresses = [r]) ∧
    (∀ r, tr = Transaction.read r → tr.addresses = [r]) := by
  obtain ⟨-, hv⟩ := mem_trace_checks ra self b op tr htr
  have h := hv a ha
  simp only [validRegister, REG_DEVID, REG_RESERVED_LAST, REG_FIFO_STATUS, Bool.or_eq_true,
    Bool.and_eq_true, decide_eq_true_eq] at h
  refine ⟨⟨rfl, rfl⟩, ?_, ?_, ?_, ?_, ?_, ?_⟩
  · omega
  · simp only [REG_RESERVED_FIRST, REG_RESERVED_LAST]; omega
  · intro r d h; subst h; rfl
  · intro r k h; subst h; rfl
  · intro r v h; subst h; rfl
  · intro r h; subst h; rfl

/-- Witness for C23: the last register covered by the block write of
`SetOffsetRaw` is 0x20. -/
theorem reserved_registers_untouched_witness :
    (0x20 = 0x00 ∨ (0x1D ≤ 0x20 ∧ 0x20 ≤ 0x39)) :=
  (reserved_registers_untouched RegFile.access new { regs := fun _ => 0, script := [] }
    (Op.SetOffsetRaw (fun _ => 0)) (Transaction.writeBlock 0x1E [0, 0, 0]) 0x20
    (by decide) (by decide)).2.1

/-! ## The left-justify division -/

theorem decodeAxis_value (fullRes leftJustify : Bool) (range lo hi : Nat)
    (hr : range ≤ 3) (hlo : lo < 256) (hhi : hi < 256) :
    decodeAxis fullRes leftJustify range lo hi =
      if leftJustify then
        Int.tdiv ((lo : Int) + toInt8 hi * 256)
          (((2 : Nat) ^ (6 - (if fullRes then range else 0)) : Nat) : Int)
      else (lo : Int) + toInt8 hi * 256 := by
  obtain ⟨r1, r2⟩ := assemble_range lo hi hlo hhi
  unfold decodeAxis
  simp only
  rw [toInt16_of_range _ r1 r2, divisor_cases fullRes range hr]
  cases leftJustify
  · simp
  · simp only [if_true]
    exact tdiv_int16 _ _ r1 r2

theorem log2_divisor (fullRes : Bool) (range : Nat) (hr : range ≤ 3) :
    Nat.log2 (if fullRes then 64 >>> range else 64) = 6 - (if fullRes then range else 0) ∧
    ((if fullRes then 64 >>> range else 64) = 64 ∨ (if fullRes then 64 >>> range else 64) = 32 ∨
      (if fullRes then 64 >>> range else 64) = 16 ∨ (if fullRes then 64 >>> range else 64) = 8) := by
  constructor
  · rw [← divisor_pow fullRes range hr, Nat.log2_two_pow]
  · cases fullRes
    · exact Or.inl rfl
    · interval_cases range <;> decide

/-- C24: with the left-justify flag set, each axis value stored by a
successful `GetDataRaw` is the decoded signed 16-bit value `v` divided by `d`
with truncation toward zero, where `d` is 64 when full resolution is off and
`64 >> range`, one of 64, 32, 16, 8, when it is on; the quotient is the
arithmetic right shift of `v` by `log2 d` whenever `v` is non-negative or a
multiple of `d`. -/
theorem GetDataRaw_truncating_division (ra : RegisterAccess β) (self : ADXL345) (b b1 : β)
    (data : Nat → Int) (buffer B : Nat → Nat) (i : Nat) (hi : i < 3)
    (hlj : GetLeftJustify self = true)
    (hread : ra._ReadFromBlock b 0x32 buffer 6 = (b1, 0, B))
    (hB : ∀ k < 6, B k < 256) :
    ((if GetFullRes self then 64 >>> GetRange self else 64) = 64 ∨
      (if GetFullRes self then 64 >>> GetRange self else 64) = 32 ∨
      (if GetFullRes self then 64 >>> GetRange self else 64) = 16 ∨
      (if GetFullRes self then 64 >>> GetRange self else 64) = 8) ∧
    (GetDataRaw ra self b data buffer).2.1 = 0 ∧
    (GetDataRaw ra self b data buffer).2.2 i =
      Int.tdiv ((B (2 * i) : Int) + 256 *
          (if B (2 * i + 1) < 128 then (B (2 * i + 1) : Int) else (B (2 * i + 1) : Int) - 256))
        (((if GetFullRes self then 64 >>> GetRange self else 64 : Nat) : Nat) : Int) ∧
    ((0 ≤ (B (2 * i) : Int) + 256 *
          (if B (2 * i + 1) < 128 then (B (2 * i + 1) : Int) else (B (2 * i + 1) : Int) - 256) ∨
      (((if GetFullRes self then 64 >>> GetRange self else 64 : Nat) : Nat) : Int) ∣
        (B (2 * i) : Int) + 256 *
          (if B (2 * i + 1) < 128 then (B (2 * i + 1) : Int)
            else (B (2 * i + 1) : Int) - 256)) →
      (GetDataRaw ra self b data buffer).2.2 i =
        ((B (2 * i) : Int) + 256 *
          (if B (2 * i + 1) < 128 then (B (2 * i + 1) : Int)
            else (B (2 * i + 1) : Int) - 256)) >>>
          Nat.log2 (if GetFullRes self then 64 >>> GetRange self else 64)) := by
  have hlj1 : self._LeftJustify = true := hlj
  have hr : self._Range ≤ 3 := range_le_three self
  have h1 := hB (2 * i) (by omega)
  have h2 := hB (2 * i + 1) (by omega)
  obtain ⟨hlog, hd⟩ := log2_divisor self._FullRes self._Range hr
  have hpow := divisor_pow self._FullRes self._Range hr
  have hv : (B (2 * i) : Int) + toInt8 (B (2 * i + 1)) * 256 =
      (B (2 * i) : Int) + 256 *
        (if B (2 * i + 1) < 128 then (B (2 * i + 1) : Int) else (B (2 * i + 1) : Int) - 256) := by
    rw [toInt8_eq _ h2]
    ring
  have key : (GetDataRaw ra self b data buffer).2.2 i =
      Int.tdiv ((B (2 * i) : Int) + toInt8 (B (2 * i + 1)) * 256)
        (((2 : Nat) ^ (6 - (if self._FullRes then self._Range else 0)) : Nat) : Int) := by
    rw [GetDataRaw_eq, hread]
    simp only [ne_eq, not_true_eq_false, if_false, hi, if_true]
    rw [decodeAxis_value _ _ _ _ _ hr h1 h2, hlj1]
    simp only [if_true]
  rw [hv] at key
  refine ⟨hd, ?_, ?_, ?_⟩
  · rw [GetDataRaw_eq, hread]
    simp
  · rw [key, hpow]
    rfl
  · intro h
    rw [key]
    have e : Nat.log2 (if GetFullRes self then 64 >>> GetRange self else 64) =
        6 - (if self._FullRes then self._Range else 0) := hlog
    rw [e]
    apply tdiv_eq_shift
    rw [hpow]
    exact h

/-- Witness for C24: full resolution at range 2 (divisor 16); the first axis
of the block F0 FF .. is -16 / 16 = -1. -/
theorem GetDataRaw_truncating_division_witness :
    (GetDataRaw RegFile.access { _dataFormat := 0x0E, _gain := fun _ => 1 }
      { regs := fun r => [0xF0, 0xFF, 0x00, 0x80, 0xFF, 0x7F].getD (r - 0x32) 0, script := [] }
      (fun _ => 0) (fun _ => 0)).2.1 = 0 :=
  (GetDataRaw_truncating_division RegFile.access { _dataFormat := 0x0E, _gain := fun _ => 1 }
    { regs := fun r => [0xF0, 0xFF, 0x00, 0x80, 0xFF, 0x7F].getD (r - 0x32) 0, script := [] }
    { regs := fun r => [0xF0, 0xFF, 0x00, 0x80, 0xFF, 0x7F].getD (r - 0x32) 0, script := [] }
    (fun _ => 0) (fun _ => 0)
    (fun i => if i < 6 then [0xF0, 0xFF, 0x00, 0x80, 0xFF, 0x7F].getD (0x32 + i - 0x32) 0
      else 0)
    0 (by decide) (by decide) rfl (by decide)).2.1

/-- C27: `GetDataRaw` is free of overflow and of division by zero.  For every
cache value the range is at most 3 and the left-justify divisor is one of 64,
32, 16, 8; for every pair of bytes the value `lo + 256 * int8(hi)` lies in
-32768..32767, so neither the conversion to `int16_t` of the assembled value
nor that of the quotient changes the value, and the stored value is the
assembled value, divided by the divisor when left-justify is set. -/
theorem GetDataRaw_overflow_free (self : ADXL345) (lo hi : Nat)
    (hlo : lo < 256) (hhi : hi < 256) :
    self._Range ≤ 3 ∧
    ((if self._FullRes then toUint8 (64 >>> self._Range) else 64) = 64 ∨
      (if self._FullRes then toUint8 (64 >>> self._Range) else 64) = 32 ∨
      (if self._FullRes then toUint8 (64 >>> self._Range) else 64) = 16 ∨
      (if self._FullRes then toUint8 (64 >>> self._Range) else 64) = 8) ∧
    (if self._FullRes then toUint8 (64 >>> self._Range) else 64) ≠ 0 ∧
    (-32768 ≤ (lo : Int) + toInt8 hi * 256 ∧ (lo : Int) + toInt8 hi * 256 ≤ 32767) ∧
    toInt16 ((lo : Int) + toInt8 hi * 256) = (lo : Int) + toInt8 hi * 256 ∧
    toInt16 (Int.tdiv ((lo : Int) + toInt8 hi * 256)
        ((if self._FullRes then toUint8 (64 >>> self._Range) else 64 : Nat) : Int)) =
      Int.tdiv ((lo : Int) + toInt8 hi * 256)
        ((if self._FullRes then toUint8 (64 >>> self._Range) else 64 : Nat) : Int) ∧
    decodeAxis self._FullRes self._LeftJustify self._Range lo hi =
      (if self._LeftJustify then
        Int.tdiv ((lo : Int) + toInt8 hi * 256)
          ((if self._FullRes then toUint8 (64 >>> self._Range) else 64 : Nat) : Int)
      else (lo : Int) + toInt8 hi * 256) := by
  have hr : self._Range ≤ 3 := range_le_three self
  obtain ⟨r1, r2⟩ := assemble_range lo hi hlo hhi
  have hdc := divisor_cases self._FullRes self._Range hr
  have hpow := divisor_pow self._FullRes self._Range hr
  obtain ⟨-, hd⟩ := log2_divisor self._FullRes self._Range hr
  have hd2 : (if self._FullRes then toUint8 (64 >>> self._Range) else 64) =
      (if self._FullRes then 64 >>> self._Range else 64) := by rw [hdc, hpow]
  refine ⟨hr, ?_, ?_, ⟨r1, r2⟩, toInt16_of_range _ r1 r2, ?_, ?_⟩
  · rw [hd2]; exact hd
  · rw [hd2]; rcases hd with h | h | h | h <;> rw [h] <;> decide
  · rw [hdc]; exact tdiv_int16 _ _ r1 r2
  · rw [decodeAxis_value _ _ _ _ _ hr hlo hhi, hdc]

/-- Witness for C27: the bytes 00 80 assemble to -32768, the lowest value. -/
theorem GetDataRaw_overflow_free_witness :
    toInt16 ((0x00 : Int) + toInt8 0x80 * 256) = (0x00 : Int) + toInt8 0x80 * 256 :=
  (GetDataRaw_overflow_free { _dataFormat := 0xFF, _gain := fun _ => 1 } 0x00 0x80
    (by decide) (by decide)).2.2.2.2.1

/-! ## The free-fall time in milliseconds -/

theorem SetTimeFF_eq (ra : RegisterAccess β) (b : β) (time_ms : Nat) :
    SetTimeFF ra b time_ms =
      ra._WriteTo b 0x29
        (if time_ms ≥ 1275 then 255
          else time_ms / 5 + (if time_ms % 5 ≥ 3 then 1 else 0)) := by
  unfold SetTimeFF SetTimeFFRaw toUint8
  simp only [REG_TIME_FF]
  congr 1
  split_ifs <;> omega

/-- C25: for every unsigned `time_ms`, `SetTimeFF` writes to register 0x29
the byte 255 if `time_ms ≥ 1275`, and otherwise `q = time_ms / 5`, plus 1 when
`time_ms % 5 ≥ 3`; this `q` is at most 255, the 8-bit increment does not wrap,
`|5 * q - time_ms| ≤ 2`, and the byte written is monotone non-decreasing in
`time_ms`. -/
theorem SetTimeFF_rounds_to_nearest (ra : RegisterAccess β) (b : β) (t : List Transaction)
    (time_ms other_ms : Nat) :
    (SetTimeFF ra.traced (b, t) time_ms).1.2 =
      t ++ [Transaction.write 0x29
        (if time_ms ≥ 1275 then 255
          else time_ms / 5 + (if time_ms % 5 ≥ 3 then 1 else 0))] ∧
    (if time_ms ≥ 1275 then 255
      else time_ms / 5 + (if time_ms % 5 ≥ 3 then 1 else 0)) ≤ 255 ∧
    (time_ms < 1275 →
      toUint8 (toUint8 (time_ms / 5) + 1) = time_ms / 5 + 1 ∧
      |5 * ((time_ms / 5 + (if time_ms % 5 ≥ 3 then 1 else 0) : Nat) : Int) - (time_ms : Int)|
        ≤ 2) ∧
    (time_ms ≤ other_ms →
      (if time_ms ≥ 1275 then 255
        else time_ms / 5 + (if time_ms % 5 ≥ 3 then 1 else 0)) ≤
      (if other_ms ≥ 1275 then 255
        else other_ms / 5 + (if other_ms % 5 ≥ 3 then 1 else 0))) := by
  refine ⟨?_, ?_, ?_, ?_⟩
  · rw [SetTimeFF_eq]
    simp [RegisterAccess.traced]
  · split_ifs <;> omega
  · intro h
    constructor
    · unfold toUint8
      omega
    · rw [abs_le]
      split_ifs <;> push_cast <;> omega
  · intro h
    split_ifs <;> omega

/-- Witness for C25: 1273 ms is written as 255 (5 * 255 = 1275), 7 ms as 1. -/
theorem SetTimeFF_rounds_to_nearest_witness :
    (SetTimeFF (RegFile.access).traced ({ regs := fun _ => 0, script := [] }, []) 1273).1.2 =
      [] ++ [Transaction.write 0x29
        (if 1273 ≥ 1275 then 255 else 1273 / 5 + (if 1273 % 5 ≥ 3 then 1 else 0))] :=
  (SetTimeFF_rounds_to_nearest RegFile.access { regs := fun _ => 0, script := [] } []
    1273 1274).1

/-! ## The FIFO mode -/

set_option maxRecDepth 1000000 in
theorem fifoMode_keep : ∀ x < 256, (x &&& compl32 0xC0) % 256 = x &&& 0x3F := by
  decide

set_option maxRecDepth 1000000 in
theorem fifoMode_shift : ∀ mode < 256, (mode <<< 6) % 256 = (mode % 4) <<< 6 := by
  decide

set_option maxRecDepth 1000000 in
set_option maxHeartbeats 4000000 in
theorem fifoMode_bits : ∀ x < 256, ∀ m < 4,
    ((x &&& 0x3F) ||| (m <<< 6)) % 64 = x % 64 ∧
    ((x &&& 0x3F) ||| (m <<< 6)) >>> 6 = m ∧
    ((x &&& 0x3F) ||| (m <<< 6)) < 256 ∧
    (∀ i < 6, ((x &&& 0x3F) ||| (m <<< 6)).testBit i = x.testBit i) := by
  decide

set_option maxRecDepth 1000000 in
theorem fifoMode_extract : ∀ x < 256, toUint8 (x >>> 6) = x >>> 6 ∧ x >>> 6 ≤ 3 := by
  decide

theorem SetFifoMode_eq (ra : RegisterAccess β) (b : β) (mode bitfield : Nat) :
    SetFifoMode ra b mode bitfield =
      if (ra._ReadFrom b 0x38 bitfield).2.1 ≠ 0 then
        ((ra._ReadFrom b 0x38 bitfield).1, (ra._ReadFrom b 0x38 bitfield).2.1)
      else
        ra._WriteTo (ra._ReadFrom b 0x38 bitfield).1 0x38
          (toUint8 (((ra._ReadFrom b 0x38 bitfield).2.2 &&& compl32 0xC0) ||| (mode <<< 6))) :=
  rfl

/-- C28: for every content `x` of FIFO_CTL and every mode in 0..255, the byte
that `SetFifoMode` writes has bits 0..5 equal to bits 0..5 of `x` and bits
6..7 equal to `mode % 4`, the bits of `mode << 6` above bit 7 being discarded;
and `GetFifoMode` of a register content `x` returns `x >> 6`, a value in
0..3. -/
theorem SetFifoMode_arbitrary_mode (ra : RegisterAccess β) (b : β) (t : List Transaction)
    (mode bitfield : Nat)
    (hs : (ra._ReadFrom b 0x38 bitfield).2.1 = 0)
    (hx : (ra._ReadFrom b 0x38 bitfield).2.2 < 256) (hm : mode < 256) :
    (SetFifoMode ra.traced (b, t) mode bitfield).1.2 =
      t ++ [Transaction.read 0x38,
        Transaction.write 0x38
          (((ra._ReadFrom b 0x38 bitfield).2.2 &&& 0x3F) ||| ((mode % 4) <<< 6))] ∧
    (mode <<< 6) % 256 = (mode % 4) <<< 6 ∧
    (((ra._ReadFrom b 0x38 bitfield).2.2 &&& 0x3F) ||| ((mode % 4) <<< 6)) % 64 =
      (ra._ReadFrom b 0x38 bitfield).2.2 % 64 ∧
    (∀ i < 6, (((ra._ReadFrom b 0x38 bitfield).2.2 &&& 0x3F) ||| ((mode % 4) <<< 6)).testBit i =
      ((ra._ReadFrom b 0x38 bitfield).2.2).testBit i) ∧
    (((ra._ReadFrom b 0x38 bitfield).2.2 &&& 0x3F) ||| ((mode % 4) <<< 6)) >>> 6 = mode % 4 ∧
    (((ra._ReadFrom b 0x38 bitfield).2.2 &&& 0x3F) ||| ((mode % 4) <<< 6)) < 256 ∧
    (GetFifoMode ra b bitfield).2.2 = (ra._ReadFrom b 0x38 bitfield).2.2 >>> 6 ∧
    (GetFifoMode ra b bitfield).2.2 ≤ 3 := by
  obtain ⟨h1, h2, h3, h4⟩ :=
    fifoMode_bits _ hx (mode % 4) (Nat.mod_lt _ (by decide))
  obtain ⟨h5, h6⟩ := fifoMode_extract _ hx
  have hg : (GetFifoMode ra b bitfield).2.2 =
      toUint8 ((ra._ReadFrom b 0x38 bitfield).2.2 >>> 6) := rfl
  refine ⟨?_, fifoMode_shift mode hm, h1, h4, h2, h3, ?_, ?_⟩
  · have ht : (ra.traced._ReadFrom (b, t) 0x38 bitfield).2.1 = 0 := hs
    have hb : toUint8 (((ra.traced._ReadFrom (b, t) 0x38 bitfield).2.2 &&& compl32 0xC0) |||
        (mode <<< 6)) =
        ((ra._ReadFrom b 0x38 bitfield).2.2 &&& 0x3F) ||| ((mode % 4) <<< 6) := by
      show ((((ra._ReadFrom b 0x38 bitfield).2.2 &&& compl32 0xC0) ||| (mode <<< 6))) % 256 = _
      rw [lor_mod_256, fifoMode_keep _ hx, fifoMode_shift mode hm]
    rw [SetFifoMode_eq]
    simp only [ht, ne_eq, not_true_eq_false, if_false]
    rw [hb]
    simp [RegisterAccess.traced]
  · rw [hg, h5]
  · rw [hg, h5]
    exact h6

/-- Witness for C28: mode 0xFF on a content of 0x2A writes 0xEA. -/
theorem SetFifoMode_arbitrary_mode_witness :
    (SetFifoMode (RegFile.access).traced ({ regs := fun _ => 0x2A, script := [] }, []) 0xFF 0).1.2
      = [] ++ [Transaction.read 0x38,
        Transaction.write 0x38 (((RegFile.access._ReadFrom
          { regs := fun _ => 0x2A, script := [] } 0x38 0).2.2 &&& 0x3F) ||| ((0xFF % 4) <<< 6))] :=
  (SetFifoMode_arbitrary_mode RegFile.access { regs := fun _ => 0x2A, script := [] } [] 0xFF 0
    (by decide) (by decide) (by decide)).1

/-! ## Physical units and raw values -/

theorem squash_byte (v : Nat) (hv : v < 256) :
    SquashLongIntoUint (lrintf ((v : Int) : ℚ)) = v := by
  rw [lrintf_intCast, SquashLongIntoUint_eq]
  omega

theorem squash_offset (o : Int) (h1 : -128 ≤ o) (h2 : o ≤ 127) :
    SquashLongIntoInt (lrintf ((o : Int) : ℚ)) = o := by
  rw [lrintf_intCast, SquashLongIntoInt_eq]
  omega

theorem scaled_byte (v : Nat) :
    (v : ℚ) / 16 * 16 = ((v : Int) : ℚ) ∧ (v : ℚ) * 5 / 8 * 8 / 5 = ((v : Int) : ℚ) ∧
    (v : ℚ) * 5 / 4 * 4 / 5 = ((v : Int) : ℚ) := by
  refine ⟨?_, ?_, ?_⟩ <;> push_cast <;> ring

theorem scaled_offset (o : Int) : 64 * ((o : ℚ) / 64) = ((o : Int) : ℚ) := by
  ring

theorem int8_round_trip (o : Int) (h1 : -128 ≤ o) (h2 : o ≤ 127) :
    toInt8 (int8Byte o) = o ∧ int8Byte o < 256 := by
  unfold toInt8 int8Byte
  constructor
  · split_ifs <;> omega
  · omega

/-- C26: round trip between raw values and physical units.  The getters
derive from the raw byte read: 5 times it for `GetTimeFF`, a sixteenth of it
for the four threshold getters, 5/8 of it for `GetTapDur`, 5/4 of it for
`GetTapLatency` and `GetTapWindow`, and a sixty-fourth of each signed offset
byte for `GetOffset`.  For every raw byte `v` in 0..255 the matching setter,
called with the value derived from `v`, writes exactly `v` to the register;
and for signed offset bytes `o i` in -128..127, `SetOffset` called with
`o i / 64` writes the bytes that hold `o 0`, `o 1`, `o 2`. -/
theorem physical_unit_round_trip (ra : RegisterAccess β) (b : β) (t : List Transaction)
    (v val : Nat) (o raw : Nat → Int) (offset : Nat → ℚ)
    (hv : v < 256) (ho : ∀ i < 3, -128 ≤ o i ∧ o i ≤ 127) :
    ((GetTimeFF ra b val).2.2 = (ra._ReadFrom b 0x29 val).2.2 * 5 ∧
      (GetThreshTap ra b val).2.2 = ((ra._ReadFrom b 0x1D val).2.2 : ℚ) / 16 ∧
      (GetThreshAct ra b val).2.2 = ((ra._ReadFrom b 0x24 val).2.2 : ℚ) / 16 ∧
      (GetThreshInact ra b val).2.2 = ((ra._ReadFrom b 0x25 val).2.2 : ℚ) / 16 ∧
      (GetThreshFF ra b val).2.2 = ((ra._ReadFrom b 0x28 val).2.2 : ℚ) / 16 ∧
      (GetTapDur ra b val).2.2 = ((ra._ReadFrom b 0x21 val).2.2 : ℚ) * 5 / 8 ∧
      (GetTapLatency ra b val).2.2 = ((ra._ReadFrom b 0x22 val).2.2 : ℚ) * 5 / 4 ∧
      (GetTapWindow ra b val).2.2 = ((ra._ReadFrom b 0x23 val).2.2 : ℚ) * 5 / 4 ∧
      (∀ i < 3, (GetOffset ra b offset raw).2.2 i =
        (toInt8 ((ra._ReadFromBlock b 0x1E (fun i => int8Byte (raw i)) 3).2.2 i) : ℚ) / 64)) ∧
    ((SetTimeFF ra.traced (b, t) (v * 5)).1.2 = t ++ [Transaction.write 0x29 v] ∧
      (SetThreshTap ra.traced (b, t) ((v : ℚ) / 16)).1.2 = t ++ [Transaction.write 0x1D v] ∧
      (SetThreshAct ra.traced (b, t) ((v : ℚ) / 16)).1.2 = t ++ [Transaction.write 0x24 v] ∧
      (SetThreshInact ra.traced (b, t) ((v : ℚ) / 16)).1.2 = t ++ [Transaction.write 0x25 v] ∧
      (SetThreshFF ra.traced (b, t) ((v : ℚ) / 16)).1.2 = t ++ [Transaction.write 0x28 v] ∧
      (SetTapDur ra.traced (b, t) ((v : ℚ) * 5 / 8)).1.2 = t ++ [Transaction.write 0x21 v] ∧
      (SetTapLatency ra.traced (b, t) ((v : ℚ) * 5 / 4)).1.2 =
        t ++ [Transaction.write 0x22 v] ∧
      (SetTapWindow ra.traced (b, t) ((v : ℚ) * 5 / 4)).1.2 =
        t ++ [Transaction.write 0x23 v]) ∧
    ((SetOffset ra.traced (b, t) (fun i => (o i : ℚ) / 64) raw).1.2 =
        t ++ [Transaction.writeBlock 0x1E [int8Byte (o 0), int8Byte (o 1), int8Byte (o 2)]] ∧
      (∀ i < 3, toInt8 (int8Byte (o i)) = o i ∧ int8Byte (o i) < 256)) := by
  obtain ⟨e16, e8, e4⟩ := scaled_byte v
  have hq := squash_byte v hv
  refine ⟨⟨rfl, rfl, rfl, rfl, rfl, rfl, rfl, rfl, ?_⟩,
    ⟨?_, ?_, ?_, ?_, ?_, ?_, ?_, ?_⟩, ⟨?_, ?_⟩⟩
  · intro i hi
    show (if i < 3 then _ else _) = _
    rw [if_pos hi]
    rfl
  · rw [SetTimeFF_eq]
    have e : (if v * 5 ≥ 1275 then 255
        else v * 5 / 5 + (if v * 5 % 5 ≥ 3 then 1 else 0)) = v := by
      split_ifs <;> omega
    rw [e]
    simp [RegisterAccess.traced]
  · unfold SetThreshTap SetThreshTapRaw
    simp only [e16, hq]
    simp [RegisterAccess.traced, REG_THRESH_TAP]
  · unfold SetThreshAct SetThreshActRaw
    simp only [e16, hq]
    simp [RegisterAccess.traced, REG_THRESH_ACT]
  · unfold SetThreshInact SetThreshInactRaw
    simp only [e16, hq]
    simp [RegisterAccess.traced, REG_THRESH_INACT]
  · unfold SetThreshFF SetThreshFFRaw
    simp only [e16, hq]
    simp [RegisterAccess.traced, REG_THRESH_FF]
  · unfold SetTapDur SetTapDurRaw
    simp only [e8, hq]
    simp [RegisterAccess.traced, REG_DUR]
  · unfold SetTapLatency SetTapLatencyRaw
    simp only [e4, hq]
    simp [RegisterAccess.traced, REG_LATENT]
  · unfold SetTapWindow SetTapWindowRaw
    simp only [e4, hq]
    simp [RegisterAccess.traced, REG_WINDOW]
  · have h0 := squash_offset (o 0) (ho 0 (by decide)).1 (ho 0 (by decide)).2
    have h1 := squash_offset (o 1) (ho 1 (by decide)).1 (ho 1 (by decide)).2
    have h2 := squash_offset (o 2) (ho 2 (by decide)).1 (ho 2 (by decide)).2
    unfold SetOffset SetOffsetRaw
    simp [RegisterAccess.traced, REG_OFSX, List.range_succ, scaled_offset, h0, h1, h2]
  · intro i hi
    exact int8_round_trip (o i) (ho i hi).1 (ho i hi).2

/-- Witness for C26: the raw byte 255 and the offset bytes -128, 0, 127. -/
theorem physical_unit_round_trip_witness :
    (SetTimeFF (RegFile.access).traced ({ regs := fun _ => 0, script := [] }, []) (255 * 5)).1.2 =
      [] ++ [Transaction.write 0x29 255] ∧
    (SetOffset (RegFile.access).traced ({ regs := fun _ => 0, script := [] }, [])
        (fun i => (((fun i => if i = 0 then -128 else if i = 1 then 0 else 127) i : Int) : ℚ) / 64)
        (fun _ => 0)).1.2 =
      [] ++ [Transaction.writeBlock 0x1E [int8Byte (-128), int8Byte 0, int8Byte 127]] :=
  ⟨(physical_unit_round_trip RegFile.access { regs := fun _ => 0, script := [] } [] 255 0
      (fun i => if i = 0 then -128 else if i = 1 then 0 else 127) (fun _ => 0) (fun _ => 0)
      (by decide) (by decide)).2.1.1,
    (physical_unit_round_trip RegFile.access { regs := fun _ => 0, script := [] } [] 255 0
      (fun i => if i = 0 then -128 else if i = 1 then 0 else 127) (fun _ => 0) (fun _ => 0)
      (by decide) (by decide)).2.2.1⟩

end ADXL345
